import Mathlib

/-!
# Verification model of the DRMD generator core

A shallow embedding, in Lean 4, of the core of the `drmdgenerator`
repository: the unit-normalization engine (`utils/unitConverter.ts`), the
XML codec (`utils/xmlGenerator.ts` / `utils/xmlParser.ts` together with the
chemical-identifier table `casMapping.ts`), the extraction normalizer and the
validation report (both inline in `App.tsx`), over the document model of
`types.ts`.

Modelling conventions:

* JavaScript strings are Lean `String`s; most manipulation is done on the
  underlying `List Char`.  `String.toLowerCase` is modelled ASCII-only (all
  characters the embedded code compares case-insensitively are ASCII or
  case-less), and the JS `\s` class is modelled by `Char.isWhitespace`.
* JavaScript numbers are modelled by exact fractions (`QRat`).  The only
  float-sensitive operation the code performs is
  `Number(x.toPrecision(6)).toString()`, which is modelled by exact decimal
  rounding to six significant digits followed by shortest positional decimal
  rendering; at six significant digits the two agree on the magnitudes the
  converter table produces.
* The DOM is modelled by a tree type `Xml`; XML text escaping and one
  serialisation/parse step cancel, so element text is stored unescaped,
  which is exactly what `textContent` of the parsed DOM yields.
* `crypto.randomUUID()` and `new Date()` are modelled by explicit string
  parameters (`newUuid`, `today`); no claim depends on their values.
-/

/-! ## String helpers (JS string primitives used by the sources) -/

/-- The JS `\s` character class (approximated by Unicode whitespace). -/
def isWsChar (c : Char) : Bool := c.isWhitespace

/-- ASCII lower-casing of one character, the behaviour of
`String.prototype.toLowerCase` on the ASCII range. -/
def lowChar (c : Char) : Char :=
  if 'A' ≤ c ∧ c ≤ 'Z' then Char.ofNat (c.toNat + 32) else c

/-- Charwise ASCII lower-casing. -/
def lowChars (l : List Char) : List Char := l.map lowChar

/-- `String.prototype.trim`. -/
def trimChars (l : List Char) : List Char :=
  ((l.dropWhile isWsChar).reverse.dropWhile isWsChar).reverse

/-- `replace(/\s+/g, '')`: delete every whitespace character. -/
def stripAllWs (l : List Char) : List Char := l.filter (fun c => !isWsChar c)

/-- `replace(/^\s*in\s+/i, '')`: strip a leading (case-insensitive) `in `
token, as found in table headers such as `"in mg/kg"`.  If the pattern does
not match, the string is unchanged. -/
def dropInWord (l : List Char) : List Char :=
  let l1 := l.dropWhile isWsChar
  match l1 with
  | c1 :: c2 :: rest =>
      if lowChar c1 = 'i' ∧ lowChar c2 = 'n' ∧ (rest.headD ' ').isWhitespace ∧ rest ≠ [] then
        rest.dropWhile isWsChar
      else l
  | _ => l

/-- The sequential replacements
`replace(/⁻¹/g,'-1').replace(/⁻/g,'-').replace(/¹/g,'1').replace(/²/g,'2').replace(/³/g,'3')`;
because the two-character replacement `⁻¹ ↦ -1` agrees with the two
single-character ones, the composite is a per-character map. -/
def superChars (l : List Char) : List Char :=
  l.map fun c =>
    if c = '⁻' then '-'
    else if c = '¹' then '1'
    else if c = '²' then '2'
    else if c = '³' then '3'
    else c

/-- `replace(/[^0-9.eE-]/g, '')`: keep only characters legal in a float. -/
def numFilterChars (l : List Char) : List Char :=
  l.filter fun c => c.isDigit ∨ c = '.' ∨ c = 'e' ∨ c = 'E' ∨ c = '-'

/-- Value of a most-significant-first list of decimal digit characters. -/
def digitsToNat (l : List Char) : Nat :=
  l.foldl (fun a c => a * 10 + (c.toNat - '0'.toNat)) 0

/-! ## Exact fractions

JavaScript numbers are modelled by exact fractions `num / den`
(unnormalised, `den > 0` by construction), so that every arithmetic step of
the embedded code evaluates by kernel reduction. -/

/-- An exact (unnormalised) fraction `num / den`. -/
structure QRat where
  num : ℤ
  den : ℕ
deriving Repr

instance : OfNat QRat n := ⟨⟨n, 1⟩⟩

/-- Decimal literals (`0.001`, `1e-6`, …) denote exact fractions. -/
instance : OfScientific QRat :=
  ⟨fun m s e => if s then ⟨(m : ℤ), 10 ^ e⟩ else ⟨(m : ℤ) * 10 ^ e, 1⟩⟩

/-- Multiplication of fractions. -/
def QRat.mul (a b : QRat) : QRat := ⟨a.num * b.num, a.den * b.den⟩

/-- Value equality of fractions (cross multiplication). -/
def QRat.valEq (a b : QRat) : Prop := a.num * (b.den : ℤ) = b.num * (a.den : ℤ)

instance : DecidablePred fun p : QRat × QRat => p.1.valEq p.2 := by
  intro p; unfold QRat.valEq; infer_instance

instance (a b : QRat) : Decidable (a.valEq b) := by unfold QRat.valEq; infer_instance

/-- Value order on fractions (cross multiplication, positive denominators). -/
def QRat.valLe (a b : QRat) : Prop := a.num * (b.den : ℤ) ≤ b.num * (a.den : ℤ)

instance (a b : QRat) : Decidable (a.valLe b) := by unfold QRat.valLe; infer_instance

/-- Strict value order. -/
def QRat.valLt (a b : QRat) : Prop := a.num * (b.den : ℤ) < b.num * (a.den : ℤ)

instance (a b : QRat) : Decidable (a.valLt b) := by unfold QRat.valLt; infer_instance

/-- Absolute value. -/
def QRat.abs (a : QRat) : QRat := ⟨(a.num.natAbs : ℤ), a.den⟩

/-- Negation. -/
def QRat.neg (a : QRat) : QRat := ⟨-a.num, a.den⟩

/-- `⌊a + 1/2⌋` (round half towards `+∞`), on exact fractions. -/
def QRat.roundHalfUp (a : QRat) : ℤ := Int.fdiv (2 * a.num + a.den) (2 * a.den)

/-- `10 ^ e` as an exact fraction, for `e : ℤ`. -/
def qpow10 : ℤ → QRat
  | Int.ofNat n => ⟨(10 : ℤ) ^ n, 1⟩
  | Int.negSucc n => ⟨1, 10 ^ (n + 1)⟩

/-! ## Decimal rendering and `parseFloat` over exact fractions -/

/-- Fueled helper for decimal digit strings of a natural number. -/
def natCharsAux : Nat → Nat → List Char
  | 0, n => [Nat.digitChar (n % 10)]
  | fuel + 1, n =>
      if n < 10 then [Nat.digitChar n]
      else natCharsAux fuel (n / 10) ++ [Nat.digitChar (n % 10)]

/-- Decimal digit characters of a natural number (most significant first). -/
def natChars (n : Nat) : List Char := natCharsAux n n

/-- Decimal rendering of a natural number, as JS renders an integral Number. -/
def natStr (n : Nat) : String := String.mk (natChars n)

/-- Number of decimal digits of a natural number (fueled). -/
def digitsLenAux : Nat → Nat → Nat
  | 0, _ => 1
  | fuel + 1, n => if n < 10 then 1 else 1 + digitsLenAux fuel (n / 10)

/-- Number of decimal digits of a natural number. -/
def digitsLen (n : Nat) : Nat := digitsLenAux n n

/-- `parseFloat` over exact fractions: optional sign, decimal mantissa with
at least one digit, optional well-formed exponent (a malformed exponent is
trailing junk and ignored, as in JS).  Returns `none` where JS returns
`NaN`. -/
def parseFloatQ (l0 : List Char) : Option QRat :=
  let l := l0.dropWhile isWsChar
  let sl : ℤ × List Char :=
    match l with
    | '-' :: r => (-1, r)
    | '+' :: r => (1, r)
    | _ => (1, l)
  let intDigits := sl.2.takeWhile Char.isDigit
  let l2 := sl.2.dropWhile Char.isDigit
  let fr : List Char × List Char :=
    match l2 with
    | '.' :: r => (r.takeWhile Char.isDigit, r.dropWhile Char.isDigit)
    | _ => ([], l2)
  if intDigits.isEmpty ∧ fr.1.isEmpty then none
  else
    let mant : QRat :=
      ⟨sl.1 * ((digitsToNat intDigits : ℤ) * 10 ^ fr.1.length + (digitsToNat fr.1 : ℤ)),
       10 ^ fr.1.length⟩
    let expo : ℤ :=
      match fr.2 with
      | c :: r =>
          if c = 'e' ∨ c = 'E' then
            match r with
            | '-' :: r2 =>
                let d := r2.takeWhile Char.isDigit
                if d.isEmpty then 0 else -(digitsToNat d : ℤ)
            | '+' :: r2 =>
                let d := r2.takeWhile Char.isDigit
                if d.isEmpty then 0 else (digitsToNat d : ℤ)
            | _ =>
                let d := r.takeWhile Char.isDigit
                if d.isEmpty then 0 else (digitsToNat d : ℤ)
          else 0
      | [] => 0
    some (mant.mul (qpow10 expo))

/-- Divide out common factors of ten: `(fuel, m, k) ↦ (m / 10^j, k - j)` for
the largest `j ≤ min fuel k` with `10^j ∣ m`. -/
def stripTenAux : Nat → Nat → Nat → Nat × Nat
  | 0, m, k => (m, k)
  | fuel + 1, m, k =>
      if k = 0 ∨ m % 10 ≠ 0 then (m, k)
      else stripTenAux fuel (m / 10) (k - 1)

/-- Positional decimal rendering of `m / 10^k` (for `m ≠ 0`), with trailing
fractional zeros removed — the `toString` of the corresponding Number. -/
def fracFormat (m : Nat) (k : Nat) : String :=
  let p := stripTenAux k m k
  let ds := natChars p.1
  if p.2 = 0 then String.mk ds
  else if ds.length ≤ p.2 then
    "0." ++ String.mk (List.replicate (p.2 - ds.length) '0') ++ String.mk ds
  else
    String.mk (ds.take (ds.length - p.2)) ++ "." ++ String.mk (ds.drop (ds.length - p.2))

/-- Largest `e : ℤ` with `10^e ≤ x`, for a positive fraction `x`. -/
def decExp (x : QRat) : ℤ :=
  let e0 : ℤ := (digitsLen x.num.natAbs : ℤ) - (digitsLen x.den : ℤ)
  if (qpow10 e0).valLe x then e0 else e0 - 1

/-- The composite `Number(x.toPrecision(6)).toString()` of the converter:
round to six significant decimal digits (half away from zero, per the
`toPrecision` specification) and render the shortest positional decimal. -/
def toPrecision6Str (q : QRat) : String :=
  if q.num = 0 then "0"
  else
    let x := q.abs
    let e := decExp x
    let n : ℤ := (x.mul (qpow10 ((5 : ℤ) - e))).roundHalfUp
    let sgn : String := if q.num < 0 then "-" else ""
    if 5 ≤ e then
      sgn ++ natStr n.natAbs ++ String.mk (List.replicate (e - 5).natAbs '0')
    else
      sgn ++ fracFormat n.natAbs (5 - e).natAbs

/-! ## The unit table and converter (`utils/unitConverter.ts`) -/

/-- A row of the D-SI conversion table (`interface DsiConversion`). -/
structure DsiConversion where
  dsiUnit : String
  factor : QRat
  offset : Option QRat := none
deriving Repr

/-- Table-row constructor. -/
def dsiRow (k u : String) (f : QRat) : String × DsiConversion := (k, ⟨u, f, none⟩)

/-- `UNIT_MAP` of `utils/unitConverter.ts`, in source order (a JS object
literal with string keys preserves insertion order). -/
def UNIT_MAP : List (String × DsiConversion) := [
  dsiRow "%" "\\one" 0.01,
  dsiRow "percent" "\\one" 0.01,
  dsiRow "ppm" "\\one" 1e-6,
  dsiRow "ppb" "\\one" 1e-9,
  dsiRow "mg/kg" "\\milli\\gram\\kilogram\\tothe{-1}" 1,
  dsiRow "mgkg-1" "\\milli\\gram\\kilogram\\tothe{-1}" 1,
  dsiRow "mgkg⁻¹" "\\milli\\gram\\kilogram\\tothe{-1}" 1,
  dsiRow "µg/kg" "\\micro\\gram\\kilogram\\tothe{-1}" 1,
  dsiRow "ug/kg" "\\micro\\gram\\kilogram\\tothe{-1}" 1,
  dsiRow "μg/kg" "\\micro\\gram\\kilogram\\tothe{-1}" 1,
  dsiRow "µgkg-1" "\\micro\\gram\\kilogram\\tothe{-1}" 1,
  dsiRow "ugkg-1" "\\micro\\gram\\kilogram\\tothe{-1}" 1,
  dsiRow "µgkg⁻¹" "\\micro\\gram\\kilogram\\tothe{-1}" 1,
  dsiRow "g/kg" "\\gram\\kilogram\\tothe{-1}" 1,
  dsiRow "gkg-1" "\\gram\\kilogram\\tothe{-1}" 1,
  dsiRow "gkg⁻¹" "\\gram\\kilogram\\tothe{-1}" 1,
  dsiRow "mg/g" "\\milli\\gram\\gram\\tothe{-1}" 1,
  dsiRow "mgg-1" "\\milli\\gram\\gram\\tothe{-1}" 1,
  dsiRow "ug/g" "\\micro\\gram\\gram\\tothe{-1}" 1,
  dsiRow "µg/g" "\\micro\\gram\\gram\\tothe{-1}" 1,
  dsiRow "μg/g" "\\micro\\gram\\gram\\tothe{-1}" 1,
  dsiRow "g/100g" "\\gram\\hecto\\gram\\tothe{-1}" 1,
  dsiRow "m2/g" "\\metre\\tothe{2}\\gram\\tothe{-1}" 1,
  dsiRow "m²/g" "\\metre\\tothe{2}\\gram\\tothe{-1}" 1,
  dsiRow "cm2/g" "\\centi\\metre\\tothe{2}\\gram\\tothe{-1}" 1,
  dsiRow "cm²/g" "\\centi\\metre\\tothe{2}\\gram\\tothe{-1}" 1,
  dsiRow "mg" "\\milli\\gram" 1e-6,
  dsiRow "g" "\\gram" 0.001,
  dsiRow "kg" "\\kilogram" 1,
  dsiRow "ug" "\\micro\\gram" 1e-9,
  dsiRow "µg" "\\micro\\gram" 1e-9,
  dsiRow "μg" "\\micro\\gram" 1e-9,
  dsiRow "lb" "\\kilogram" 0.45359237,
  dsiRow "oz" "\\kilogram" 0.02834959,
  dsiRow "t" "\\tonne" 1000,
  dsiRow "nm" "\\nano\\metre" 1e-9,
  dsiRow "µm" "\\micro\\metre" 1e-6,
  dsiRow "μm" "\\micro\\metre" 1e-6,
  dsiRow "um" "\\micro\\metre" 1e-6,
  dsiRow "mm" "\\milli\\metre" 0.001,
  dsiRow "cm" "\\centi\\metre" 0.01,
  dsiRow "m" "\\metre" 1,
  dsiRow "km" "\\kilo\\metre" 1000,
  dsiRow "inch" "\\metre" 0.0254,
  dsiRow "in" "\\metre" 0.0254,
  dsiRow "ft" "\\metre" 0.3048,
  dsiRow "mi" "\\metre" 1609.344,
  dsiRow "m2" "\\metre\\tothe{2}" 1,
  dsiRow "m²" "\\metre\\tothe{2}" 1,
  dsiRow "cm2" "\\centi\\metre\\tothe{2}" 0.0001,
  dsiRow "cm²" "\\centi\\metre\\tothe{2}" 0.0001,
  dsiRow "g/cm3" "\\gram\\centi\\metre\\tothe{-3}" 1,
  dsiRow "g/cm³" "\\gram\\centi\\metre\\tothe{-3}" 1,
  dsiRow "°C" "\\degreecelsius" 1,
  dsiRow "C" "\\degreecelsius" 1,
  dsiRow "K" "\\kelvin" 1,
  dsiRow "h" "\\hour" 3600,
  dsiRow "min" "\\minute" 60,
  dsiRow "s" "\\second" 1,
  dsiRow "L" "\\litre" 0.001,
  dsiRow "l" "\\litre" 0.001,
  dsiRow "mL" "\\milli\\litre" 1e-6,
  dsiRow "ml" "\\milli\\litre" 1e-6,
  dsiRow "Pa" "\\pascal" 1,
  dsiRow "bar" "\\pascal" 100000,
  dsiRow "mbar" "\\pascal" 100,
  dsiRow "hPa" "\\pascal" 100]

/-- Exact-key lookup in `UNIT_MAP`. -/
def unitLookup (cs : List Char) : Option DsiConversion :=
  (UNIT_MAP.find? fun kv => kv.1.data = cs).map (·.2)

/-- Case-insensitive lookup
(`Object.keys(UNIT_MAP).find(k => k.toLowerCase() === cleanUnit.toLowerCase())`),
returning the first key in insertion order. -/
def unitLookupCI (cs : List Char) : Option DsiConversion :=
  (UNIT_MAP.find? fun kv => lowChars kv.1.data = lowChars cs).map (·.2)

/-- Steps 3 of `convertToDSI`: unit normalisation and the four-stage lookup
(direct, case-insensitive, then both again after unicode-superscript
replacement). -/
def resolveUnit (unit : String) : Option DsiConversion :=
  let c0 := stripAllWs (trimChars (dropInWord unit.data))
  match unitLookup c0 with
  | some c => some c
  | none =>
    match unitLookupCI c0 with
    | some c => some c
    | none =>
      let c1 := superChars c0
      match unitLookup c1 with
      | some c => some c
      | none => unitLookupCI c1

/-- `convertToDSI` of `utils/unitConverter.ts`.  `none` arguments model the
JS `undefined`/`null` cases; a numeric argument is modelled by its string
rendering (the source stringifies immediately). -/
def convertToDSI (value : Option String) (unit : Option String) : String × String :=
  match value with
  | none => ("", "")
  | some v =>
    match unit with
    | none => ("", "")
    | some u =>
      let conv := resolveUnit u
      let numStrC := numFilterChars v.data
      let numValue := parseFloatQ numStrC
      match conv, numValue with
      | some c, some x =>
          let finalValue := x.mul c.factor
          let formatted :=
            if ¬ c.factor.valEq 1 then toPrecision6Str finalValue else String.mk numStrC
          (formatted, c.dsiUnit)
      | _, _ => ("", "")

/-! ## Chemical identifier table (`casMapping.ts`) -/

/-- `CAS_DATABASE` of `casMapping.ts`: chemical element names and symbols to
CAS registry numbers (source order). -/
def CAS_DATABASE : List (String × String) := [
  ("hydrogen", "1333-74-0"),
  ("h", "1333-74-0"),
  ("helium", "7440-59-7"),
  ("he", "7440-59-7"),
  ("lithium", "7439-93-2"),
  ("li", "7439-93-2"),
  ("beryllium", "7440-41-7"),
  ("be", "7440-41-7"),
  ("boron", "7440-42-8"),
  ("b", "7440-42-8"),
  ("carbon", "7440-44-0"),
  ("c", "7440-44-0"),
  ("nitrogen", "7727-37-9"),
  ("n", "7727-37-9"),
  ("oxygen", "7782-44-7"),
  ("o", "7782-44-7"),
  ("fluorine", "7782-41-4"),
  ("f", "7782-41-4"),
  ("neon", "7440-01-9"),
  ("ne", "7440-01-9"),
  ("sodium", "7440-23-5"),
  ("na", "7440-23-5"),
  ("magnesium", "7439-95-4"),
  ("mg", "7439-95-4"),
  ("aluminum", "7429-90-5"),
  ("aluminium", "7429-90-5"),
  ("al", "7429-90-5"),
  ("silicon", "7440-21-3"),
  ("si", "7440-21-3"),
  ("phosphorus", "7723-14-0"),
  ("p", "7723-14-0"),
  ("sulfur", "7704-34-9"),
  ("s", "7704-34-9"),
  ("chlorine", "7782-50-5"),
  ("cl", "7782-50-5"),
  ("argon", "7440-37-1"),
  ("ar", "7440-37-1"),
  ("potassium", "7440-09-7"),
  ("k", "7440-09-7"),
  ("calcium", "7440-70-2"),
  ("ca", "7440-70-2"),
  ("scandium", "7440-20-2"),
  ("sc", "7440-20-2"),
  ("titanium", "7440-32-6"),
  ("ti", "7440-32-6"),
  ("vanadium", "7440-62-2"),
  ("v", "7440-62-2"),
  ("chromium", "7440-47-3"),
  ("cr", "7440-47-3"),
  ("manganese", "7439-96-5"),
  ("mn", "7439-96-5"),
  ("iron", "7439-89-6"),
  ("fe", "7439-89-6"),
  ("cobalt", "7440-48-4"),
  ("co", "7440-48-4"),
  ("nickel", "7440-02-0"),
  ("ni", "7440-02-0"),
  ("copper", "7440-50-8"),
  ("cu", "7440-50-8"),
  ("zinc", "7440-66-6"),
  ("zn", "7440-66-6"),
  ("gallium", "7440-55-3"),
  ("ga", "7440-55-3"),
  ("germanium", "7440-56-4"),
  ("ge", "7440-56-4"),
  ("arsenic", "7440-38-2"),
  ("as", "7440-38-2"),
  ("selenium", "7782-49-2"),
  ("se", "7782-49-2"),
  ("bromine", "7726-95-6"),
  ("br", "7726-95-6"),
  ("krypton", "7439-90-9"),
  ("kr", "7439-90-9"),
  ("rubidium", "7440-17-7"),
  ("rb", "7440-17-7"),
  ("strontium", "7440-24-6"),
  ("sr", "7440-24-6"),
  ("yttrium", "7440-65-5"),
  ("y", "7440-65-5"),
  ("zirconium", "7440-67-7"),
  ("zr", "7440-67-7"),
  ("niobium", "7440-03-1"),
  ("nb", "7440-03-1"),
  ("molybdenum", "7439-98-7"),
  ("mo", "7439-98-7"),
  ("technetium", "7440-26-8"),
  ("tc", "7440-26-8"),
  ("ruthenium", "7440-18-8"),
  ("ru", "7440-18-8"),
  ("rhodium", "7440-16-6"),
  ("rh", "7440-16-6"),
  ("palladium", "7440-05-3"),
  ("pd", "7440-05-3"),
  ("silver", "7440-22-4"),
  ("ag", "7440-22-4"),
  ("cadmium", "7440-43-9"),
  ("cd", "7440-43-9"),
  ("indium", "7440-74-6"),
  ("in", "7440-74-6"),
  ("tin", "7440-31-5"),
  ("sn", "7440-31-5"),
  ("antimony", "7440-36-0"),
  ("sb", "7440-36-0"),
  ("tellurium", "13494-80-9"),
  ("te", "13494-80-9"),
  ("iodine", "7553-56-2"),
  ("i", "7553-56-2"),
  ("xenon", "7440-63-3"),
  ("xe", "7440-63-3"),
  ("cesium", "7440-46-2"),
  ("cs", "7440-46-2"),
  ("barium", "7440-39-3"),
  ("ba", "7440-39-3"),
  ("lanthanum", "7439-91-0"),
  ("la", "7439-91-0"),
  ("cerium", "7440-45-1"),
  ("ce", "7440-45-1"),
  ("praseodymium", "7440-10-0"),
  ("pr", "7440-10-0"),
  ("neodymium", "7440-00-8"),
  ("nd", "7440-00-8"),
  ("promethium", "7440-12-2"),
  ("pm", "7440-12-2"),
  ("samarium", "7440-19-9"),
  ("sm", "7440-19-9"),
  ("europium", "7440-53-1"),
  ("eu", "7440-53-1"),
  ("gadolinium", "7440-54-2"),
  ("gd", "7440-54-2"),
  ("terbium", "7440-27-9"),
  ("tb", "7440-27-9"),
  ("dysprosium", "7429-91-6"),
  ("dy", "7429-91-6"),
  ("holmium", "7440-60-0"),
  ("ho", "7440-60-0"),
  ("erbium", "7440-52-0"),
  ("er", "7440-52-0"),
  ("thulium", "7440-30-4"),
  ("tm", "7440-30-4"),
  ("ytterbium", "7440-64-4"),
  ("yb", "7440-64-4"),
  ("lutetium", "7439-94-3"),
  ("lu", "7439-94-3"),
  ("hafnium", "7440-58-6"),
  ("hf", "7440-58-6"),
  ("tantalum", "7440-25-7"),
  ("ta", "7440-25-7"),
  ("tungsten", "7440-33-7"),
  ("w", "7440-33-7"),
  ("rhenium", "7440-15-5"),
  ("re", "7440-15-5"),
  ("osmium", "7440-04-2"),
  ("os", "7440-04-2"),
  ("iridium", "7439-88-5"),
  ("ir", "7439-88-5"),
  ("platinum", "7440-06-4"),
  ("pt", "7440-06-4"),
  ("gold", "7440-57-5"),
  ("au", "7440-57-5"),
  ("mercury", "7439-97-6"),
  ("hg", "7439-97-6"),
  ("thallium", "7440-28-0"),
  ("tl", "7440-28-0"),
  ("lead", "7439-92-1"),
  ("pb", "7439-92-1"),
  ("bismuth", "7440-69-9"),
  ("bi", "7440-69-9"),
  ("polonium", "7440-08-6"),
  ("po", "7440-08-6"),
  ("astatine", "7440-68-8"),
  ("at", "7440-68-8"),
  ("radon", "10043-92-2"),
  ("rn", "10043-92-2"),
  ("francium", "7440-73-5"),
  ("fr", "7440-73-5"),
  ("radium", "7440-14-4"),
  ("ra", "7440-14-4"),
  ("actinium", "7440-34-8"),
  ("ac", "7440-34-8"),
  ("thorium", "7440-29-1"),
  ("th", "7440-29-1"),
  ("protactinium", "7440-13-3"),
  ("pa", "7440-13-3"),
  ("uranium", "7440-61-1"),
  ("u", "7440-61-1"),
  ("neptunium", "7439-99-8"),
  ("np", "7439-99-8"),
  ("plutonium", "7440-07-5"),
  ("pu", "7440-07-5"),
  ("americium", "7440-35-9"),
  ("am", "7440-35-9"),
  ("curium", "7440-51-9"),
  ("cm", "7440-51-9"),
  ("berkelium", "7440-40-6"),
  ("bk", "7440-40-6"),
  ("californium", "7440-71-3"),
  ("cf", "7440-71-3"),
  ("einsteinium", "7429-92-7"),
  ("es", "7429-92-7"),
  ("fermium", "7440-72-4"),
  ("fm", "7440-72-4"),
  ("mendelevium", "7440-11-1"),
  ("md", "7440-11-1"),
  ("nobelium", "10028-14-5"),
  ("no", "10028-14-5"),
  ("lawrencium", "22537-19-5"),
  ("lr", "22537-19-5"),
  ("rutherfordium", "53850-36-5"),
  ("rf", "53850-36-5"),
  ("dubnium", "53850-35-4"),
  ("db", "53850-35-4"),
  ("seaborgium", "54038-81-2"),
  ("sg", "54038-81-2"),
  ("bohrium", "54037-14-8"),
  ("bh", "54037-14-8"),
  ("hassium", "54037-57-9"),
  ("hs", "54037-57-9"),
  ("meitnerium", "54038-01-6"),
  ("mt", "54038-01-6"),
  ("darmstadtium", "54083-77-1"),
  ("ds", "54083-77-1"),
  ("roentgenium", "54386-24-2"),
  ("rg", "54386-24-2"),
  ("copernicium", "54084-26-3"),
  ("cn", "54084-26-3"),
  ("nihonium", "54084-70-7"),
  ("nh", "54084-70-7"),
  ("flerovium", "54085-16-4"),
  ("fl", "54085-16-4"),
  ("moscovium", "54085-64-2"),
  ("mc", "54085-64-2"),
  ("livermorium", "54100-71-9"),
  ("lv", "54100-71-9"),
  ("tennessine", "87658-56-8"),
  ("ts", "87658-56-8"),
  ("oganesson", "54144-19-3"),
  ("og", "54144-19-3")]

/-- `getCasNumber` of `casMapping.ts`: case-insensitive, trimmed lookup;
a falsy (empty) name yields no identifier. -/
def getCasNumber (nameOrSymbol : String) : Option String :=
  if nameOrSymbol = "" then none
  else
    (CAS_DATABASE.find? fun kv =>
      kv.1.data = trimChars (lowChars nameOrSymbol.data)).map (·.2)

/-! ## The document model (`types.ts`)

Transcribed from `types.ts`; the fields `generalComment` and
`binaryDocument` do not appear in the committed `types.ts` revision but are
read and written by `xmlGenerator.ts` / `xmlParser.ts`, so they are included
with the defaults those files rely on (empty string / absent). -/

/-- A bounding box `[page, yMin, xMin, yMax, xMax]` (opaque to the core). -/
abbrev Coords := List Int

/-- Per-field bounding boxes (opaque to the core). -/
abbrev FieldCoords := List (String × Coords)

/-- `interface Identifier`. -/
structure Identifier where
  scheme : String
  value : String
  link : String
deriving Repr, DecidableEq

/-- `interface Address`. -/
structure Address where
  street : String
  streetNo : String
  postCode : String
  city : String
  countryCode : String
deriving Repr, DecidableEq

/-- `interface Producer`. -/
structure Producer where
  uuid : String
  name : String
  email : String
  phone : String
  fax : String
  address : Address
  organizationIdentifiers : List Identifier
  fieldCoordinates : Option FieldCoords := none
  sectionCoordinates : Option Coords := none
deriving Repr, DecidableEq

/-- `interface ResponsiblePerson`. -/
structure ResponsiblePerson where
  uuid : String
  name : String
  role : String
  description : String
  mainSigner : Bool
  cryptElectronicSeal : Bool
  cryptElectronicSignature : Bool
  cryptElectronicTimeStamp : Bool
  fieldCoordinates : Option FieldCoords := none
  sectionCoordinates : Option Coords := none
deriving Repr, DecidableEq

/-- `interface AdministrativeData`.  `validityType` keeps the source's
string union `"Until Revoked" | "Time After Dispatch" | "Specific Time"`;
the durations are the non-negative integers the claims quantify over. -/
structure AdministrativeData where
  title : String
  uniqueIdentifier : String
  dataVersion : Nat
  documentIdentifiers : List Identifier
  validityType : String
  durationY : Nat
  durationM : Nat
  dateOfIssue : String
  specificTime : String
  producers : List Producer
  responsiblePersons : List ResponsiblePerson
  fieldCoordinates : Option FieldCoords := none
  sectionCoordinates : Option Coords := none
deriving Repr, DecidableEq

/-- `interface Material`. -/
structure Material where
  uuid : String
  name : String
  materialClass : String
  description : String
  itemQuantities : String
  minimumSampleSize : String
  isCertified : Bool
  materialIdentifiers : List Identifier
  fieldCoordinates : Option FieldCoords := none
  sectionCoordinates : Option Coords := none
deriving Repr, DecidableEq

/-- `interface Quantity`. -/
structure Quantity where
  uuid : String
  name : String
  label : String
  value : String
  dsiValue : String
  dsiUnit : String
  quantityKind : String
  unit : String
  uncertainty : String
  coverageFactor : String
  coverageProbability : String
  distribution : String
  identifiers : List Identifier
  fieldCoordinates : Option FieldCoords := none
  sectionCoordinates : Option Coords := none
deriving Repr, DecidableEq

/-- `interface MeasurementResult`. -/
structure MeasurementResult where
  uuid : String
  name : String
  description : String
  quantities : List Quantity
  fieldCoordinates : Option FieldCoords := none
  sectionCoordinates : Option Coords := none
deriving Repr, DecidableEq

/-- `interface MaterialProperty`. -/
structure MaterialProperty where
  uuid : String
  id : String
  name : String
  isCertified : Bool
  description : String
  procedures : String
  results : List MeasurementResult
deriving Repr, DecidableEq

/-- `interface OfficialStatements`. -/
structure OfficialStatements where
  intendedUse : String
  commutability : String
  storageInformation : String
  handlingInstructions : String
  metrologicalTraceability : String
  healthAndSafety : String
  subcontractors : String
  legalNotice : String
  referenceToCertificationReport : String
deriving Repr, DecidableEq

/-- `interface CustomStatement`. -/
structure CustomStatement where
  uuid : String
  name : String
  content : String
deriving Repr, DecidableEq

/-- `interface Statements`. -/
structure Statements where
  official : OfficialStatements
  custom : List CustomStatement
deriving Repr, DecidableEq

/-- `interface Comment`. -/
structure DocComment where
  uuid : String
  author : String
  date : String
  content : String
deriving Repr, DecidableEq

/-- `interface AdditionalDocument`. -/
structure AdditionalDocument where
  uuid : String
  title : String
  type : String
  content : String
deriving Repr, DecidableEq

/-- The attached binary document written by the decoder
(`data.binaryDocument = {fileName, mimeType, data}` in `xmlParser.ts`). -/
structure BinaryDocument where
  fileName : String
  mimeType : String
  data : String
deriving Repr, DecidableEq

/-- `interface DRMD`, the document root. -/
structure DRMD where
  administrativeData : AdministrativeData
  materials : List Material
  properties : List MaterialProperty
  statements : Statements
  comments : List DocComment
  documents : List AdditionalDocument
  generalComment : String := ""
  binaryDocument : Option BinaryDocument := none
deriving Repr, DecidableEq

/-- `ALLOWED_TITLES` of `types.ts`. -/
def ALLOWED_TITLES : List String :=
  ["referenceMaterialCertificate", "calibrationCertificate", "measurementCertificate"]

/-- `INITIAL_ID` of `types.ts`. -/
def INITIAL_ID : Identifier := { scheme := "", value := "", link := "" }

/-- `INITIAL_PRODUCER` of `types.ts`. -/
def INITIAL_PRODUCER : Producer :=
  { uuid := "", name := "", email := "", phone := "", fax := ""
    address := { street := "", streetNo := "", postCode := "", city := "", countryCode := "" }
    organizationIdentifiers := [INITIAL_ID] }

/-- `INITIAL_PERSON` of `types.ts`. -/
def INITIAL_PERSON : ResponsiblePerson :=
  { uuid := "", name := "", role := "", description := ""
    mainSigner := true
    cryptElectronicSeal := false, cryptElectronicSignature := false
    cryptElectronicTimeStamp := false }

/-- `INITIAL_QUANTITY` of `types.ts`. -/
def INITIAL_QUANTITY : Quantity :=
  { uuid := "", name := "", label := "", value := "", dsiValue := "", dsiUnit := ""
    quantityKind := "", unit := "", uncertainty := ""
    coverageFactor := "2.0", coverageProbability := "0.95", distribution := "normal"
    identifiers := [] }

/-- The empty statement block of `INITIAL_DRMD`. -/
def INITIAL_OFFICIAL : OfficialStatements :=
  { intendedUse := "", commutability := "", storageInformation := ""
    handlingInstructions := "", metrologicalTraceability := "", healthAndSafety := ""
    subcontractors := "", legalNotice := "", referenceToCertificationReport := "" }

/-- `INITIAL_DRMD` of `types.ts`.  `new Date().toISOString().split('T')[0]`
is modelled by the explicit `today` parameter. -/
def INITIAL_DRMD (today : String) : DRMD :=
  { administrativeData :=
      { title := "referenceMaterialCertificate"
        uniqueIdentifier := ""
        dataVersion := 0
        documentIdentifiers := [INITIAL_ID]
        validityType := "Until Revoked"
        durationY := 0, durationM := 0
        dateOfIssue := today, specificTime := today
        producers := [INITIAL_PRODUCER]
        responsiblePersons := [INITIAL_PERSON] }
    materials := []
    properties := []
    statements := { official := INITIAL_OFFICIAL, custom := [] }
    comments := []
    documents := [] }

/-! ## A DOM model

`DOMParser` output is modelled by a tree of elements and text nodes.  The
encoder emits a template string which the decoder reads back through
`DOMParser`; XML escaping (`escapeXml`) and entity decoding cancel in that
round trip, so element text is stored unescaped, which is what `textContent`
of the parsed DOM yields.  `Forest` is a specialised list so that all DOM
walks are structural recursions. -/

mutual
/-- An XML node: element (tag, attributes, children) or text. -/
inductive Xml where
  | elem (tag : String) (attrs : List (String × String)) (children : Forest)
  | text (s : String)
deriving Repr, DecidableEq
/-- A list of XML nodes. -/
inductive Forest where
  | nil
  | cons (head : Xml) (tail : Forest)
deriving Repr, DecidableEq
end

/-- Build a `Forest` from a list. -/
def Forest.ofList : List Xml → Forest
  | [] => .nil
  | x :: xs => .cons x (Forest.ofList xs)

mutual
/-- `Node.textContent`: concatenation of all descendant text. -/
def Xml.textContent : Xml → String
  | .text s => s
  | .elem _ _ cs => Forest.textContent cs
/-- `textContent` of a forest of nodes. -/
def Forest.textContent : Forest → String
  | .nil => ""
  | .cons x f => Xml.textContent x ++ Forest.textContent f
end

/-- The node itself, when it is an element with the given tag. -/
def topMatch (t : String) (x : Xml) : List Xml :=
  match x with
  | .elem tg _ _ => if tg = t then [x] else []
  | .text _ => []

mutual
/-- `Element.getElementsByTagName`: all descendant elements with the tag, in
document order (the receiver itself is not included). -/
def Xml.byTag (t : String) : Xml → List Xml
  | .text _ => []
  | .elem _ _ cs => Forest.byTag t cs
/-- Elements with the tag in a forest, in document order, roots included. -/
def Forest.byTag (t : String) : Forest → List Xml
  | .nil => []
  | .cons x f => topMatch t x ++ Xml.byTag t x ++ Forest.byTag t f
end

/-- `Document.getElementsByTagName`: like `Xml.byTag` but the document
element itself can match. -/
def Xml.docByTag (t : String) (x : Xml) : List Xml := topMatch t x ++ Xml.byTag t x

/-- `Element.getAttribute` (as `Option`; `null` when absent). -/
def Xml.getAttr (x : Xml) (name : String) : Option String :=
  match x with
  | .elem _ attrs _ => (attrs.find? fun kv => kv.1 == name).map (·.2)
  | .text _ => none

/-- Element constructor without attributes. -/
def el (tag : String) (cs : List Xml) : Xml := .elem tag [] (Forest.ofList cs)

/-- Element constructor with attributes. -/
def elA (tag : String) (attrs : List (String × String)) (cs : List Xml) : Xml :=
  .elem tag attrs (Forest.ofList cs)

/-- Text node constructor. -/
def txt (s : String) : Xml := .text s

/-- JS template interpolation of a boolean (`${b}`). -/
def boolStr (b : Bool) : String := if b then "true" else "false"

/-! ## The XML encoder (`utils/xmlGenerator.ts`) -/

/-- `<dcc:content>` wrapper around text. -/
def contentEl (s : String) : Xml := el "dcc:content" [txt s]

/-- The `P<Y>Y<M>M` period of `renderValidity` (omitting zero components,
`"P0Y"` when both are zero). -/
def isoPeriod (y m : Nat) : String :=
  let s := "P" ++ (if y ≠ 0 then natStr y ++ "Y" else "")
             ++ (if m ≠ 0 then natStr m ++ "M" else "")
  if s = "P" then "P0Y" else s

/-- `renderValidity`: the children of `<drmd:validity>`, one of three
mutually exclusive elements (none for an unrecognised validity type, where
the source renders an empty string). -/
def validityXml (a : AdministrativeData) : List Xml :=
  if a.validityType = "Until Revoked" then
    [el "drmd:untilRevoked" [txt "true"]]
  else if a.validityType = "Specific Time" then
    [el "drmd:specificTime" [txt a.specificTime]]
  else if a.validityType = "Time After Dispatch" then
    [el "drmd:timeAfterDispatch"
      [el "drmd:dispatchDate" [txt a.dateOfIssue],
       el "drmd:period" [txt (isoPeriod a.durationY a.durationM)]]]
  else []

/-- Parse of the leading `(?:[eE][+-]?\d+)` exponent group: consumed
characters and remainder. -/
def expAt (l : List Char) : Option (List Char × List Char) :=
  match l with
  | c :: r =>
      if c = 'e' ∨ c = 'E' then
        match r with
        | s :: r2 =>
            if s = '+' ∨ s = '-' then
              let d := r2.takeWhile Char.isDigit
              if d = [] then none else some (c :: s :: d, r2.dropWhile Char.isDigit)
            else
              let d := r.takeWhile Char.isDigit
              if d = [] then none else some (c :: d, r.dropWhile Char.isDigit)
        | [] => none
      else none
  | [] => none

/-- One backtracking attempt of `/^([\d.]+(?:[eE][+-]?\d+)?)\s*(\S.*)$/` at a
fixed numeric split: exponent-greedy first, then without the exponent. -/
def mnuTry (num rest : List Char) : Option (String × String) :=
  let withExp : Option (String × String) :=
    match expAt rest with
    | some er =>
        let u := er.2.dropWhile isWsChar
        if u ≠ [] then some (String.mk (num ++ er.1), String.mk u) else none
    | none => none
  match withExp with
  | some r => some r
  | none =>
      let u := rest.dropWhile isWsChar
      if u ≠ [] then some (String.mk num, String.mk u) else none

/-- Backtracking over the greedy `[\d.]+` run (shrinking it one character at
a time, as the regex engine does). -/
def mnuBack : Nat → List Char → List Char → Option (String × String)
  | 0, _, _ => none
  | fuel + 1, numRev, rest =>
      match numRev with
      | [] => none
      | c :: numRev2 =>
          match mnuTry numRev.reverse rest with
          | some r => some r
          | none => mnuBack fuel numRev2 (c :: rest)

/-- The number/unit pattern `/^([\d.]+(?:[eE][+-]?\d+)?)\s*(\S.*)$/` applied
to the trimmed value (shared by `renderPrimitiveQuantity` and
`getDsiPreview`). -/
def matchNumUnit (v : String) : Option (String × String) :=
  let cs := trimChars v.data
  let run := cs.takeWhile fun c => c.isDigit ∨ c = '.'
  let rest := cs.dropWhile fun c => c.isDigit ∨ c = '.'
  if run = [] then none else mnuBack run.length run.reverse rest

/-- `renderPrimitiveQuantity`: the schema choice between `<drmd:real>`
(numeric value + resolved D-SI unit) and `<drmd:noQuantity>`. -/
def primQtyXml (value : String) : Xml :=
  if value = "" ∨ value = "noQuantity" then
    el "drmd:noQuantity" [contentEl "noQuantity"]
  else
    match matchNumUnit value with
    | some nu =>
        let dsi := convertToDSI (some nu.1) (some nu.2)
        if dsi.2 ≠ "" then
          el "drmd:real" [el "si:value" [txt dsi.1], el "si:unit" [txt dsi.2]]
        else
          el "drmd:noQuantity" [contentEl value]
    | none => el "drmd:noQuantity" [contentEl value]

/-- Children of one `<drmd:referenceMaterialProducer>` element. -/
def producerKids (p : Producer) : List Xml :=
    [el "drmd:name" [contentEl p.name],
     el "drmd:contact"
       ([el "dcc:name" [contentEl p.name],
         el "dcc:eMail" [txt p.email],
         el "dcc:phone" [txt p.phone]]
        ++ (if p.fax ≠ "" then [el "dcc:fax" [txt p.fax]] else [])
        ++ [el "dcc:location"
             [el "dcc:street" [txt p.address.street],
              el "dcc:streetNo" [txt p.address.streetNo],
              el "dcc:postCode" [txt p.address.postCode],
              el "dcc:city" [txt p.address.city],
              el "dcc:countryCode" [txt p.address.countryCode]]])]

/-- One `<drmd:referenceMaterialProducer>` element. -/
def producerXml (p : Producer) : Xml := el "drmd:referenceMaterialProducer" (producerKids p)

/-- Children of one `<dcc:respPerson>` element. -/
def personKids (p : ResponsiblePerson) : List Xml :=
    ([el "dcc:person" [el "dcc:name" [contentEl p.name]]]
     ++ (if p.description ≠ "" then [el "dcc:description" [contentEl p.description]] else [])
     ++ [el "dcc:role" [txt p.role],
         el "dcc:mainSigner" [txt (boolStr p.mainSigner)]])

/-- One `<dcc:respPerson>` element. -/
def respPersonXml (p : ResponsiblePerson) : Xml := el "dcc:respPerson" (personKids p)

/-- The `<drmd:coreData>` element. -/
def coreXml (a : AdministrativeData) : Xml :=
  el "drmd:coreData"
    [el "drmd:titleOfTheDocument" [txt a.title],
     el "drmd:uniqueIdentifier" [txt a.uniqueIdentifier],
     el "drmd:validity" (validityXml a)]

/-- The `<drmd:administrativeData>` element. -/
def adminXml (a : AdministrativeData) : Xml :=
  el "drmd:administrativeData"
    ([coreXml a]
     ++ a.producers.map producerXml
     ++ (if a.responsiblePersons.length > 0 then
          [el "drmd:respPersons" (a.responsiblePersons.map respPersonXml)]
        else []))

/-- Children of one `<drmd:material>` element. -/
def materialKids (m : Material) : List Xml :=
    ([el "drmd:name" [contentEl m.name],
      el "drmd:description" [contentEl m.description],
      el "drmd:minimumSampleSize" [el "dcc:itemQuantity" [primQtyXml m.minimumSampleSize]]]
     ++ (if m.itemQuantities ≠ "" then
          [el "drmd:itemQuantities" [el "dcc:itemQuantity" [primQtyXml m.itemQuantities]]]
        else []))

/-- One `<drmd:material>` element. -/
def materialXml (m : Material) : Xml := el "drmd:material" (materialKids m)

/-- The auto-appended CAS identifier block of a quantity. -/
def casXml (cas : String) : Xml :=
  el "drmd:propertyIdentifiers"
    [el "drmd:propertyIdentifier"
      [el "drmd:scheme" [txt "CAS"],
       el "drmd:value" [txt cas],
       el "drmd:link" [txt ("https://commonchemistry.cas.org/detail?cas_rn=" ++ cas)]]]

/-- Children of one `<drmd:quantity>` element: original value, resolved
D-SI unit (falling back to the raw unit), optional uncertainty block with
optional coverage children, optional CAS identifier enrichment. -/
def quantityKids (q : Quantity) : List Xml :=
    ([el "dcc:name" [contentEl q.name],
      el "si:real"
        ([el "si:value" [txt q.value],
          el "si:unit" [txt (if q.dsiUnit ≠ "" then q.dsiUnit else q.unit)]]
         ++ (if q.uncertainty ≠ "" then
              [el "si:measurementUncertaintyUnivariate"
                [el "si:expandedMU"
                  ([el "si:valueExpandedMU" [txt q.uncertainty]]
                   ++ (if q.coverageFactor ≠ "" then
                        [el "si:coverageFactor" [txt q.coverageFactor]] else [])
                   ++ (if q.coverageProbability ≠ "" then
                        [el "si:coverageProbability" [txt q.coverageProbability]] else []))]]
             else []))]
     ++ (match getCasNumber q.name with
         | some cas => [casXml cas]
         | none => []))

/-- One `<drmd:quantity>` element. -/
def quantityXml (q : Quantity) : Xml := el "drmd:quantity" (quantityKids q)

/-- Children of one `<drmd:result>` element (the result name defaults to
`"Values"`). -/
def resultKids (r : MeasurementResult) : List Xml :=
    ([el "drmd:name" [contentEl (if r.name = "" then "Values" else r.name)]]
     ++ (if r.description ≠ "" then [el "drmd:description" [contentEl r.description]] else [])
     ++ [el "drmd:data" [el "drmd:list" (r.quantities.map quantityXml)]])

/-- One `<drmd:result>` element. -/
def resultXml (r : MeasurementResult) : Xml := el "drmd:result" (resultKids r)

/-- Children of one `<drmd:materialProperties>` element. -/
def propertyKids (p : MaterialProperty) : List Xml :=
    ([el "drmd:name" [contentEl p.name]]
     ++ (if p.description ≠ "" then [el "drmd:description" [contentEl p.description]] else [])
     ++ (if p.procedures ≠ "" then
          [el "drmd:procedures"
            [el "dcc:usedMethod"
              [el "dcc:name" [contentEl "Procedure"],
               el "dcc:description" [contentEl p.procedures]]]]
        else [])
     ++ [el "drmd:results" (p.results.map resultXml)])

/-- One `<drmd:materialProperties>` element. -/
def propertyXml (p : MaterialProperty) : Xml :=
  elA "drmd:materialProperties" [("isCertified", boolStr p.isCertified)] (propertyKids p)

/-- `addStatement`: an optional named statement element. -/
def statementXml (tag dispName content : String) : List Xml :=
  if content = "" then []
  else
    [el ("drmd:" ++ tag)
      [el "dcc:name" [contentEl dispName],
       contentEl content]]

/-- The `<drmd:statements>` block, in the fixed source order. -/
def statementsXml (st : OfficialStatements) : Xml :=
  el "drmd:statements"
    (statementXml "intendedUse" "Intended Use" st.intendedUse
     ++ statementXml "storageInformation" "Storage Information" st.storageInformation
     ++ statementXml "instructionsForHandlingAndUse" "Handling Instructions" st.handlingInstructions
     ++ statementXml "metrologicalTraceability" "Metrological Traceability" st.metrologicalTraceability
     ++ statementXml "subcontractors" "Subcontractors" st.subcontractors
     ++ statementXml "referenceToCertificationReport" "Reference to Certification Report" st.referenceToCertificationReport
     ++ statementXml "healthAndSafetyInformation" "Health And Safety Information" st.healthAndSafety
     ++ statementXml "legalNotice" "Legal Notice" st.legalNotice)

/-- `generateDrmdXml` of `utils/xmlGenerator.ts` (the document element of
the emitted XML text). -/
def generateDrmdXml (d : DRMD) : Xml :=
  elA "drmd:digitalReferenceMaterialDocument"
    [("xmlns:dcc", "https://ptb.de/dcc"),
     ("xmlns:drmd", "https://example.org/drmd"),
     ("xmlns:si", "https://ptb.de/si"),
     ("schemaVersion", "0.3.0")]
    ([adminXml d.administrativeData,
      el "drmd:materials" (d.materials.map materialXml),
      el "drmd:materialPropertiesList" (d.properties.map propertyXml),
      statementsXml d.statements.official]
     ++ (if d.generalComment ≠ "" then [el "drmd:comment" [txt d.generalComment]] else [])
     ++ (match d.binaryDocument with
         | some b => if b.data ≠ "" then [el "drmd:document" [txt b.data]] else []
         | none => []))

/-! ## The XML decoder (`utils/xmlParser.ts`)

`parseDrmdXml` is parameterised by `today` (the `new Date()` inside the
deep-copied `INITIAL_DRMD`) and `newUuid` (the `uuid()` helper); no claim
depends on either value.  The `DOMParser` stage is modelled at the boundary:
`parseDrmdXmlChecked` receives `none` exactly when the markup is
structurally unparsable (the `parsererror` check) and throws there. -/

/-- `getTagContent` (on an element receiver): text of the first descendant
with the tag, `""` when absent. -/
def getTagContent (x : Xml) (tag : String) : String :=
  match (x.byTag tag).head? with
  | some e => e.textContent
  | none => ""

/-- `getTagContent` on the `Document` receiver (the document element itself
can match). -/
def getTagContentDoc (x : Xml) (tag : String) : String :=
  match (x.docByTag tag).head? with
  | some e => e.textContent
  | none => ""

/-- `getNestedContent`: follow the path by first-descendant steps, `""` as
soon as a step finds nothing, text content at the end. -/
def getNestedContent (x : Xml) : List String → String
  | [] => x.textContent
  | t :: rest =>
      match (Xml.byTag t x).head? with
      | none => ""
      | some e => getNestedContent e rest

/-- The `/(\d+)Y/`-style match: value of the maximal digit run immediately
before the first occurrence of `target` that is preceded by at least one
digit (`none` when the pattern does not match). -/
def numBefore (target : Char) : List Char → Option Nat → Option Nat
  | [], _ => none
  | c :: rest, acc =>
      if c = target ∧ acc.isSome then acc
      else if c.isDigit then
        numBefore target rest (some ((acc.getD 0) * 10 + (c.toNat - '0'.toNat)))
      else numBefore target rest none

/-- `period.match(/(\d+)Y/)`-style extraction on a string. -/
def matchNumBefore (target : Char) (s : String) : Option Nat :=
  numBefore target s.data none

/-- The producer branch of the decoder (`Array.from(producers).map(...)`). -/
def parseProducer (newUuid : String) (p : Xml) : Producer :=
  let base := { INITIAL_PRODUCER with uuid := newUuid }
  let name := getNestedContent p ["drmd:name", "dcc:content"]
  match (p.byTag "drmd:contact").head? with
  | none => { base with name := name }
  | some contact =>
      let addr :=
        match (contact.byTag "dcc:location").head? with
        | none => base.address
        | some loc =>
            { street := getNestedContent loc ["dcc:street"]
              streetNo := getNestedContent loc ["dcc:streetNo"]
              postCode := getNestedContent loc ["dcc:postCode"]
              city := getNestedContent loc ["dcc:city"]
              countryCode := getNestedContent loc ["dcc:countryCode"] }
      { base with
          name := name
          email := getNestedContent contact ["dcc:eMail"]
          phone := getNestedContent contact ["dcc:phone"]
          fax := getNestedContent contact ["dcc:fax"]
          address := addr }

/-- The responsible-person branch of the decoder. -/
def parsePerson (newUuid : String) (p : Xml) : ResponsiblePerson :=
  { INITIAL_PERSON with
      uuid := newUuid
      name := getNestedContent p ["dcc:person", "dcc:name", "dcc:content"]
      description := getNestedContent p ["dcc:description", "dcc:content"]
      role := getTagContent p "dcc:role"
      mainSigner := getTagContent p "dcc:mainSigner" = "true" }

/-- The `parseQty` helper of the material branch: a `drmd:real` renders as
`"<value> <unit>"`, a `drmd:noQuantity` as its content, else `""`. -/
def parseQty (m : Xml) (tagName : String) : String :=
  match (m.byTag tagName).head? with
  | none => ""
  | some container =>
      match (container.byTag "dcc:itemQuantity").head? with
      | none => ""
      | some itemQ =>
          match (itemQ.byTag "drmd:real").head? with
          | some real =>
              getNestedContent real ["si:value"] ++ " " ++ getNestedContent real ["si:unit"]
          | none =>
              match (itemQ.byTag "drmd:noQuantity").head? with
              | some noQ => getNestedContent noQ ["dcc:content"]
              | none => ""

/-- The material branch of the decoder. -/
def parseMaterial (newUuid : String) (m : Xml) : Material :=
  { uuid := newUuid
    name := getNestedContent m ["drmd:name", "dcc:content"]
    description := getNestedContent m ["drmd:description", "dcc:content"]
    materialClass := ""
    minimumSampleSize := parseQty m "drmd:minimumSampleSize"
    itemQuantities := parseQty m "drmd:itemQuantities"
    isCertified := false
    materialIdentifiers := [INITIAL_ID] }

/-- The quantity branch of the decoder: the single wire value/unit pair is
copied into both the display fields and the derived D-SI fields. -/
def parseQuantity (newUuid : String) (q : Xml) : Quantity :=
  let base := { INITIAL_QUANTITY with
                  uuid := newUuid
                  identifiers := ([] : List Identifier)
                  name := getNestedContent q ["dcc:name", "dcc:content"] }
  match (q.byTag "si:real").head? with
  | none => base
  | some real =>
      let v := getNestedContent real ["si:value"]
      let u := getNestedContent real ["si:unit"]
      let withReal := { base with value := v, unit := u, dsiUnit := u, dsiValue := v }
      match (real.byTag "si:expandedMU").head? with
      | none => withReal
      | some mu =>
          { withReal with
              uncertainty := getNestedContent mu ["si:valueExpandedMU"]
              coverageFactor := getNestedContent mu ["si:coverageFactor"]
              coverageProbability := getNestedContent mu ["si:coverageProbability"] }

/-- The result branch of the decoder. -/
def parseResult (newUuid : String) (r : Xml) : MeasurementResult :=
  { uuid := newUuid
    name := getNestedContent r ["drmd:name", "dcc:content"]
    description := getNestedContent r ["drmd:description", "dcc:content"]
    quantities := (r.byTag "drmd:quantity").map (parseQuantity newUuid) }

/-- The property branch of the decoder. -/
def parseProperty (newUuid : String) (p : Xml) : MaterialProperty :=
  { uuid := newUuid
    id := ""
    name := getNestedContent p ["drmd:name", "dcc:content"]
    description := getNestedContent p ["drmd:description", "dcc:content"]
    procedures := getNestedContent p
      ["drmd:procedures", "dcc:usedMethod", "dcc:description", "dcc:content"]
    isCertified := p.getAttr "isCertified" = some "true"
    results := (p.byTag "drmd:result").map (parseResult newUuid) }

/-- First direct child `<dcc:content>` of a node (the loop over
`el.childNodes` in `getSt`, skipping the nested `dcc:name/dcc:content`). -/
def firstDirectContent : Forest → String
  | .nil => ""
  | .cons x f =>
      match x with
      | .elem tg _ _ => if tg = "dcc:content" then x.textContent else firstDirectContent f
      | .text _ => firstDirectContent f

/-- `getSt`: content of the statement element with the given suffix tag. -/
def getSt (statements : Xml) (tag : String) : String :=
  match (statements.byTag ("drmd:" ++ tag)).head? with
  | none => ""
  | some e =>
      match e with
      | .elem _ _ cs => firstDirectContent cs
      | .text _ => ""

/-- The administrative-data section of the decoder, applied to the initial
(deep-copied) administrative data. -/
def parseAdmin (newUuid : String) (a0 : AdministrativeData) (doc : Xml) : AdministrativeData :=
  match (doc.docByTag "drmd:administrativeData").head? with
  | none => a0
  | some admin =>
      let a1 :=
        match (admin.byTag "drmd:coreData").head? with
        | none => a0
        | some core =>
            let a :=
              { a0 with
                  title := getNestedContent core ["drmd:titleOfTheDocument"]
                  uniqueIdentifier := getNestedContent core ["drmd:uniqueIdentifier"] }
            match (core.byTag "drmd:validity").head? with
            | none => a
            | some validity =>
                if (validity.byTag "drmd:untilRevoked").length > 0 then
                  { a with validityType := "Until Revoked" }
                else if (validity.byTag "drmd:specificTime").length > 0 then
                  { a with
                      validityType := "Specific Time"
                      specificTime := getNestedContent validity ["drmd:specificTime"] }
                else if (validity.byTag "drmd:timeAfterDispatch").length > 0 then
                  match (validity.byTag "drmd:timeAfterDispatch").head? with
                  | none => a
                  | some tad =>
                      let period := getNestedContent tad ["drmd:period"]
                      { a with
                          validityType := "Time After Dispatch"
                          dateOfIssue := getNestedContent tad ["drmd:dispatchDate"]
                          durationY := (matchNumBefore 'Y' period).getD 0
                          durationM := (matchNumBefore 'M' period).getD 0 }
                else a
      let producers := admin.byTag "drmd:referenceMaterialProducer"
      let a2 :=
        if producers.length > 0 then
          { a1 with producers := producers.map (parseProducer newUuid) }
        else a1
      let persons := admin.byTag "dcc:respPerson"
      if persons.length > 0 then
        { a2 with responsiblePersons := persons.map (parsePerson newUuid) }
      else a2

/-- The statements section of the decoder, applied to the initial statement
block. -/
def parseStatements (s0 : Statements) (doc : Xml) : Statements :=
  match (doc.docByTag "drmd:statements").head? with
  | none => s0
  | some st =>
      { s0 with
          official :=
            { s0.official with
                intendedUse := getSt st "intendedUse"
                storageInformation := getSt st "storageInformation"
                handlingInstructions := getSt st "instructionsForHandlingAndUse"
                metrologicalTraceability := getSt st "metrologicalTraceability"
                subcontractors := getSt st "subcontractors"
                referenceToCertificationReport := getSt st "referenceToCertificationReport"
                healthAndSafety := getSt st "healthAndSafetyInformation"
                legalNotice := getSt st "legalNotice" } }

/-- `parseDrmdXml` of `utils/xmlParser.ts`, on an already-parsed DOM. -/
def parseDrmdXml (today newUuid : String) (doc : Xml) : DRMD :=
  let data := INITIAL_DRMD today
  let data := { data with administrativeData := parseAdmin newUuid data.administrativeData doc }
  let mats := doc.docByTag "drmd:material"
  let data := if mats.length > 0 then { data with materials := mats.map (parseMaterial newUuid) } else data
  let props := doc.docByTag "drmd:materialProperties"
  let data := if props.length > 0 then { data with properties := props.map (parseProperty newUuid) } else data
  let data := { data with statements := parseStatements data.statements doc }
  let data := { data with generalComment := getTagContentDoc doc "drmd:comment" }
  let docContent := getTagContentDoc doc "drmd:document"
  if docContent ≠ "" then
    let bd := BinaryDocument.mk "imported_document.pdf" "application/pdf"
      (String.mk (trimChars docContent.data))
    { data with binaryDocument := some bd }
  else data

/-- `parseDrmdXml` with its `DOMParser` boundary: a structurally unparsable
input (modelled by `none`) is the only hard failure. -/
def parseDrmdXmlChecked (today newUuid : String) : Option Xml → Except String DRMD
  | none => .error "Invalid XML file structure"
  | some doc => .ok (parseDrmdXml today newUuid doc)

/-! ## The validator (`getValidationReport` in `App.tsx`) -/

/-- The error list of `getValidationReport`, in evaluation order.  Each
entry is a `(section, message)` pair. -/
def validationErrors (d : DRMD) : List (String × String) :=
  (if d.administrativeData.title = "" then
    [("Administrative", "Document Title is missing.")] else [])
  ++ (if d.administrativeData.uniqueIdentifier = "" then
    [("Administrative", "Unique Identifier is missing.")] else [])
  ++ (if d.administrativeData.producers.length = 0 then
        [("Administrative", "At least one Producer is required.")]
      else if d.administrativeData.producers.length > 1 then
        [("Administrative", "Only ONE Producer is allowed by schema.")]
      else
        d.administrativeData.producers.enum.filterMap fun ip =>
          if ip.2.name = "" then
            some ("Administrative", "Producer " ++ natStr (ip.1 + 1) ++ ": Name is required.")
          else none)
  ++ (if d.materials.length = 0 then
        [("Materials", "At least one Material must be defined.")]
      else
        d.materials.enum.flatMap fun im =>
          (if im.2.name = "" then
            [("Materials", "Material " ++ natStr (im.1 + 1) ++ ": Name is required.")] else [])
          ++ (if im.2.minimumSampleSize = "" then
            [("Materials", "Material " ++ natStr (im.1 + 1) ++ ": Minimum Sample Size is required.")] else []))
  ++ (if d.statements.official.intendedUse = "" then
    [("Statements", "Intended Use is required.")] else [])
  ++ (if d.statements.official.storageInformation = "" then
    [("Statements", "Storage Information is required.")] else [])
  ++ (if d.statements.official.handlingInstructions = "" then
    [("Statements", "Instructions for Handling and Use are required.")] else [])

/-- The warning list of `getValidationReport`. -/
def validationWarnings (d : DRMD) : List (String × String) :=
  if d.administrativeData.responsiblePersons.length = 0 then
    [("Administrative", "No Responsible Persons defined (Warning).")]
  else []

/-! ## The extraction normalizer (`handleFileUpload` in `App.tsx`)

The vision-model payload is loosely typed (`any`); it is modelled by the
`Ex*` record family in which every field the normalizer reads is optional.
Fields that the normalizer merely spreads through without reading (for
example `label` on a quantity) are not modelled; the canonical defaults
stand in for them. -/

/-- Does a (char list) contain the other as a contiguous run
(`String.prototype.includes`)? -/
def containsSub (needle : List Char) (hay : List Char) : Bool :=
  match hay with
  | [] => needle.isEmpty
  | c :: rest => needle.isPrefixOf (c :: rest) || containsSub needle rest

/-- Extraction-payload address. -/
structure ExAddress where
  street : Option String := none
  streetNo : Option String := none
  postCode : Option String := none
  city : Option String := none
  countryCode : Option String := none
deriving Repr, DecidableEq

/-- Extraction-payload producer. -/
structure ExProducer where
  name : Option String := none
  email : Option String := none
  phone : Option String := none
  fax : Option String := none
  address : Option ExAddress := none
  fieldCoordinates : Option FieldCoords := none
  sectionCoordinates : Option Coords := none
deriving Repr, DecidableEq

/-- Extraction-payload responsible person. -/
structure ExPerson where
  name : Option String := none
  role : Option String := none
  description : Option String := none
  fieldCoordinates : Option FieldCoords := none
  sectionCoordinates : Option Coords := none
deriving Repr, DecidableEq

/-- Extraction-payload material. -/
structure ExMaterial where
  name : Option String := none
  description : Option String := none
  materialClass : Option String := none
  itemQuantities : Option String := none
  minimumSampleSize : Option String := none
  fieldCoordinates : Option FieldCoords := none
  sectionCoordinates : Option Coords := none
deriving Repr, DecidableEq

/-- Extraction-payload quantity (table row). -/
structure ExQuantity where
  name : Option String := none
  value : Option String := none
  uncertainty : Option String := none
  unit : Option String := none
  coverageFactor : Option String := none
  coverageProbability : Option String := none
  distribution : Option String := none
  fieldCoordinates : Option FieldCoords := none
deriving Repr, DecidableEq

/-- Extraction-payload measurement result (table). -/
structure ExResult where
  name : Option String := none
  description : Option String := none
  quantities : Option (List ExQuantity) := none
  sectionCoordinates : Option Coords := none
deriving Repr, DecidableEq

/-- Extraction-payload property group. -/
structure ExProperty where
  name : Option String := none
  description : Option String := none
  procedures : Option String := none
  isCertified : Option Bool := none
  results : Option (List ExResult) := none
deriving Repr, DecidableEq

/-- Extraction-payload administrative data. -/
structure ExAdmin where
  title : Option String := none
  uniqueIdentifier : Option String := none
  validityType : Option String := none
  durationY : Option Nat := none
  durationM : Option Nat := none
  specificTime : Option String := none
  producers : Option (List ExProducer) := none
  responsiblePersons : Option (List ExPerson) := none
  fieldCoordinates : Option FieldCoords := none
deriving Repr, DecidableEq

/-- Extraction-payload official statements. -/
structure ExOfficial where
  intendedUse : Option String := none
  commutability : Option String := none
  storageInformation : Option String := none
  handlingInstructions : Option String := none
  metrologicalTraceability : Option String := none
  healthAndSafety : Option String := none
  subcontractors : Option String := none
  legalNotice : Option String := none
  referenceToCertificationReport : Option String := none
deriving Repr, DecidableEq

/-- Extraction-payload statements wrapper. -/
structure ExStatements where
  official : Option ExOfficial := none
deriving Repr, DecidableEq

/-- The loosely-typed extraction payload. -/
structure Extracted where
  administrativeData : Option ExAdmin := none
  materials : Option (List ExMaterial) := none
  properties : Option (List ExProperty) := none
  statements : Option ExStatements := none
deriving Repr, DecidableEq

/-- The validity carry-normalization of `handleFileUpload` (lines 279-288):
`totalMonths = years*12 + months`; when positive, re-derive
`years = ⌊totalMonths/12⌋` and `months = totalMonths % 12`. -/
def normalizeValidityDuration (rawY rawM : Nat) : Nat × Nat :=
  let totalMonths := rawY * 12 + rawM
  if totalMonths > 0 then (totalMonths / 12, totalMonths % 12) else (rawY, rawM)

/-- Leap year (the Gregorian rule the JS `Date` applies). -/
def isLeapYear (y : Nat) : Bool := y % 4 = 0 ∧ (y % 100 ≠ 0 ∨ y % 400 = 0)

/-- Days in a (1-based) month. -/
def daysInMonth (y m : Nat) : Nat :=
  if m = 2 then (if isLeapYear y then 29 else 28)
  else if m = 4 ∨ m = 6 ∨ m = 9 ∨ m = 11 then 30
  else 31

/-- `new Date(year, month, 0).getDate()` for a 1-based `month` argument:
the last calendar day of that month, with JS month rollover. -/
def jsLastDay (year month : Nat) : Nat :=
  if month = 0 then 31
  else daysInMonth (year + (month - 1) / 12) ((month - 1) % 12 + 1)

/-- The `^(\d{1,2})\/(\d{4})$` match: (month digits, year digits). -/
def matchMMYYYY (l : List Char) : Option (List Char × List Char) :=
  let ds := l.takeWhile Char.isDigit
  let rest := l.dropWhile Char.isDigit
  if ds.length = 0 ∨ ds.length > 2 then none
  else
    match rest with
    | '/' :: r =>
        let ys := r.takeWhile Char.isDigit
        if ys.length = 4 ∧ r.dropWhile Char.isDigit = [] then some (ds, ys) else none
    | _ => none

/-- The `MM/YYYY → YYYY-MM-<last day>` rewrite of `handleFileUpload`
(lines 290-302), on one specific-time string. -/
def fixSpecificTime (raw : String) : String :=
  let t := trimChars raw.data
  match matchMMYYYY t with
  | none => raw
  | some my =>
      let month := digitsToNat my.1
      let year := digitsToNat my.2
      let lastDay := jsLastDay year month
      let padded := if my.1.length = 1 then '0' :: my.1 else my.1
      natStr year ++ "-" ++ String.mk padded ++ "-" ++ natStr lastDay

/-- The city test of the `Berlin/Adlershof → DE` address fixup. -/
def berlinCity (city : String) : Bool :=
  containsSub "berlin".data (lowChars city.data)
  || containsSub "adlershof".data (lowChars city.data)

/-- The in-place producer pass of the fixup (lines 305-313). -/
def fixProducerCountry (p : ExProducer) : ExProducer :=
  let city := (p.address.bind (·.city)).getD ""
  if berlinCity city then
    let a := p.address.getD {}
    { p with address := some { a with countryCode := some "DE" } }
  else p

/-- The pre-merge mutation of the extraction payload (lines 279-313):
validity carry-normalization, `MM/YYYY` rewrite, producer country fixup. -/
def preNormalize (x : Extracted) : Extracted :=
  let x :=
    match x.administrativeData with
    | none => x
    | some ad =>
        if ad.validityType = some "Time After Dispatch" then
          let ym := normalizeValidityDuration (ad.durationY.getD 0) (ad.durationM.getD 0)
          if (ad.durationY.getD 0) * 12 + ad.durationM.getD 0 > 0 then
            let ad2 := { ad with durationY := some ym.1, durationM := some ym.2 }
            { x with administrativeData := some ad2 }
          else x
        else x
  let x :=
    match x.administrativeData with
    | none => x
    | some ad =>
        if ad.validityType = some "Specific Time" ∧ (ad.specificTime.getD "") ≠ "" then
          let ad2 := { ad with specificTime := some (fixSpecificTime (ad.specificTime.getD "")) }
          { x with administrativeData := some ad2 }
        else x
  match x.administrativeData with
  | none => x
  | some ad =>
      match ad.producers with
      | none => x
      | some ps =>
          let ad2 := { ad with producers := some (ps.map fixProducerCountry) }
          { x with administrativeData := some ad2 }

/-- `normalizeName`: lower-case and strip every non-alphanumeric character
(the property grouping key). -/
def normalizeName (s : String) : String :=
  String.mk ((lowChars s.data).filter fun c => ('a' ≤ c ∧ c ≤ 'z') ∨ c.isDigit)

/-- The footnote test `/^(\d+\)|1\)|\*)/` on a (trimmed) description. -/
def isFootnote (s : String) : Bool :=
  match s.data with
  | '*' :: _ => true
  | l =>
      let ds := l.takeWhile Char.isDigit
      ds ≠ [] ∧ (l.dropWhile Char.isDigit).headD ' ' = ')'

/-- The row-name test of the fragment heuristic: lower-cased trimmed name
contains `"in mg/kg"` or `"in %"`, or is exactly `"mg/kg"`, `"%"`, or
empty. -/
def isFragmentName (rName : List Char) : Bool :=
  containsSub "in mg/kg".data rName
  || containsSub "in %".data rName
  || rName = "mg/kg".data
  || rName = "%".data
  || rName = []

/-- A canonical-property entry of `propertyMap`: the seeding property's
scalar fields (the `{...p, results: []}` spread) with the mutable
description and result list. -/
structure PropEntry where
  name : Option String
  description : Option String
  procedures : Option String
  isCertified : Option Bool
  results : List ExResult
deriving Repr, DecidableEq

/-- Seed an entry from the first property of a key. -/
def seedEntry (p : ExProperty) : PropEntry :=
  { name := p.name, description := p.description, procedures := p.procedures
    isCertified := p.isCertified, results := [] }

/-- Point update of the entry stored under a key. -/
def updateEntry (k : String) (f : PropEntry → PropEntry)
    (m : List (String × PropEntry)) : List (String × PropEntry) :=
  m.map fun kv => if kv.1 = k then (k, f kv.2) else kv

/-- Merge one incoming result into an entry: a fragment is appended onto
the first existing result (quantities appended, description newline-joined);
anything else becomes a new table. -/
def mergeResultIntoEntry (r : ExResult) (e : PropEntry) : PropEntry :=
  let rName := trimChars (lowChars (r.name.getD "").data)
  if e.results.length > 0 ∧ isFragmentName rName then
    match e.results with
    | [] => e
    | res0 :: rest =>
        let res0a :=
          match r.quantities with
          | some qs => { res0 with quantities := some ((res0.quantities.getD []) ++ qs) }
          | none => res0
        let res0b :=
          if (r.description.getD "") ≠ "" then
            let d2 := (res0a.description.getD "") ++ "\n" ++ r.description.getD ""
            { res0a with description := some d2 }
          else res0a
        { e with results := res0b :: rest }
  else { e with results := e.results ++ [r] }

/-- Process one incoming property against the accumulated `propertyMap`
(an insertion-ordered association list, as a JS object with string keys). -/
def mergePropStep (m : List (String × PropEntry)) (p : ExProperty) :
    List (String × PropEntry) :=
  let propName := if (p.name.getD "") = "" then "Material Properties" else p.name.getD ""
  let propKey := normalizeName propName
  let m1 := if (m.find? fun kv => kv.1 = propKey).isSome then m else m ++ [(propKey, seedEntry p)]
  let propDesc := String.mk (trimChars (p.description.getD "").data)
  let foot := isFootnote propDesc
  let m2 := if foot then updateEntry propKey (fun e => { e with description := some "" }) m1 else m1
  match p.results with
  | none => m2
  | some rs =>
      let rs1 :=
        if foot then
          match rs with
          | [] => rs
          | r0 :: rest =>
              let pre := if (r0.description.getD "") ≠ "" then (r0.description.getD "") ++ "\n" else ""
              { r0 with description := some (pre ++ propDesc) } :: rest
        else rs
      rs1.foldl (fun acc r => updateEntry propKey (mergeResultIntoEntry r) acc) m2

/-- The whole grouping pass (`propertyMap` construction). -/
def mergeProps (props : List ExProperty) : List (String × PropEntry) :=
  props.foldl mergePropStep []

/-- Trimmed-start test used by the value/uncertainty promotion. -/
def trimStarts (s : String) (c : Char) : Bool := (trimChars s.data).headD ' ' = c

/-- The per-quantity value/uncertainty promotion: a comparison expression
(`<…`/`>…`) sitting in the uncertainty of a value-less row is the value. -/
def promoteUncertainty (q : ExQuantity) : String × String :=
  let v := q.value.getD ""
  let u := q.uncertainty.getD ""
  if v = "" ∧ u ≠ "" ∧ (trimStarts u '<' ∨ trimStarts u '>') then (u, "") else (v, u)

/-- Canonicalize one quantity: promotion, D-SI computation, defaults, fresh
identifier. -/
def normalizeQuantity (newUuid : String) (q : ExQuantity) : Quantity :=
  let vu := promoteUncertainty q
  let dsi := convertToDSI (some vu.1) q.unit
  { uuid := newUuid
    name := q.name.getD ""
    label := "", quantityKind := ""
    value := vu.1
    unit := q.unit.getD ""
    uncertainty := vu.2
    coverageFactor := if (q.coverageFactor.getD "") = "" then "2.0" else q.coverageFactor.getD ""
    coverageProbability :=
      if (q.coverageProbability.getD "") = "" then "0.95" else q.coverageProbability.getD ""
    distribution := if (q.distribution.getD "") = "" then "normal" else q.distribution.getD ""
    dsiValue := dsi.1
    dsiUnit := dsi.2
    identifiers := [INITIAL_ID]
    fieldCoordinates := q.fieldCoordinates }

/-- Canonicalize one result (name defaults to `"Values"` when absent or a
single character). -/
def normalizeResult (newUuid : String) (r : ExResult) : MeasurementResult :=
  let n := r.name.getD ""
  { uuid := newUuid
    name := if n.length > 1 then n else "Values"
    description := r.description.getD ""
    quantities := (r.quantities.getD []).map (normalizeQuantity newUuid)
    sectionCoordinates := r.sectionCoordinates }

/-- Canonicalize one grouped property entry. -/
def finalizeProperty (newUuid : String) (e : PropEntry) : MaterialProperty :=
  { uuid := newUuid
    id := ""
    name := e.name.getD ""
    isCertified := e.isCertified.getD false
    description := e.description.getD ""
    procedures := e.procedures.getD ""
    results := e.results.map (normalizeResult newUuid) }

/-- The property pipeline of the normalizer (`propertyMap` grouping followed
by the `newProps` canonicalization), lines 330-427 of `App.tsx`. -/
def normalizeExtractedProperties (newUuid : String) (props : List ExProperty) :
    List MaterialProperty :=
  (mergeProps props).map fun kv => finalizeProperty newUuid kv.2

/-- `cleanPostalCode`: delete every non-digit (falsy input gives `""`). -/
def cleanPostalCode (pc : Option String) : String :=
  match pc with
  | none => ""
  | some s => if s = "" then "" else String.mk (s.data.filter Char.isDigit)

/-- The `newProds` mapping (lines 429-446). -/
def normalizeProducer (newUuid : String) (p : ExProducer) : Producer :=
  let city := (p.address.bind (·.city)).getD ""
  let cc := if berlinCity city then "DE" else (p.address.bind (·.countryCode)).getD ""
  { uuid := newUuid
    name := p.name.getD ""
    email := p.email.getD ""
    phone := p.phone.getD ""
    fax := p.fax.getD ""
    organizationIdentifiers := [INITIAL_ID]
    address :=
      { street := (p.address.bind (·.street)).getD ""
        streetNo := (p.address.bind (·.streetNo)).getD ""
        postCode := cleanPostalCode (p.address.bind (·.postCode))
        city := city
        countryCode := cc }
    fieldCoordinates := p.fieldCoordinates
    sectionCoordinates := p.sectionCoordinates }

/-- The `newPersons` mapping (lines 448-456). -/
def normalizePerson (newUuid : String) (p : ExPerson) : ResponsiblePerson :=
  { INITIAL_PERSON with
      uuid := newUuid
      name := p.name.getD ""
      role := p.role.getD ""
      description := p.description.getD ""
      fieldCoordinates := p.fieldCoordinates
      sectionCoordinates := p.sectionCoordinates }

/-- The `newMats` mapping (lines 318-327). -/
def normalizeMaterial (newUuid : String) (m : ExMaterial) : Material :=
  { uuid := newUuid
    name := m.name.getD ""
    description := m.description.getD ""
    materialClass := m.materialClass.getD ""
    itemQuantities := if (m.itemQuantities.getD "") = "" then "1" else m.itemQuantities.getD ""
    minimumSampleSize := m.minimumSampleSize.getD ""
    isCertified := false
    materialIdentifiers := [INITIAL_ID]
    fieldCoordinates := m.fieldCoordinates
    sectionCoordinates := m.sectionCoordinates }

/-- Per-field override of the official statements
(`{...prev.statements.official, ...(extracted?.statements?.official || {})}`). -/
def overrideOfficial (o : OfficialStatements) : Option ExOfficial → OfficialStatements
  | none => o
  | some s =>
      { intendedUse := s.intendedUse.getD o.intendedUse
        commutability := s.commutability.getD o.commutability
        storageInformation := s.storageInformation.getD o.storageInformation
        handlingInstructions := s.handlingInstructions.getD o.handlingInstructions
        metrologicalTraceability := s.metrologicalTraceability.getD o.metrologicalTraceability
        healthAndSafety := s.healthAndSafety.getD o.healthAndSafety
        subcontractors := s.subcontractors.getD o.subcontractors
        legalNotice := s.legalNotice.getD o.legalNotice
        referenceToCertificationReport :=
          s.referenceToCertificationReport.getD o.referenceToCertificationReport }

/-- The state-merge of `handleFileUpload` (the `setDrmdData` updater, lines
317-477): bulk replacement of subtrees, non-empty incoming lists only. -/
def mergeExtraction (prev : DRMD) (today newUuid : String) (x : Extracted) : DRMD :=
  let xa := x.administrativeData
  let newMats := (x.materials.getD []).map (normalizeMaterial newUuid)
  let newProps := normalizeExtractedProperties newUuid (x.properties.getD [])
  let newProds := ((xa.bind (·.producers)).getD []).map (normalizeProducer newUuid)
  let newPersons := ((xa.bind (·.responsiblePersons)).getD []).map (normalizePerson newUuid)
  let pa := prev.administrativeData
  let xuid := (xa.bind (·.uniqueIdentifier)).getD ""
  let admin : AdministrativeData :=
    { pa with
        title := (xa.bind (·.title)).getD pa.title
        validityType := (xa.bind (·.validityType)).getD pa.validityType
        durationY := (xa.bind (·.durationY)).getD pa.durationY
        durationM := (xa.bind (·.durationM)).getD pa.durationM
        specificTime := (xa.bind (·.specificTime)).getD pa.specificTime
        uniqueIdentifier :=
          if xuid ≠ "" then xuid
          else if pa.uniqueIdentifier ≠ "" then pa.uniqueIdentifier
          else newUuid
        dateOfIssue := today
        documentIdentifiers := [INITIAL_ID]
        producers := if newProds.length > 0 then newProds else pa.producers
        responsiblePersons := if newPersons.length > 0 then newPersons else pa.responsiblePersons
        fieldCoordinates := xa.bind (·.fieldCoordinates) }
  { prev with
      administrativeData := admin
      statements :=
        { prev.statements with
            official := overrideOfficial prev.statements.official (x.statements.bind (·.official)) }
      materials := if newMats.length > 0 then newMats else prev.materials
      properties := if newProps.length > 0 then newProps else prev.properties }

/-- The full extraction-normalization pipeline applied on upload: the
pre-merge payload fixes followed by the state merge. -/
def handleExtractedUpload (prev : DRMD) (today newUuid : String) (x : Extracted) : DRMD :=
  mergeExtraction prev today newUuid (preNormalize x)

/-! ## Support lemmas for the converter claims -/

/-- An exact-key hit returns a table row. -/
theorem unitLookup_mem {cs : List Char} {c : DsiConversion}
    (h : unitLookup cs = some c) : ∃ kv ∈ UNIT_MAP, kv.2 = c := by
  unfold unitLookup at h
  cases hf : UNIT_MAP.find? fun kv => kv.1.data = cs with
  | none => simp [hf] at h
  | some kv =>
      refine ⟨kv, List.mem_of_find?_eq_some hf, ?_⟩
      simp [hf] at h; exact h

/-- A case-insensitive hit returns a table row. -/
theorem unitLookupCI_mem {cs : List Char} {c : DsiConversion}
    (h : unitLookupCI cs = some c) : ∃ kv ∈ UNIT_MAP, kv.2 = c := by
  unfold unitLookupCI at h
  cases hf : UNIT_MAP.find? fun kv => lowChars kv.1.data = lowChars cs with
  | none => simp [hf] at h
  | some kv =>
      refine ⟨kv, List.mem_of_find?_eq_some hf, ?_⟩
      simp [hf] at h; exact h

/-- Any resolved conversion is a table row. -/
theorem resolveUnit_mem {u : String} {c : DsiConversion}
    (h : resolveUnit u = some c) : ∃ kv ∈ UNIT_MAP, kv.2 = c := by
  simp only [resolveUnit] at h
  cases h1 : unitLookup (stripAllWs (trimChars (dropInWord u.data))) with
  | some c1 => rw [h1] at h; cases h; exact unitLookup_mem h1
  | none =>
      rw [h1] at h
      cases h2 : unitLookupCI (stripAllWs (trimChars (dropInWord u.data))) with
      | some c2 => rw [h2] at h; cases h; exact unitLookupCI_mem h2
      | none =>
          rw [h2] at h
          cases h3 : unitLookup (superChars (stripAllWs (trimChars (dropInWord u.data)))) with
          | some c3 => rw [h3] at h; cases h; exact unitLookup_mem h3
          | none => rw [h3] at h; exact unitLookupCI_mem h

/-- No D-SI output string of the table resolves as an input unit: the
table's output vocabulary is disjoint from its key vocabulary. -/
theorem dsi_outputs_unresolvable :
    (UNIT_MAP.all fun kv => (resolveUnit kv.2.dsiUnit).isNone) = true := by decide

/-- A conversion that fails to resolve its unit yields empty fields. -/
theorem convertToDSI_of_resolve_none {v u : String}
    (h : resolveUnit u = none) : convertToDSI (some v) (some u) = ("", "") := by
  simp only [convertToDSI]
  rw [h]

/-- A successful conversion reports the resolved row's D-SI unit. -/
theorem convertToDSI_unit_eq {v u dv du : String}
    (h : convertToDSI (some v) (some u) = (dv, du)) (hdu : du ≠ "") :
    ∃ c, resolveUnit u = some c ∧ du = c.dsiUnit := by
  simp only [convertToDSI] at h
  cases hr : resolveUnit u with
  | none =>
      rw [hr] at h
      cases hp : parseFloatQ (numFilterChars v.data) <;>
        (rw [hp] at h; cases h; simp at hdu)
  | some c =>
      rw [hr] at h
      cases hp : parseFloatQ (numFilterChars v.data) with
      | none => rw [hp] at h; cases h; simp at hdu
      | some x => rw [hp] at h; cases h; exact ⟨c, rfl, rfl⟩

/-! ## Claims about the unit converter (C2, C3, C4) -/

/-- C2 (counterexample): the claim's first test vector fails on the code:
`convertToDSI("4.9","g")` returns `dsiValue = "0.0049"` (the value is
multiplied by the table factor `0.001` for `g`), not `"4.9"`. -/
theorem C2_counterexample :
    convertToDSI (some "4.9") (some "g") = ("0.0049", "\\gram")
    ∧ ("0.0049" : String) ≠ "4.9" := by decide

/-- C2 (amended): the converter's literal vectors as the code computes
them: `("4.9","g") ↦ ("0.0049","\gram")` (factor `0.001` applied),
`("2","lb") ↦ ("0.907185","\kilogram")`, and an unrecognised unit yields
empty D-SI fields. -/
theorem C2_conversion_vectors :
    convertToDSI (some "4.9") (some "g") = ("0.0049", "\\gram")
    ∧ convertToDSI (some "2") (some "lb") = ("0.907185", "\\kilogram")
    ∧ convertToDSI (some "1") (some "unknownunit") = ("", "") := by decide

/-- C3: at the spec's own test vector the converter returns the stripped
numeric text `"0.05"` as `dsiValue`, not the original trimmed `"<0.05"`:
the factor-1 branch assigns the stripped `numStr` although its comment says
to preserve the original string format. -/
theorem C3_stripped_value_at_failing_input :
    convertToDSI (some "<0.05") (some "mg/kg")
      = ("0.05", "\\milli\\gram\\kilogram\\tothe{-1}")
    ∧ ("0.05" : String) ≠ "<0.05" := by decide

/-- C4 (counterexample): idempotence fails at the resolving pair
`("2","lb")`: re-converting the result yields `("","")`, because the
emitted D-SI unit string `"\kilogram"` is not a key of the table and the
code has no escape-marker passthrough. -/
theorem C4_counterexample :
    convertToDSI (some "2") (some "lb") = ("0.907185", "\\kilogram")
    ∧ convertToDSI (some "0.907185") (some "\\kilogram") = ("", "")
    ∧ convertToDSI (some "0.907185") (some "\\kilogram")
        ≠ convertToDSI (some "2") (some "lb") := by decide

/-- C4 (amended): unit conversion is not idempotent; instead, for every
`(v,u)` that resolves (non-empty `dsiUnit`), re-converting the result gives
empty D-SI fields, since the table's D-SI output vocabulary is disjoint
from its input vocabulary and no already-normalized passthrough exists. -/
theorem C4_reconversion_empty (v u dv du : String)
    (h : convertToDSI (some v) (some u) = (dv, du)) (hdu : du ≠ "") :
    convertToDSI (some dv) (some du) = ("", "") := by
  obtain ⟨c, hres, rfl⟩ := convertToDSI_unit_eq h hdu
  obtain ⟨kv, hkv, rfl⟩ := resolveUnit_mem hres
  have hall := dsi_outputs_unresolvable
  rw [List.all_eq_true] at hall
  have hnone := hall kv hkv
  apply convertToDSI_of_resolve_none
  exact Option.isNone_iff_eq_none.mp hnone

/-- C4 (witness): the amended statement applied at the concrete resolving
pair `("2","lb")`. -/
theorem C4_reconversion_empty_witness :
    convertToDSI (some "0.907185") (some "\\kilogram") = ("", "") :=
  C4_reconversion_empty "2" "lb" "0.907185" "\\kilogram" (by decide) (by decide)

/-! ## Claim C6: validity carry-normalization -/

/-- C6: for all non-negative integer year/month counts, the carry
normalization of `handleFileUpload` yields months between 0 and 11 and
preserves the total number of months. -/
theorem C6_duration_carry (years months : Nat) :
    (normalizeValidityDuration years months).2 ≤ 11
    ∧ (normalizeValidityDuration years months).1 * 12
        + (normalizeValidityDuration years months).2 = years * 12 + months := by
  unfold normalizeValidityDuration
  by_cases h : years * 12 + months > 0
  · rw [if_pos h]
    refine ⟨?_, ?_⟩
    · show (years * 12 + months) % 12 ≤ 11
      omega
    · show (years * 12 + months) / 12 * 12 + (years * 12 + months) % 12 = years * 12 + months
      omega
  · rw [if_neg h]
    refine ⟨?_, rfl⟩
    show months ≤ 11
    omega

/-! ## Claim C7: producer validation -/

/-- A document holding two (nameless) producers, the input refuting the
claim as stated. -/
def twoProducerDoc : DRMD :=
  let b := INITIAL_DRMD ""
  { b with administrativeData :=
      { b.administrativeData with producers := [INITIAL_PRODUCER, INITIAL_PRODUCER] } }

/-- C7 (counterexample): with two producers whose names are both empty, the
report contains the too-many-producers error but no name error at all — the
per-producer name check runs only in the exactly-one-producer branch. -/
theorem C7_counterexample :
    twoProducerDoc.administrativeData.producers.map Producer.name = ["", ""]
    ∧ ("Administrative", "Only ONE Producer is allowed by schema.")
        ∈ validationErrors twoProducerDoc
    ∧ (validationErrors twoProducerDoc).filter
        (fun e => containsSub "Name is required.".data e.2.data) = [] := by decide

/-- C7 (amended): the validator reports an error when the producer list is
empty and an error when it holds more than one producer; the empty-name
error is reported only in the remaining case, when the document holds
exactly one producer. -/
theorem C7_producer_validation (d : DRMD) :
    (d.administrativeData.producers = [] →
        ("Administrative", "At least one Producer is required.") ∈ validationErrors d)
    ∧ (1 < d.administrativeData.producers.length →
        ("Administrative", "Only ONE Producer is allowed by schema.") ∈ validationErrors d)
    ∧ (∀ p, d.administrativeData.producers = [p] → p.name = "" →
        ("Administrative", "Producer 1: Name is required.") ∈ validationErrors d) := by
  refine ⟨?_, ?_, ?_⟩
  · intro h
    unfold validationErrors
    rw [h]
    simp
  · intro h
    unfold validationErrors
    have h0 : ¬ d.administrativeData.producers.length = 0 := by omega
    simp [h0, h]
  · intro p hp hname
    unfold validationErrors
    rw [hp]
    simp [List.enum, hname]
    left
    decide

/-- A document with an empty producer list. -/
def noProducerDoc : DRMD :=
  let b := INITIAL_DRMD ""
  { b with administrativeData := { b.administrativeData with producers := [] } }

/-- C7 (witness): the amended statement applied at a document with no
producer. -/
theorem C7_producer_validation_witness :
    ("Administrative", "At least one Producer is required.")
      ∈ validationErrors noProducerDoc :=
  (C7_producer_validation noProducerDoc).1 rfl

/-! ## Claim C5: fragment merge of extracted property tables -/

/-- The first payload property of the C5 scenario: "Certified Values" with
one result named "in %" holding the given rows. -/
def c5prop1 (qs1 : List ExQuantity) : ExProperty :=
  { name := some "Certified Values"
    results := some [{ name := some "in %", quantities := some qs1 }] }

/-- The second payload property of the C5 scenario: same name (hence the
same normalized key) with one result named "in mg/kg". -/
def c5prop2 (qs2 : List ExQuantity) : ExProperty :=
  { name := some "Certified Values"
    results := some [{ name := some "in mg/kg", quantities := some qs2 }] }

/-- C5: a "Certified Values" property with a result named "in %" holding 2
rows, followed by a property with the same normalized key whose result is
named "in mg/kg" holding 3 rows, normalizes to exactly one canonical
property with exactly one result whose quantity list has the 5 rows in the
original relative order. -/
theorem C5_fragment_merge (newUuid : String) (qs1 qs2 : List ExQuantity)
    (hq1 : qs1.length = 2) (hq2 : qs2.length = 3) :
    ∃ P R, normalizeExtractedProperties newUuid [c5prop1 qs1, c5prop2 qs2] = [P]
      ∧ P.results = [R]
      ∧ R.quantities.map Quantity.name = (qs1 ++ qs2).map (fun q => q.name.getD "")
      ∧ R.quantities.length = 5 := by
  have hkey : normalizeName "Certified Values" = "certifiedvalues" := by decide
  have hfrag : isFragmentName (trimChars (lowChars "in mg/kg".data)) = true := by decide
  have hdesc : String.mk (trimChars ("" : String).data) = "" := by decide
  have hfoot : isFootnote "" = false := by decide
  have h1 : mergePropStep [] (c5prop1 qs1)
      = [("certifiedvalues",
          { name := some "Certified Values", description := none, procedures := none
            isCertified := none
            results := [{ name := some "in %", description := none
                          quantities := some qs1, sectionCoordinates := none }] })] := by
    simp [mergePropStep, c5prop1, seedEntry, updateEntry, mergeResultIntoEntry,
          hkey, hdesc, hfoot]
  have h2 : mergeProps [c5prop1 qs1, c5prop2 qs2]
      = [("certifiedvalues",
          { name := some "Certified Values", description := none, procedures := none
            isCertified := none
            results := [{ name := some "in %", description := none
                          quantities := some (qs1 ++ qs2), sectionCoordinates := none }] })] := by
    simp only [mergeProps, List.foldl_cons, List.foldl_nil, h1]
    simp [mergePropStep, c5prop2, seedEntry, updateEntry, mergeResultIntoEntry,
          hkey, hdesc, hfoot, hfrag]
  rw [normalizeExtractedProperties, h2]
  refine ⟨_, _, rfl, rfl, ?_, ?_⟩
  · simp only [normalizeResult, List.map_map, List.map_append]
    have hmapfn : ∀ qs : List ExQuantity,
        List.map (Quantity.name ∘ normalizeQuantity newUuid) qs
          = List.map (fun q => q.name.getD "") qs := by
      intro qs
      apply List.map_congr_left
      intro q hq
      rfl
    simp [hmapfn]
  · simp [normalizeResult, hq1, hq2]

/-- Two concrete rows for the first table of the C5 scenario. -/
def c5rowsA : List ExQuantity := [{ name := some "a" }, { name := some "b" }]

/-- Three concrete rows for the second table of the C5 scenario. -/
def c5rowsB : List ExQuantity :=
  [{ name := some "c" }, { name := some "d" }, { name := some "e" }]

/-- C5 (witness): the merge applied at a concrete five-row payload. -/
theorem C5_fragment_merge_witness :
    ∃ P R, normalizeExtractedProperties "u0" [c5prop1 c5rowsA, c5prop2 c5rowsB] = [P]
      ∧ P.results = [R]
      ∧ R.quantities.map Quantity.name = (c5rowsA ++ c5rowsB).map (fun q => q.name.getD "")
      ∧ R.quantities.length = 5 :=
  C5_fragment_merge "u0" c5rowsA c5rowsB (by decide) (by decide)

/-! ## Claim C9: bulk replacement only by non-empty extraction lists -/

/-- Updating an entry in place preserves the number of entries. -/
theorem updateEntry_length (k : String) (f : PropEntry → PropEntry)
    (m : List (String × PropEntry)) : (updateEntry k f m).length = m.length := by
  simp [updateEntry]

/-- Folding point updates over results preserves the number of entries. -/
theorem foldl_updateEntry_length (k : String) (rs : List ExResult)
    (m : List (String × PropEntry)) :
    (rs.foldl (fun acc r => updateEntry k (mergeResultIntoEntry r) acc) m).length
      = m.length := by
  induction rs generalizing m with
  | nil => rfl
  | cons r rest ih => simp [List.foldl_cons, ih, updateEntry_length]

/-- One grouping step never removes entries. -/
theorem mergePropStep_length_le (m : List (String × PropEntry)) (p : ExProperty) :
    m.length ≤ (mergePropStep m p).length := by
  unfold mergePropStep
  set k := normalizeName (if (p.name.getD "") = "" then "Material Properties" else p.name.getD "")
  by_cases hf : (m.find? fun kv => kv.1 = k).isSome
  all_goals simp only [hf, if_true, if_false]
  all_goals by_cases hfoot : isFootnote (String.mk (trimChars (p.description.getD "").data)) = true
  all_goals cases hr : p.results
  all_goals simp [hf, hfoot, hr, foldl_updateEntry_length, updateEntry_length]

/-- Grouping a non-empty property list yields a non-empty map. -/
theorem mergeProps_ne_nil {ps : List ExProperty} (h : ps ≠ []) : mergeProps ps ≠ [] := by
  cases ps with
  | nil => exact absurd rfl h
  | cons p rest =>
      have hstep : 1 ≤ (mergePropStep [] p).length := by
        unfold mergePropStep
        by_cases hfoot : isFootnote (String.mk (trimChars (p.description.getD "").data)) = true
        all_goals cases hr : p.results
        all_goals simp [hfoot, hr, foldl_updateEntry_length, updateEntry_length]
      have hrest : ∀ (l : List ExProperty) (m : List (String × PropEntry)),
          m.length ≤ (l.foldl mergePropStep m).length := by
        intro l
        induction l with
        | nil => intro m; simp
        | cons q qs ih =>
            intro m
            calc m.length ≤ (mergePropStep m q).length := mergePropStep_length_le m q
              _ ≤ _ := ih (mergePropStep m q)
      have : 1 ≤ (mergeProps (p :: rest)).length := by
        unfold mergeProps
        calc 1 ≤ (mergePropStep [] p).length := hstep
          _ ≤ _ := hrest rest (mergePropStep [] p)
      intro hc
      rw [hc] at this
      simp at this

/-- C9: the extraction merge replaces the producer, responsible-person,
material and property lists only when the corresponding incoming list is
non-empty (in which case it is fully replaced by the normalized incoming
list); an empty or absent incoming list leaves the previous entries
unchanged. -/
theorem C9_replace_only_nonempty (prev : DRMD) (today newUuid : String) (x : Extracted)
    (res : DRMD) (hres : res = mergeExtraction prev today newUuid x) :
    ((x.administrativeData.bind (·.producers)).getD [] = [] →
        res.administrativeData.producers = prev.administrativeData.producers)
    ∧ ((x.administrativeData.bind (·.producers)).getD [] ≠ [] →
        res.administrativeData.producers
          = ((x.administrativeData.bind (·.producers)).getD []).map (normalizeProducer newUuid))
    ∧ ((x.administrativeData.bind (·.responsiblePersons)).getD [] = [] →
        res.administrativeData.responsiblePersons = prev.administrativeData.responsiblePersons)
    ∧ ((x.administrativeData.bind (·.responsiblePersons)).getD [] ≠ [] →
        res.administrativeData.responsiblePersons
          = ((x.administrativeData.bind (·.responsiblePersons)).getD []).map (normalizePerson newUuid))
    ∧ (x.materials.getD [] = [] → res.materials = prev.materials)
    ∧ (x.materials.getD [] ≠ [] →
        res.materials = (x.materials.getD []).map (normalizeMaterial newUuid))
    ∧ (x.properties.getD [] = [] → res.properties = prev.properties)
    ∧ (x.properties.getD [] ≠ [] →
        res.properties = normalizeExtractedProperties newUuid (x.properties.getD [])) := by
  subst hres
  refine ⟨?_, ?_, ?_, ?_, ?_, ?_, ?_, ?_⟩
  · intro h; simp [mergeExtraction, h]
  · intro h; simp [mergeExtraction, h]
  · intro h; simp [mergeExtraction, h]
  · intro h; simp [mergeExtraction, h]
  · intro h; simp [mergeExtraction, h]
  · intro h; simp [mergeExtraction, h]
  · intro h; simp [mergeExtraction, normalizeExtractedProperties, mergeProps, h]
  · intro h
    have hne := mergeProps_ne_nil h
    have hlen : 0 < (normalizeExtractedProperties newUuid (x.properties.getD [])).length := by
      unfold normalizeExtractedProperties
      simpa using List.length_pos.mpr hne
    simp [mergeExtraction, hlen]

/-- A payload carrying exactly one producer and nothing else. -/
def c9payload : Extracted :=
  { administrativeData := some { producers := some [{ name := some "P GmbH" }] } }

/-- C9 (witness): a one-producer payload replaces the producer list and
leaves the material list untouched. -/
theorem C9_replace_only_nonempty_witness :
    (mergeExtraction (INITIAL_DRMD "d") "t" "u" c9payload).administrativeData.producers
      = ((c9payload.administrativeData.bind (·.producers)).getD []).map (normalizeProducer "u")
    ∧ (mergeExtraction (INITIAL_DRMD "d") "t" "u" c9payload).materials
      = (INITIAL_DRMD "d").materials :=
  ⟨(C9_replace_only_nonempty (INITIAL_DRMD "d") "t" "u" c9payload _ rfl).2.1 (by decide),
   (C9_replace_only_nonempty (INITIAL_DRMD "d") "t" "u" c9payload _ rfl).2.2.2.2.1 rfl⟩

/-! ## Claim C10: decoded quantities copy the wire pair into both field
pairs -/

/-- Every decoded quantity copies the single wire value/unit pair into both
the display and the D-SI fields. -/
theorem parseQuantity_copies (newUuid : String) (q : Xml) :
    (parseQuantity newUuid q).dsiUnit = (parseQuantity newUuid q).unit
    ∧ (parseQuantity newUuid q).dsiValue = (parseQuantity newUuid q).value := by
  unfold parseQuantity
  cases hreal : (q.byTag "si:real").head? with
  | none => simp [hreal, INITIAL_QUANTITY]
  | some real =>
      cases hmu : (real.byTag "si:expandedMU").head? with
      | none => simp [hreal, hmu]
      | some mu => simp [hreal, hmu]

/-- C10: every quantity produced by `parseDrmdXml` has `dsiUnit = unit` and
`dsiValue = value` (the decoder copies the one wire value/unit pair into
both field pairs, so the original human-readable unit spelling is never
recovered); a quantity element without an `si:real` child keeps the model
defaults for all value fields. -/
theorem C10_decoded_quantities (today newUuid : String) (t : Xml) :
    (∀ p ∈ (parseDrmdXml today newUuid t).properties, ∀ r ∈ p.results,
      ∀ q ∈ r.quantities, q.dsiUnit = q.unit ∧ q.dsiValue = q.value)
    ∧ (∀ qe : Xml, qe.byTag "si:real" = [] →
        (parseQuantity newUuid qe).value = ""
        ∧ (parseQuantity newUuid qe).unit = ""
        ∧ (parseQuantity newUuid qe).dsiValue = ""
        ∧ (parseQuantity newUuid qe).dsiUnit = ""
        ∧ (parseQuantity newUuid qe).uncertainty = ""
        ∧ (parseQuantity newUuid qe).coverageFactor = "2.0"
        ∧ (parseQuantity newUuid qe).coverageProbability = "0.95"
        ∧ (parseQuantity newUuid qe).distribution = "normal") := by
  constructor
  · intro p hp r hr q hq
    have hprops : (parseDrmdXml today newUuid t).properties = []
        ∨ (parseDrmdXml today newUuid t).properties
            = (t.docByTag "drmd:materialProperties").map (parseProperty newUuid) := by
      unfold parseDrmdXml
      simp only [apply_ite DRMD.properties]
      by_cases h : (t.docByTag "drmd:materialProperties").length > 0
      · right
        simp [h]
      · left
        simp [h, INITIAL_DRMD]
    rcases hprops with h | h
    · rw [h] at hp
      exact absurd hp (List.not_mem_nil p)
    · rw [h] at hp
      obtain ⟨pe, hpe, rfl⟩ := List.mem_map.mp hp
      have hr2 : r ∈ (pe.byTag "drmd:result").map (parseResult newUuid) := hr
      obtain ⟨re, hre, rfl⟩ := List.mem_map.mp hr2
      have hq2 : q ∈ (re.byTag "drmd:quantity").map (parseQuantity newUuid) := hq
      obtain ⟨qe, hqe, rfl⟩ := List.mem_map.mp hq2
      exact parseQuantity_copies newUuid qe
  · intro qe hqe
    unfold parseQuantity
    rw [hqe]
    exact ⟨rfl, rfl, rfl, rfl, rfl, rfl, rfl, rfl⟩

/-- A one-quantity property tree for the C10 witness. -/
def c10tree : Xml :=
  el "root"
    [elA "drmd:materialProperties" [("isCertified", "true")]
      [el "drmd:result"
        [el "drmd:data"
          [el "drmd:list"
            [el "drmd:quantity"
              [el "dcc:name" [contentEl "Lead"],
               el "si:real" [el "si:value" [txt "4.9"], el "si:unit" [txt "\\gram"]]]]]]]]

/-- The quantity the decoder produces from `c10tree`. -/
def c10q : Quantity :=
  parseQuantity "u" (el "drmd:quantity"
    [el "dcc:name" [contentEl "Lead"],
     el "si:real" [el "si:value" [txt "4.9"], el "si:unit" [txt "\\gram"]]])

/-- C10 (witness): the invariant applied at a concrete decoded document and
the defaults clause applied at a quantity element without `si:real`. -/
theorem C10_decoded_quantities_witness :
    (c10q.dsiUnit = c10q.unit ∧ c10q.dsiValue = c10q.value)
    ∧ (parseQuantity "u" (el "drmd:quantity" [])).value = ""
    ∧ (parseQuantity "u" (el "drmd:quantity" [])).coverageFactor = "2.0" :=
  ⟨(C10_decoded_quantities "T" "u" c10tree).1
      ((parseDrmdXml "T" "u" c10tree).properties.head (by decide))
      (by decide)
      (((parseDrmdXml "T" "u" c10tree).properties.head (by decide)).results.head (by decide))
      (by decide)
      c10q
      (by decide),
   ⟨((C10_decoded_quantities "T" "u" c10tree).2 (el "drmd:quantity" []) (by decide)).1,
    ((C10_decoded_quantities "T" "u" c10tree).2 (el "drmd:quantity" []) (by decide)).2.2.2.2.2.1⟩⟩

/-! ## Claim C8: hard failure only at the parse boundary; defaults
elsewhere -/

/-- C8: the decoder throws exactly on a structurally unparsable input (the
`DOMParser` boundary, modelled by `none`); on every parsed DOM the walk is
total and returns a document, and each absent top-level section leaves the
corresponding initial-model default in place. -/
theorem C8_decoder_total_and_defaults (today newUuid : String) :
    (parseDrmdXmlChecked today newUuid none = .error "Invalid XML file structure")
    ∧ (∀ t : Xml, parseDrmdXmlChecked today newUuid (some t)
        = .ok (parseDrmdXml today newUuid t))
    ∧ (∀ t : Xml, t.docByTag "drmd:administrativeData" = [] →
        (parseDrmdXml today newUuid t).administrativeData
          = (INITIAL_DRMD today).administrativeData)
    ∧ (∀ t : Xml, t.docByTag "drmd:material" = [] →
        (parseDrmdXml today newUuid t).materials = [])
    ∧ (∀ t : Xml, t.docByTag "drmd:materialProperties" = [] →
        (parseDrmdXml today newUuid t).properties = [])
    ∧ (∀ t : Xml, t.docByTag "drmd:statements" = [] →
        (parseDrmdXml today newUuid t).statements = (INITIAL_DRMD today).statements)
    ∧ (∀ t : Xml, t.docByTag "drmd:comment" = [] →
        (parseDrmdXml today newUuid t).generalComment = "")
    ∧ (∀ t : Xml, t.docByTag "drmd:document" = [] →
        (parseDrmdXml today newUuid t).binaryDocument = none) := by
  refine ⟨rfl, fun t => rfl, ?_, ?_, ?_, ?_, ?_, ?_⟩
  · intro t h
    unfold parseDrmdXml parseAdmin
    rw [h]
    simp only [apply_ite DRMD.administrativeData, List.head?_nil]
    simp [ite_self]
  · intro t h
    unfold parseDrmdXml
    rw [h]
    simp only [apply_ite DRMD.materials]
    simp [INITIAL_DRMD]
  · intro t h
    unfold parseDrmdXml
    rw [h]
    simp only [apply_ite DRMD.properties]
    simp [INITIAL_DRMD]
  · intro t h
    unfold parseDrmdXml parseStatements
    rw [h]
    simp only [apply_ite DRMD.statements, List.head?_nil]
    simp [ite_self]
  · intro t h
    unfold parseDrmdXml getTagContentDoc
    rw [h]
    simp only [apply_ite DRMD.generalComment, List.head?_nil]
    simp [ite_self]
  · intro t h
    unfold parseDrmdXml getTagContentDoc
    rw [h]
    simp only [apply_ite DRMD.binaryDocument, List.head?_nil]
    simp [ite_self, INITIAL_DRMD]

/-- C8 (witness): the boundary and the defaults applied at a childless
document element. -/
theorem C8_decoder_total_and_defaults_witness :
    parseDrmdXmlChecked "T" "U" none = .error "Invalid XML file structure"
    ∧ parseDrmdXmlChecked "T" "U" (some (el "root" []))
        = .ok (parseDrmdXml "T" "U" (el "root" []))
    ∧ (parseDrmdXml "T" "U" (el "root" [])).administrativeData
        = (INITIAL_DRMD "T").administrativeData
    ∧ (parseDrmdXml "T" "U" (el "root" [])).materials = []
    ∧ (parseDrmdXml "T" "U" (el "root" [])).binaryDocument = none :=
  ⟨(C8_decoder_total_and_defaults "T" "U").1,
   (C8_decoder_total_and_defaults "T" "U").2.1 (el "root" []),
   (C8_decoder_total_and_defaults "T" "U").2.2.1 (el "root" []) (by decide),
   (C8_decoder_total_and_defaults "T" "U").2.2.2.1 (el "root" []) (by decide),
   (C8_decoder_total_and_defaults "T" "U").2.2.2.2.2.2.2 (el "root" []) (by decide)⟩

/-! ## Round-trip infrastructure (claim C1)

Generic evaluation lemmas for the DOM model, and recovery of the
`P<Y>Y<M>M` period by the decoder's digit scan. -/

@[simp] theorem Forest.ofList_nil : Forest.ofList [] = .nil := rfl

@[simp] theorem Forest.ofList_cons (x : Xml) (l : List Xml) :
    Forest.ofList (x :: l) = .cons x (Forest.ofList l) := rfl

@[simp] theorem Xml.byTag_text (t s : String) : Xml.byTag t (.text s) = [] := rfl

@[simp] theorem Xml.byTag_elem (t tag : String) (attrs : List (String × String)) (cs : Forest) :
    Xml.byTag t (.elem tag attrs cs) = Forest.byTag t cs := rfl

@[simp] theorem Forest.byTag_nil (t : String) : Forest.byTag t .nil = [] := rfl

@[simp] theorem Forest.byTag_cons (t : String) (x : Xml) (f : Forest) :
    Forest.byTag t (.cons x f) = topMatch t x ++ Xml.byTag t x ++ Forest.byTag t f := rfl

@[simp] theorem topMatch_text (t s : String) : topMatch t (.text s) = [] := rfl

@[simp] theorem topMatch_elem (t tag : String) (attrs : List (String × String)) (cs : Forest) :
    topMatch t (.elem tag attrs cs) = if tag = t then [.elem tag attrs cs] else [] := rfl

@[simp] theorem Xml.textContent_text (s : String) : Xml.textContent (.text s) = s := rfl

@[simp] theorem Xml.textContent_elem (tag : String) (attrs : List (String × String)) (cs : Forest) :
    Xml.textContent (.elem tag attrs cs) = Forest.textContent cs := rfl

@[simp] theorem Forest.textContent_nil : Forest.textContent .nil = "" := rfl

@[simp] theorem Forest.textContent_cons (x : Xml) (f : Forest) :
    Forest.textContent (.cons x f) = x.textContent ++ f.textContent := rfl

/-- `byTag` over a forest built from a list is a flat map over the list. -/
theorem Forest.byTag_ofList (t : String) (l : List Xml) :
    Forest.byTag t (Forest.ofList l)
      = l.flatMap (fun x => topMatch t x ++ Xml.byTag t x) := by
  induction l with
  | nil => rfl
  | cons x xs ih => simp [ih]

@[simp] theorem el_byTag (t tag : String) (cs : List Xml) :
    Xml.byTag t (el tag cs) = cs.flatMap (fun x => topMatch t x ++ Xml.byTag t x) := by
  simp [el, Forest.byTag_ofList]

@[simp] theorem elA_byTag (t tag : String) (attrs : List (String × String)) (cs : List Xml) :
    Xml.byTag t (elA tag attrs cs) = cs.flatMap (fun x => topMatch t x ++ Xml.byTag t x) := by
  simp [elA, Forest.byTag_ofList]

@[simp] theorem el_topMatch (t tag : String) (cs : List Xml) :
    topMatch t (el tag cs) = if tag = t then [el tag cs] else [] := rfl

@[simp] theorem elA_topMatch (t tag : String) (attrs : List (String × String)) (cs : List Xml) :
    topMatch t (elA tag attrs cs) = if tag = t then [elA tag attrs cs] else [] := rfl

@[simp] theorem txt_topMatch (t s : String) : topMatch t (txt s) = [] := rfl

@[simp] theorem txt_byTag (t s : String) : Xml.byTag t (txt s) = [] := rfl

@[simp] theorem txt_textContent (s : String) : (txt s).textContent = s := rfl

/-- `textContent` over a forest built from a list. -/
theorem Forest.textContent_ofList (l : List Xml) :
    Forest.textContent (Forest.ofList l)
      = l.foldr (fun x acc => x.textContent ++ acc) "" := by
  induction l with
  | nil => rfl
  | cons x xs ih => simp [ih]

@[simp] theorem el_textContent (tag : String) (cs : List Xml) :
    (el tag cs).textContent = cs.foldr (fun x acc => x.textContent ++ acc) "" := by
  simp [el, Forest.textContent_ofList]

@[simp] theorem elA_textContent (tag : String) (attrs : List (String × String)) (cs : List Xml) :
    (elA tag attrs cs).textContent = cs.foldr (fun x acc => x.textContent ++ acc) "" := by
  simp [elA, Forest.textContent_ofList]

@[simp] theorem contentEl_textContent (s : String) : (contentEl s).textContent = s := by
  simp [contentEl]

@[simp] theorem contentEl_topMatch (t s : String) :
    topMatch t (contentEl s) = if "dcc:content" = t then [contentEl s] else [] := rfl

@[simp] theorem contentEl_byTag (t s : String) : Xml.byTag t (contentEl s) = [] := by
  simp [contentEl]

/-- Digit value step used by the decoder's scan. -/
def digitStep (x : Nat) (c : Char) : Nat := x * 10 + (c.toNat - '0'.toNat)

/-- `Nat.digitChar` of a digit is a decimal digit character and is neither
`'Y'` nor `'M'`. -/
theorem digitChar_digit {n : Nat} (h : n < 10) :
    (Nat.digitChar n).isDigit = true ∧ Nat.digitChar n ≠ 'Y' ∧ Nat.digitChar n ≠ 'M' := by
  interval_cases n <;> exact ⟨rfl, by decide, by decide⟩

/-- The scan value of a digit character recovers the digit. -/
theorem digitStep_digitChar (x : Nat) {n : Nat} (h : n < 10) :
    digitStep x (Nat.digitChar n) = x * 10 + n := by
  interval_cases n <;> rfl

/-- Every character of `natCharsAux` is a digit distinct from `'Y'`/`'M'`. -/
theorem natCharsAux_digits :
    ∀ (fuel n : Nat), ∀ c ∈ natCharsAux fuel n,
      c.isDigit = true ∧ c ≠ 'Y' ∧ c ≠ 'M' := by
  intro fuel
  induction fuel with
  | zero =>
      intro n c hc
      simp only [natCharsAux, List.mem_singleton] at hc
      subst hc
      exact digitChar_digit (Nat.mod_lt n (by omega))
  | succ fuel ih =>
      intro n c hc
      simp only [natCharsAux] at hc
      by_cases h : n < 10
      · rw [if_pos h] at hc
        simp only [List.mem_singleton] at hc
        subst hc
        exact digitChar_digit h
      · rw [if_neg h] at hc
        rcases List.mem_append.mp hc with h1 | h1
        · exact ih (n / 10) c h1
        · simp only [List.mem_singleton] at h1
          subst h1
          exact digitChar_digit (Nat.mod_lt n (by omega))

/-- Folding the scan step over the digit characters of `n` recovers `n`. -/
theorem natCharsAux_foldl :
    ∀ (fuel n : Nat), n ≤ fuel → ∀ a : Nat,
      (natCharsAux fuel n).foldl digitStep a
        = a * 10 ^ (natCharsAux fuel n).length + n := by
  intro fuel
  induction fuel with
  | zero =>
      intro n hn a
      interval_cases n
      simp [natCharsAux, digitStep_digitChar]
  | succ fuel ih =>
      intro n hn a
      by_cases h : n < 10
      · simp [natCharsAux, h, digitStep_digitChar a h]
      · have hd : n / 10 ≤ fuel := by omega
        simp only [natCharsAux, if_neg h, List.foldl_append, List.length_append,
          List.foldl_cons, List.foldl_nil, List.length_cons, List.length_nil]
        rw [ih (n / 10) hd a]
        rw [digitStep_digitChar _ (Nat.mod_lt n (by omega))]
        ring_nf
        omega

/-- Scanning past a character that is neither the target nor a digit resets
the accumulator. -/
theorem numBefore_reset (target c : Char) (l : List Char) (acc : Option Nat)
    (hct : c ≠ target) (hcd : c.isDigit = false) :
    numBefore target (c :: l) acc = numBefore target l none := by
  simp [numBefore, hct, hcd]

/-- Scanning a run of digits (none equal to the target) accumulates their
value. -/
theorem numBefore_digits (target : Char) :
    ∀ (ds : List Char) (l : List Char) (acc : Option Nat),
      (∀ c ∈ ds, c.isDigit = true ∧ c ≠ target) →
      numBefore target (ds ++ l) acc
        = numBefore target l
            (if ds.isEmpty then acc else some (ds.foldl digitStep (acc.getD 0))) := by
  intro ds
  induction ds with
  | nil => intro l acc h; simp
  | cons c rest ih =>
      intro l acc h
      have hc := h c (by simp)
      have hrest : ∀ x ∈ rest, x.isDigit = true ∧ x ≠ target := fun x hx => h x (by simp [hx])
      simp only [List.cons_append, numBefore, hc.2, hc.1, ite_true, if_true,
        false_and, if_false, ite_false, List.append_eq]
      rw [ih l _ hrest]
      by_cases hrn : rest.isEmpty
      · have hre : rest = [] := List.isEmpty_iff.mp hrn
        subst hre
        simp [digitStep]
      · simp [hrn, digitStep]

/-- Hitting the target with a pending digit run returns the run's value. -/
theorem numBefore_at_target (target : Char) (l : List Char) (v : Nat) :
    numBefore target (target :: l) (some v) = some v := by
  simp [numBefore]

/-- The digit rendering of a natural number is never empty. -/
theorem natChars_ne_nil (n : Nat) : natChars n ≠ [] := by
  unfold natChars
  cases n with
  | zero => simp [natCharsAux]
  | succ k =>
      simp only [natCharsAux]
      by_cases h : k + 1 < 10
      · simp [h]
      · simp [h]

/-- The digit rendering of a natural number is non-empty (`isEmpty`). -/
theorem natChars_isEmpty (n : Nat) : (natChars n).isEmpty = false := by
  have := natChars_ne_nil n
  cases h : natChars n with
  | nil => exact absurd h this
  | cons c l => rfl

/-- The scan value of the digit rendering recovers the number. -/
theorem natChars_scan (n : Nat) : (natChars n).foldl digitStep 0 = n := by
  have := natCharsAux_foldl n n (Nat.le_refl n) 0
  simpa [natChars] using this

/-- Character facts about the digit rendering. -/
theorem natChars_digits (n : Nat) :
    ∀ c ∈ natChars n, c.isDigit = true ∧ c ≠ 'Y' ∧ c ≠ 'M' :=
  fun c hc => natCharsAux_digits n n c hc

/-- The characters of the encoder's period string. -/
theorem isoPeriod_data (y m : Nat) :
    (isoPeriod y m).data
      = if y = 0 ∧ m = 0 then ['P', '0', 'Y']
        else 'P' :: ((if y = 0 then [] else natChars y ++ ['Y'])
                      ++ (if m = 0 then [] else natChars m ++ ['M'])) := by
  unfold isoPeriod
  by_cases hy : y = 0 <;> by_cases hm : m = 0
  · simp [hy, hm]
  · have hd : (("P" ++ (if y ≠ 0 then natStr y ++ "Y" else ""))
        ++ (if m ≠ 0 then natStr m ++ "M" else "")).data
        = 'P' :: (natChars m ++ ['M']) := by
      simp [hy, hm, String.data_append, natStr]
    rw [if_neg ?_, hd]
    · simp [hy, hm]
    · intro hc
      have := congrArg String.data hc
      rw [hd] at this
      simp at this
  · have hd : (("P" ++ (if y ≠ 0 then natStr y ++ "Y" else ""))
        ++ (if m ≠ 0 then natStr m ++ "M" else "")).data
        = 'P' :: (natChars y ++ ['Y']) := by
      simp [hy, hm, String.data_append, natStr]
    rw [if_neg ?_, hd]
    · simp [hy, hm]
    · intro hc
      have := congrArg String.data hc
      rw [hd] at this
      simp at this
  · have hd : (("P" ++ (if y ≠ 0 then natStr y ++ "Y" else ""))
        ++ (if m ≠ 0 then natStr m ++ "M" else "")).data
        = 'P' :: ((natChars y ++ ['Y']) ++ (natChars m ++ ['M'])) := by
      simp [hy, hm, String.data_append, natStr]
    rw [if_neg ?_, hd]
    · simp [hy, hm]
    · intro hc
      have := congrArg String.data hc
      rw [hd] at this
      simp at this

/-- The decoder's regex scans recover both components of the encoder's
`P<Y>Y<M>M` period, for every pair of naturals. -/
theorem isoPeriod_parse (y m : Nat) :
    (matchNumBefore 'Y' (isoPeriod y m)).getD 0 = y
    ∧ (matchNumBefore 'M' (isoPeriod y m)).getD 0 = m := by
  have hYd : ('P' : Char).isDigit = false := by decide
  have hPY : ('P' : Char) ≠ 'Y' := by decide
  have hPM : ('P' : Char) ≠ 'M' := by decide
  unfold matchNumBefore
  rw [isoPeriod_data]
  by_cases hy : y = 0 <;> by_cases hm : m = 0
  · subst hy; subst hm
    constructor <;> decide
  · subst hy
    simp only [hm, if_false, if_true, and_true, and_false, ite_true, ite_false,
      eq_self_iff_true, List.nil_append]
    constructor
    · rw [numBefore_reset 'Y' 'P' _ none hPY hYd]
      rw [numBefore_digits 'Y' (natChars m) ['M'] none
            (fun c hc => ⟨(natChars_digits m c hc).1, (natChars_digits m c hc).2.1⟩)]
      rw [if_neg (by simp [natChars_isEmpty])]
      simp only [Option.getD_none]
      rw [show numBefore 'Y' ['M'] (some ((natChars m).foldl digitStep 0))
            = none by simp [numBefore]]
      rfl
    · rw [numBefore_reset 'M' 'P' _ none hPM hYd]
      rw [numBefore_digits 'M' (natChars m) ['M'] none
            (fun c hc => ⟨(natChars_digits m c hc).1, (natChars_digits m c hc).2.2⟩)]
      rw [if_neg (by simp [natChars_isEmpty])]
      simp only [Option.getD_none]
      rw [numBefore_at_target]
      simp [natChars_scan]
  · subst hm
    simp only [hy, if_false, if_true, and_true, and_false, ite_true, ite_false,
      eq_self_iff_true, List.append_nil]
    constructor
    · rw [numBefore_reset 'Y' 'P' _ none hPY hYd]
      rw [numBefore_digits 'Y' (natChars y) ['Y'] none
            (fun c hc => ⟨(natChars_digits y c hc).1, (natChars_digits y c hc).2.1⟩)]
      rw [if_neg (by simp [natChars_isEmpty])]
      simp only [Option.getD_none]
      rw [numBefore_at_target]
      simp [natChars_scan]
    · rw [numBefore_reset 'M' 'P' _ none hPM hYd]
      rw [numBefore_digits 'M' (natChars y) ['Y'] none
            (fun c hc => ⟨(natChars_digits y c hc).1, (natChars_digits y c hc).2.2⟩)]
      rw [if_neg (by simp [natChars_isEmpty])]
      simp only [Option.getD_none]
      rw [numBefore_reset 'M' 'Y' [] _ (by decide) (by decide)]
      rfl
  · simp only [hy, hm, if_false, and_self, ite_false]
    constructor
    · rw [List.append_assoc, numBefore_reset 'Y' 'P' _ none hPY hYd]
      rw [numBefore_digits 'Y' (natChars y) _ none
            (fun c hc => ⟨(natChars_digits y c hc).1, (natChars_digits y c hc).2.1⟩)]
      rw [if_neg (by simp [natChars_isEmpty])]
      simp only [Option.getD_none, List.cons_append]
      rw [numBefore_at_target]
      simp [natChars_scan]
    · rw [List.append_assoc, numBefore_reset 'M' 'P' _ none hPM hYd]
      rw [numBefore_digits 'M' (natChars y) _ none
            (fun c hc => ⟨(natChars_digits y c hc).1, (natChars_digits y c hc).2.2⟩)]
      rw [if_neg (by simp [natChars_isEmpty])]
      simp only [Option.getD_none, List.cons_append]
      rw [numBefore_reset 'M' 'Y' _ _ (by decide) (by decide)]
      simp only [List.nil_append]
      rw [numBefore_digits 'M' (natChars m) ['M'] none
            (fun c hc => ⟨(natChars_digits m c hc).1, (natChars_digits m c hc).2.2⟩)]
      rw [if_neg (by simp [natChars_isEmpty])]
      simp only [Option.getD_none]
      rw [numBefore_at_target]
      simp [natChars_scan]

/-- Decoding the encoder's producer element recovers every contact and
address field (identifiers and coordinates take the decoder's defaults). -/
theorem parseProducer_roundtrip (u : String) (p : Producer) :
    parseProducer u (producerXml p)
      = { INITIAL_PRODUCER with
            uuid := u, name := p.name, email := p.email, phone := p.phone
            fax := p.fax, address := p.address } := by
  unfold parseProducer producerXml producerKids
  by_cases hfax : p.fax ≠ ""
  · simp [hfax, getNestedContent, getTagContent, INITIAL_PRODUCER]
  · simp at hfax
    simp [hfax, getNestedContent, getTagContent, INITIAL_PRODUCER]

/-- Decoding the encoder's person element recovers name, role, description
and the main-signer flag (the crypt flags take the decoder's defaults). -/
theorem parsePerson_roundtrip (u : String) (p : ResponsiblePerson) :
    parsePerson u (respPersonXml p)
      = { INITIAL_PERSON with
            uuid := u, name := p.name, role := p.role
            description := p.description, mainSigner := p.mainSigner } := by
  unfold parsePerson respPersonXml personKids
  by_cases hd : p.description ≠ ""
  · cases hms : p.mainSigner <;>
      simp [hd, hms, getNestedContent, getTagContent, boolStr, INITIAL_PERSON]
  · simp at hd
    cases hms : p.mainSigner <;>
      simp [hd, hms, getNestedContent, getTagContent, boolStr, INITIAL_PERSON]

/-- The primitive-quantity subtree contains no `drmd:name` element. -/
theorem primQty_no_name (v : String) :
    Xml.byTag "drmd:name" (primQtyXml v) = [] := by
  unfold primQtyXml
  by_cases h : v = "" ∨ v = "noQuantity"
  · simp [h]
  · simp only [h, if_false, ite_false]
    cases matchNumUnit v with
    | none => simp
    | some nu =>
        by_cases hu : (convertToDSI (some nu.1) (some nu.2)).2 ≠ "" <;> simp [hu]

/-- The primitive-quantity subtree contains no `drmd:description` element. -/
theorem primQty_no_description (v : String) :
    Xml.byTag "drmd:description" (primQtyXml v) = [] := by
  unfold primQtyXml
  by_cases h : v = "" ∨ v = "noQuantity"
  · simp [h]
  · simp only [h, if_false, ite_false]
    cases matchNumUnit v with
    | none => simp
    | some nu =>
        by_cases hu : (convertToDSI (some nu.1) (some nu.2)).2 ≠ "" <;> simp [hu]

/-- Decoding the encoder's material element recovers name and description. -/
theorem parseMaterial_roundtrip (u : String) (m : Material) :
    (parseMaterial u (materialXml m)).name = m.name
    ∧ (parseMaterial u (materialXml m)).description = m.description := by
  unfold parseMaterial materialXml materialKids
  by_cases hq : m.itemQuantities ≠ ""
  · constructor <;>
      simp [hq, getNestedContent, primQty_no_name, primQty_no_description]
  · simp at hq
    constructor <;>
      simp [hq, getNestedContent, primQty_no_name, primQty_no_description]

/-- The CAS enrichment block contains no element the decoder queries. -/
theorem casXml_no_query (cas t : String)
    (h2 : t ≠ "drmd:propertyIdentifier")
    (h3 : t ≠ "drmd:scheme") (h4 : t ≠ "drmd:value") (h5 : t ≠ "drmd:link") :
    Xml.byTag t (casXml cas) = [] := by
  unfold casXml
  simp [Ne.symm h2, Ne.symm h3, Ne.symm h4, Ne.symm h5]

/-- The field view the decoder restores for an encoded quantity: value and
name survive; the unit fields collapse to the emitted D-SI unit; the
uncertainty block survives when present, else the model defaults stand. -/
def expectedQuantity (u : String) (q : Quantity) : Quantity :=
  { INITIAL_QUANTITY with
      uuid := u
      identifiers := []
      name := q.name
      value := q.value
      dsiValue := q.value
      unit := if q.dsiUnit ≠ "" then q.dsiUnit else q.unit
      dsiUnit := if q.dsiUnit ≠ "" then q.dsiUnit else q.unit
      uncertainty := q.uncertainty
      coverageFactor := if q.uncertainty ≠ "" then q.coverageFactor else "2.0"
      coverageProbability := if q.uncertainty ≠ "" then q.coverageProbability else "0.95" }

/-- Decoding the encoder's quantity element yields exactly the expected
field view. -/
theorem parseQuantity_roundtrip (u : String) (q : Quantity) :
    parseQuantity u (quantityXml q) = expectedQuantity u q := by
  unfold parseQuantity quantityXml quantityKids expectedQuantity
  cases hcas : getCasNumber q.name <;>
    by_cases hunc : q.uncertainty = "" <;>
      by_cases hcf : q.coverageFactor = "" <;>
        by_cases hcp : q.coverageProbability = "" <;>
          simp [hcas, hunc, hcf, hcp, getNestedContent, casXml, INITIAL_QUANTITY]

/-- No element outside the quantity vocabulary occurs below an encoded
quantity element. -/
theorem quantityXml_inner_empty (q : Quantity) (t : String)
    (h1 : t ≠ "dcc:name") (h2 : t ≠ "dcc:content") (h3 : t ≠ "si:real")
    (h4 : t ≠ "si:value") (h5 : t ≠ "si:unit")
    (h6 : t ≠ "si:measurementUncertaintyUnivariate") (h7 : t ≠ "si:expandedMU")
    (h8 : t ≠ "si:valueExpandedMU") (h9 : t ≠ "si:coverageFactor")
    (h10 : t ≠ "si:coverageProbability") (h11 : t ≠ "drmd:propertyIdentifiers")
    (h12 : t ≠ "drmd:propertyIdentifier") (h13 : t ≠ "drmd:scheme")
    (h14 : t ≠ "drmd:value") (h15 : t ≠ "drmd:link") :
    Xml.byTag t (quantityXml q) = [] := by
  unfold quantityXml quantityKids
  cases hcas : getCasNumber q.name <;>
    by_cases hunc : q.uncertainty = "" <;>
      by_cases hcf : q.coverageFactor = "" <;>
        by_cases hcp : q.coverageProbability = "" <;>
          simp [hcas, hunc, hcf, hcp, casXml,
            Ne.symm h1, Ne.symm h2, Ne.symm h3, Ne.symm h4, Ne.symm h5,
            Ne.symm h6, Ne.symm h7, Ne.symm h8, Ne.symm h9, Ne.symm h10,
            Ne.symm h11, Ne.symm h12, Ne.symm h13, Ne.symm h14, Ne.symm h15]

/-- `topMatch` sees only the quantity element's own tag. -/
theorem quantityXml_topMatch (t : String) (q : Quantity) :
    topMatch t (quantityXml q) = if "drmd:quantity" = t then [quantityXml q] else [] := by
  rw [quantityXml]
  rfl

/-- A forest of encoded quantities contributes nothing for a foreign tag. -/
theorem flatMap_quantityXml_empty (qs : List Quantity) (t : String)
    (h0 : t ≠ "drmd:quantity")
    (h1 : t ≠ "dcc:name") (h2 : t ≠ "dcc:content") (h3 : t ≠ "si:real")
    (h4 : t ≠ "si:value") (h5 : t ≠ "si:unit")
    (h6 : t ≠ "si:measurementUncertaintyUnivariate") (h7 : t ≠ "si:expandedMU")
    (h8 : t ≠ "si:valueExpandedMU") (h9 : t ≠ "si:coverageFactor")
    (h10 : t ≠ "si:coverageProbability") (h11 : t ≠ "drmd:propertyIdentifiers")
    (h12 : t ≠ "drmd:propertyIdentifier") (h13 : t ≠ "drmd:scheme")
    (h14 : t ≠ "drmd:value") (h15 : t ≠ "drmd:link") :
    (qs.map quantityXml).flatMap (fun x => topMatch t x ++ Xml.byTag t x) = [] := by
  rw [List.flatMap_eq_nil_iff]
  intro x hx
  obtain ⟨q, hq, rfl⟩ := List.mem_map.mp hx
  rw [quantityXml_topMatch, if_neg (Ne.symm h0),
    quantityXml_inner_empty q t h1 h2 h3 h4 h5 h6 h7 h8 h9 h10 h11 h12 h13 h14 h15]
  rfl

/-- Searching a forest of encoded quantities for `drmd:quantity` returns
exactly those elements. -/
theorem flatMap_quantityXml_self (qs : List Quantity) :
    (qs.map quantityXml).flatMap
        (fun x => topMatch "drmd:quantity" x ++ Xml.byTag "drmd:quantity" x)
      = qs.map quantityXml := by
  induction qs with
  | nil => rfl
  | cons q rest ih =>
      have hempty : Xml.byTag "drmd:quantity" (quantityXml q) = [] :=
        quantityXml_inner_empty q _ (by decide) (by decide) (by decide) (by decide)
          (by decide) (by decide) (by decide) (by decide) (by decide) (by decide)
          (by decide) (by decide) (by decide) (by decide) (by decide)
      simp [ih, hempty, quantityXml_topMatch]

/-- The field view the decoder restores for an encoded result. -/
def expectedResult (u : String) (r : MeasurementResult) : MeasurementResult :=
  { uuid := u
    name := if r.name = "" then "Values" else r.name
    description := r.description
    quantities := r.quantities.map (expectedQuantity u) }

/-- Decoding the encoder's result element yields exactly the expected
view. -/
theorem parseResult_roundtrip (u : String) (r : MeasurementResult) :
    parseResult u (resultXml r) = expectedResult u r := by
  unfold parseResult resultXml resultKids expectedResult
  have hname := flatMap_quantityXml_empty r.quantities "drmd:name" (by decide) (by decide)
    (by decide) (by decide) (by decide) (by decide) (by decide) (by decide) (by decide)
    (by decide) (by decide) (by decide) (by decide) (by decide) (by decide) (by decide)
  have hdesc := flatMap_quantityXml_empty r.quantities "drmd:description" (by decide) (by decide)
    (by decide) (by decide) (by decide) (by decide) (by decide) (by decide) (by decide)
    (by decide) (by decide) (by decide) (by decide) (by decide) (by decide) (by decide)
  have hquant := flatMap_quantityXml_self r.quantities
  have hmap : List.map (parseQuantity u) (r.quantities.map quantityXml)
      = r.quantities.map (expectedQuantity u) := by
    rw [List.map_map]
    apply List.map_congr_left
    intro q hq
    exact parseQuantity_roundtrip u q
  by_cases hd : r.description = ""
  · simp [hd, getNestedContent, hname, hdesc, hquant, hmap]
  · simp [hd, getNestedContent, hname, hdesc, hquant, hmap]

/-- `topMatch` sees only the result element's own tag. -/
theorem resultXml_topMatch (t : String) (r : MeasurementResult) :
    topMatch t (resultXml r) = if "drmd:result" = t then [resultXml r] else [] := by
  rw [resultXml]
  rfl

/-- No element outside the result vocabulary occurs below an encoded result
element. -/
theorem resultXml_inner_empty (r : MeasurementResult) (t : String)
    (g1 : t ≠ "drmd:name") (g2 : t ≠ "drmd:description") (g3 : t ≠ "drmd:data")
    (g4 : t ≠ "drmd:list") (g5 : t ≠ "drmd:quantity")
    (h1 : t ≠ "dcc:name") (h2 : t ≠ "dcc:content") (h3 : t ≠ "si:real")
    (h4 : t ≠ "si:value") (h5 : t ≠ "si:unit")
    (h6 : t ≠ "si:measurementUncertaintyUnivariate") (h7 : t ≠ "si:expandedMU")
    (h8 : t ≠ "si:valueExpandedMU") (h9 : t ≠ "si:coverageFactor")
    (h10 : t ≠ "si:coverageProbability") (h11 : t ≠ "drmd:propertyIdentifiers")
    (h12 : t ≠ "drmd:propertyIdentifier") (h13 : t ≠ "drmd:scheme")
    (h14 : t ≠ "drmd:value") (h15 : t ≠ "drmd:link") :
    Xml.byTag t (resultXml r) = [] := by
  unfold resultXml resultKids
  have hq := flatMap_quantityXml_empty r.quantities t g5 h1 h2 h3 h4 h5 h6 h7 h8 h9 h10
    h11 h12 h13 h14 h15
  by_cases hd : r.description = "" <;>
    simp [hd, hq, Ne.symm g1, Ne.symm g2, Ne.symm g3, Ne.symm g4, Ne.symm h2]

/-- A forest of encoded results contributes nothing for a foreign tag. -/
theorem flatMap_resultXml_empty (rs : List MeasurementResult) (t : String)
    (g0 : t ≠ "drmd:result")
    (g1 : t ≠ "drmd:name") (g2 : t ≠ "drmd:description") (g3 : t ≠ "drmd:data")
    (g4 : t ≠ "drmd:list") (g5 : t ≠ "drmd:quantity")
    (h1 : t ≠ "dcc:name") (h2 : t ≠ "dcc:content") (h3 : t ≠ "si:real")
    (h4 : t ≠ "si:value") (h5 : t ≠ "si:unit")
    (h6 : t ≠ "si:measurementUncertaintyUnivariate") (h7 : t ≠ "si:expandedMU")
    (h8 : t ≠ "si:valueExpandedMU") (h9 : t ≠ "si:coverageFactor")
    (h10 : t ≠ "si:coverageProbability") (h11 : t ≠ "drmd:propertyIdentifiers")
    (h12 : t ≠ "drmd:propertyIdentifier") (h13 : t ≠ "drmd:scheme")
    (h14 : t ≠ "drmd:value") (h15 : t ≠ "drmd:link") :
    (rs.map resultXml).flatMap (fun x => topMatch t x ++ Xml.byTag t x) = [] := by
  rw [List.flatMap_eq_nil_iff]
  intro x hx
  obtain ⟨r, hr, rfl⟩ := List.mem_map.mp hx
  rw [resultXml_topMatch, if_neg (Ne.symm g0),
    resultXml_inner_empty r t g1 g2 g3 g4 g5 h1 h2 h3 h4 h5 h6 h7 h8 h9 h10 h11 h12 h13 h14 h15]
  rfl

/-- Searching a forest of encoded results for `drmd:result` returns exactly
those elements. -/
theorem flatMap_resultXml_self (rs : List MeasurementResult) :
    (rs.map resultXml).flatMap
        (fun x => topMatch "drmd:result" x ++ Xml.byTag "drmd:result" x)
      = rs.map resultXml := by
  induction rs with
  | nil => rfl
  | cons r rest ih =>
      have hempty : Xml.byTag "drmd:result" (resultXml r) = [] :=
        resultXml_inner_empty r _ (by decide) (by decide) (by decide) (by decide)
          (by decide) (by decide) (by decide) (by decide) (by decide) (by decide)
          (by decide) (by decide) (by decide) (by decide) (by decide) (by decide)
          (by decide) (by decide) (by decide) (by decide)
      simp [ih, hempty, resultXml_topMatch]

/-- The description elements an encoded result forest exposes, in order. -/
def descElems (rs : List MeasurementResult) : List Xml :=
  rs.flatMap (fun r =>
    if r.description = "" then [] else [el "drmd:description" [contentEl r.description]])

/-- Below one encoded result, the only `drmd:description` element is the
result's own (when non-empty). -/
theorem resultXml_byTag_desc (r : MeasurementResult) :
    Xml.byTag "drmd:description" (resultXml r)
      = if r.description = "" then [] else [el "drmd:description" [contentEl r.description]] := by
  unfold resultXml resultKids
  have hq := flatMap_quantityXml_empty r.quantities "drmd:description" (by decide) (by decide)
    (by decide) (by decide) (by decide) (by decide) (by decide) (by decide) (by decide)
    (by decide) (by decide) (by decide) (by decide) (by decide) (by decide) (by decide)
  by_cases hd : r.description = "" <;> simp [hd, hq]

/-- Searching a forest of encoded results for `drmd:description` yields
exactly the description elements. -/
theorem flatMap_resultXml_desc (rs : List MeasurementResult) :
    (rs.map resultXml).flatMap
        (fun x => topMatch "drmd:description" x ++ Xml.byTag "drmd:description" x)
      = descElems rs := by
  induction rs with
  | nil => rfl
  | cons r rest ih =>
      unfold descElems
      rw [List.map_cons, List.flatMap_cons, List.flatMap_cons]
      rw [resultXml_topMatch, if_neg (by decide), resultXml_byTag_desc]
      rw [show rest.flatMap (fun r =>
          if r.description = "" then []
          else [el "drmd:description" [contentEl r.description]]) = descElems rest from rfl]
      rw [← ih]
      simp

/-- The first non-empty description among a result list (the value the
decoder surfaces for a property whose own description element is absent). -/
def firstResultDesc (rs : List MeasurementResult) : String :=
  (((rs.map (fun r => r.description)).filter (fun d => d != "")).head?).getD ""

/-- Head of the exposed description elements, as the head of the filtered
description list. -/
theorem descElems_head (rs : List MeasurementResult) :
    (descElems rs).head?
      = Option.map (fun d => el "drmd:description" [contentEl d])
          (((rs.map (fun r => r.description)).filter (fun d => d != "")).head?) := by
  induction rs with
  | nil => rfl
  | cons r rest ih =>
      unfold descElems at ih ⊢
      by_cases hd : r.description = "" <;> simp [hd, ih]

/-- The field view the decoder restores for an encoded property: name,
procedures and the certification flag survive; when the property's own
description is empty the decoder surfaces the first non-empty result
description instead; results are restored up to the per-result view. -/
def expectedProperty (u : String) (p : MaterialProperty) : MaterialProperty :=
  { uuid := u
    id := ""
    name := p.name
    isCertified := p.isCertified
    description := if p.description = "" then firstResultDesc p.results else p.description
    procedures := p.procedures
    results := p.results.map (expectedResult u) }

/-- Decoding the encoder's property element yields exactly the expected
view. -/
theorem parseProperty_roundtrip (u : String) (p : MaterialProperty) :
    parseProperty u (propertyXml p) = expectedProperty u p := by
  unfold parseProperty propertyXml propertyKids expectedProperty
  have hself := flatMap_resultXml_self p.results
  have hproc := flatMap_resultXml_empty p.results "drmd:procedures" (by decide) (by decide)
    (by decide) (by decide) (by decide) (by decide) (by decide) (by decide) (by decide)
    (by decide) (by decide) (by decide) (by decide) (by decide) (by decide) (by decide)
    (by decide) (by decide) (by decide) (by decide) (by decide)
  have hdescf := flatMap_resultXml_desc p.results
  have hmap : List.map (parseResult u) (p.results.map resultXml)
      = p.results.map (expectedResult u) := by
    rw [List.map_map]
    apply List.map_congr_left
    intro r hr
    exact parseResult_roundtrip u r
  by_cases hd : p.description = ""
  · cases hh : (((p.results.map (fun r => r.description)).filter (fun d => d != "")).head?) <;>
      cases hic : p.isCertified <;> by_cases hp2 : p.procedures = "" <;>
        simp [hd, hh, hic, hp2, getNestedContent, descElems_head, firstResultDesc,
          hself, hproc, hdescf, hmap, boolStr, Xml.getAttr, elA]
  · cases hic : p.isCertified <;> by_cases hp2 : p.procedures = "" <;>
      simp [hd, hic, hp2, getNestedContent, hself, hproc, hdescf, hmap, boolStr, Xml.getAttr, elA]

/-- The primitive-quantity subtree's own tag is `drmd:real` or
`drmd:noQuantity` only. -/
theorem primQty_topMatch_empty (v t : String)
    (h1 : t ≠ "drmd:real") (h2 : t ≠ "drmd:noQuantity") :
    topMatch t (primQtyXml v) = [] := by
  unfold primQtyXml
  by_cases hv : v = "" ∨ v = "noQuantity"
  · simp [hv, Ne.symm h2]
  · simp only [hv, if_false, ite_false]
    cases matchNumUnit v with
    | none => simp [Ne.symm h2]
    | some nu =>
        by_cases hdsi : (convertToDSI (some nu.1) (some nu.2)).2 ≠ "" <;>
          simp [hdsi, Ne.symm h1, Ne.symm h2]

/-- Below the primitive-quantity subtree only `si:value`, `si:unit` and
`dcc:content` occur. -/
theorem primQty_inner_empty (v t : String)
    (h1 : t ≠ "si:value") (h2 : t ≠ "si:unit") (h3 : t ≠ "dcc:content") :
    Xml.byTag t (primQtyXml v) = [] := by
  unfold primQtyXml
  by_cases hv : v = "" ∨ v = "noQuantity"
  · simp [hv, Ne.symm h3]
  · simp only [hv, if_false, ite_false]
    cases matchNumUnit v with
    | none => simp [Ne.symm h3]
    | some nu =>
        by_cases hdsi : (convertToDSI (some nu.1) (some nu.2)).2 ≠ "" <;>
          simp [hdsi, Ne.symm h1, Ne.symm h2, Ne.symm h3]

/-- `parseQty` looks only at the tag query, so documents agreeing there
decode alike. -/
theorem parseQty_congr (m1 m2 : Xml) (tag : String)
    (h : Xml.byTag tag m1 = Xml.byTag tag m2) : parseQty m1 tag = parseQty m2 tag := by
  unfold parseQty
  rw [h]

/-- `parseQty` of a document without the queried container is empty. -/
theorem parseQty_nil (m : Xml) (tag : String) (h : Xml.byTag tag m = []) :
    parseQty m tag = "" := by
  unfold parseQty
  rw [h]
  rfl

/-- The string the decoder's `parseQty` recovers from an encoded primitive
quantity: an unchanged numeric rendering only when the unit fails to
resolve; a resolved pair re-renders as `"<converted value> <D-SI unit>"`;
empty and `noQuantity` inputs surface as `"noQuantity"`. -/
def expectedItemQty (v : String) : String :=
  if v = "" ∨ v = "noQuantity" then "noQuantity"
  else
    match matchNumUnit v with
    | some nu =>
        let dsi := convertToDSI (some nu.1) (some nu.2)
        if dsi.2 ≠ "" then dsi.1 ++ " " ++ dsi.2 else v
    | none => v

/-- `parseQty` on a single encoded item-quantity container. -/
theorem parseQty_single (tag v : String) (h1 : tag ≠ "dcc:itemQuantity")
    (h2 : tag ≠ "drmd:real") (h3 : tag ≠ "drmd:noQuantity") (h4 : tag ≠ "si:value")
    (h5 : tag ≠ "si:unit") (h6 : tag ≠ "dcc:content") :
    parseQty (el "drmd:material" [el tag [el "dcc:itemQuantity" [primQtyXml v]]]) tag
      = expectedItemQty v := by
  have e1 := primQty_topMatch_empty v tag h2 h3
  have e2 := primQty_inner_empty v tag h4 h5 h6
  have f1 := primQty_topMatch_empty v "dcc:itemQuantity" (by decide) (by decide)
  have f2 := primQty_inner_empty v "dcc:itemQuantity" (by decide) (by decide) (by decide)
  unfold parseQty
  have hbt : Xml.byTag tag (el "drmd:material" [el tag [el "dcc:itemQuantity" [primQtyXml v]]])
      = [el tag [el "dcc:itemQuantity" [primQtyXml v]]] := by
    simp [e1, e2, f1, f2, Ne.symm h1]
  rw [hbt]
  have hitem : Xml.byTag "dcc:itemQuantity" (el tag [el "dcc:itemQuantity" [primQtyXml v]])
      = [el "dcc:itemQuantity" [primQtyXml v]] := by
    simp [f1, f2]
  simp only [List.head?_cons, hitem]
  unfold expectedItemQty primQtyXml
  by_cases hv : v = "" ∨ v = "noQuantity"
  · simp [hv, getNestedContent]
  · simp only [hv, if_false, ite_false]
    cases hmu : matchNumUnit v with
    | none => simp [getNestedContent]
    | some nu =>
        by_cases hdsi : (convertToDSI (some nu.1) (some nu.2)).2 ≠ "" <;>
          simp [hdsi, getNestedContent]

/-- The minimum-sample-size container below an encoded material. -/
theorem materialXml_byTag_minSS (m : Material) :
    Xml.byTag "drmd:minimumSampleSize" (materialXml m)
      = [el "drmd:minimumSampleSize" [el "dcc:itemQuantity" [primQtyXml m.minimumSampleSize]]] := by
  unfold materialXml materialKids
  have e1 := primQty_topMatch_empty m.minimumSampleSize "drmd:minimumSampleSize" (by decide) (by decide)
  have e2 := primQty_inner_empty m.minimumSampleSize "drmd:minimumSampleSize" (by decide) (by decide) (by decide)
  have f1 := primQty_topMatch_empty m.itemQuantities "drmd:minimumSampleSize" (by decide) (by decide)
  have f2 := primQty_inner_empty m.itemQuantities "drmd:minimumSampleSize" (by decide) (by decide) (by decide)
  by_cases hq : m.itemQuantities = "" <;> simp [hq, e1, e2, f1, f2]

/-- The item-quantities container below an encoded material (absent when the
field is empty). -/
theorem materialXml_byTag_itemQs (m : Material) :
    Xml.byTag "drmd:itemQuantities" (materialXml m)
      = if m.itemQuantities = "" then []
        else [el "drmd:itemQuantities" [el "dcc:itemQuantity" [primQtyXml m.itemQuantities]]] := by
  unfold materialXml materialKids
  have e1 := primQty_topMatch_empty m.minimumSampleSize "drmd:itemQuantities" (by decide) (by decide)
  have e2 := primQty_inner_empty m.minimumSampleSize "drmd:itemQuantities" (by decide) (by decide) (by decide)
  have f1 := primQty_topMatch_empty m.itemQuantities "drmd:itemQuantities" (by decide) (by decide)
  have f2 := primQty_inner_empty m.itemQuantities "drmd:itemQuantities" (by decide) (by decide) (by decide)
  by_cases hq : m.itemQuantities = "" <;> simp [hq, e1, e2, f1, f2]

/-- The decoded minimum sample size of an encoded material. -/
theorem parseQty_min (m : Material) :
    parseQty (materialXml m) "drmd:minimumSampleSize" = expectedItemQty m.minimumSampleSize := by
  have h2 : Xml.byTag "drmd:minimumSampleSize"
        (el "drmd:material" [el "drmd:minimumSampleSize"
          [el "dcc:itemQuantity" [primQtyXml m.minimumSampleSize]]])
      = [el "drmd:minimumSampleSize" [el "dcc:itemQuantity" [primQtyXml m.minimumSampleSize]]] := by
    simp [primQty_topMatch_empty m.minimumSampleSize "drmd:minimumSampleSize" (by decide) (by decide),
      primQty_inner_empty m.minimumSampleSize "drmd:minimumSampleSize" (by decide) (by decide) (by decide)]
  rw [parseQty_congr _ _ _ ((materialXml_byTag_minSS m).trans h2.symm)]
  exact parseQty_single _ _ (by decide) (by decide) (by decide) (by decide) (by decide) (by decide)

/-- The decoded item quantities of an encoded material. -/
theorem parseQty_itemQ (m : Material) :
    parseQty (materialXml m) "drmd:itemQuantities"
      = if m.itemQuantities = "" then "" else expectedItemQty m.itemQuantities := by
  by_cases hq : m.itemQuantities = ""
  · rw [if_pos hq]
    exact parseQty_nil _ _ (by rw [materialXml_byTag_itemQs, if_pos hq])
  · rw [if_neg hq]
    have h2 : Xml.byTag "drmd:itemQuantities"
          (el "drmd:material" [el "drmd:itemQuantities"
            [el "dcc:itemQuantity" [primQtyXml m.itemQuantities]]])
        = [el "drmd:itemQuantities" [el "dcc:itemQuantity" [primQtyXml m.itemQuantities]]] := by
      simp [primQty_topMatch_empty m.itemQuantities "drmd:itemQuantities" (by decide) (by decide),
        primQty_inner_empty m.itemQuantities "drmd:itemQuantities" (by decide) (by decide) (by decide)]
    rw [parseQty_congr _ _ _ (((materialXml_byTag_itemQs m).trans (if_neg hq)).trans h2.symm)]
    exact parseQty_single _ _ (by decide) (by decide) (by decide) (by decide) (by decide) (by decide)

/-- The field view the decoder restores for an encoded material. -/
def expectedMaterial (u : String) (m : Material) : Material :=
  { uuid := u
    name := m.name
    materialClass := ""
    description := m.description
    itemQuantities := if m.itemQuantities = "" then "" else expectedItemQty m.itemQuantities
    minimumSampleSize := expectedItemQty m.minimumSampleSize
    isCertified := false
    materialIdentifiers := [INITIAL_ID] }

/-- Decoding the encoder's material element yields exactly the expected
view. -/
theorem parseMaterial_full (u : String) (m : Material) :
    parseMaterial u (materialXml m) = expectedMaterial u m := by
  have hn := (parseMaterial_roundtrip u m).1
  have hd := (parseMaterial_roundtrip u m).2
  unfold parseMaterial at hn hd ⊢
  simp only [] at hn hd
  unfold expectedMaterial
  rw [parseQty_min, parseQty_itemQ]
  simp [Material.mk.injEq, hn, hd]

/-- `topMatch` sees only the producer element's own tag. -/
theorem producerXml_topMatch (t : String) (p : Producer) :
    topMatch t (producerXml p) = if "drmd:referenceMaterialProducer" = t then [producerXml p] else [] := by
  rw [producerXml]
  rfl

/-- No element outside the producer vocabulary occurs below an encoded
producer element. -/
theorem producerXml_inner_empty (p : Producer) (t : String)
    (h1 : t ≠ "drmd:name") (h2 : t ≠ "dcc:content") (h3 : t ≠ "drmd:contact")
    (h4 : t ≠ "dcc:name") (h5 : t ≠ "dcc:eMail") (h6 : t ≠ "dcc:phone")
    (h7 : t ≠ "dcc:fax") (h8 : t ≠ "dcc:location") (h9 : t ≠ "dcc:street")
    (h10 : t ≠ "dcc:streetNo") (h11 : t ≠ "dcc:postCode") (h12 : t ≠ "dcc:city")
    (h13 : t ≠ "dcc:countryCode") :
    Xml.byTag t (producerXml p) = [] := by
  unfold producerXml producerKids
  by_cases hfax : p.fax = "" <;>
    simp [hfax, Ne.symm h1, Ne.symm h2, Ne.symm h3, Ne.symm h4, Ne.symm h5, Ne.symm h6,
      Ne.symm h7, Ne.symm h8, Ne.symm h9, Ne.symm h10, Ne.symm h11, Ne.symm h12, Ne.symm h13]

/-- A forest of encoded producers contributes nothing for a foreign tag. -/
theorem flatMap_producerXml_empty (ps : List Producer) (t : String)
    (h0 : t ≠ "drmd:referenceMaterialProducer")
    (h1 : t ≠ "drmd:name") (h2 : t ≠ "dcc:content") (h3 : t ≠ "drmd:contact")
    (h4 : t ≠ "dcc:name") (h5 : t ≠ "dcc:eMail") (h6 : t ≠ "dcc:phone")
    (h7 : t ≠ "dcc:fax") (h8 : t ≠ "dcc:location") (h9 : t ≠ "dcc:street")
    (h10 : t ≠ "dcc:streetNo") (h11 : t ≠ "dcc:postCode") (h12 : t ≠ "dcc:city")
    (h13 : t ≠ "dcc:countryCode") :
    (ps.map producerXml).flatMap (fun x => topMatch t x ++ Xml.byTag t x) = [] := by
  rw [List.flatMap_eq_nil_iff]
  intro x hx
  obtain ⟨p, hp, rfl⟩ := List.mem_map.mp hx
  rw [producerXml_topMatch, if_neg (Ne.symm h0),
    producerXml_inner_empty p t h1 h2 h3 h4 h5 h6 h7 h8 h9 h10 h11 h12 h13]
  rfl

/-- Searching a forest of encoded producers for their own tag returns exactly
those elements. -/
theorem flatMap_producerXml_self (ps : List Producer) :
    (ps.map producerXml).flatMap
        (fun x => topMatch "drmd:referenceMaterialProducer" x
          ++ Xml.byTag "drmd:referenceMaterialProducer" x)
      = ps.map producerXml := by
  induction ps with
  | nil => rfl
  | cons p rest ih =>
      have hempty : Xml.byTag "drmd:referenceMaterialProducer" (producerXml p) = [] :=
        producerXml_inner_empty p _ (by decide) (by decide) (by decide) (by decide)
          (by decide) (by decide) (by decide) (by decide) (by decide) (by decide)
          (by decide) (by decide) (by decide)
      simp [ih, hempty, producerXml_topMatch]

/-- `topMatch` sees only the person element's own tag. -/
theorem respPersonXml_topMatch (t : String) (p : ResponsiblePerson) :
    topMatch t (respPersonXml p) = if "dcc:respPerson" = t then [respPersonXml p] else [] := by
  rw [respPersonXml]
  rfl

/-- No element outside the person vocabulary occurs below an encoded person
element. -/
theorem respPersonXml_inner_empty (p : ResponsiblePerson) (t : String)
    (h1 : t ≠ "dcc:person") (h2 : t ≠ "dcc:name") (h3 : t ≠ "dcc:content")
    (h4 : t ≠ "dcc:description") (h5 : t ≠ "dcc:role") (h6 : t ≠ "dcc:mainSigner") :
    Xml.byTag t (respPersonXml p) = [] := by
  unfold respPersonXml personKids
  by_cases hd : p.description = "" <;>
    simp [hd, Ne.symm h1, Ne.symm h2, Ne.symm h3, Ne.symm h4, Ne.symm h5, Ne.symm h6]

/-- A forest of encoded persons contributes nothing for a foreign tag. -/
theorem flatMap_personXml_empty (ps : List ResponsiblePerson) (t : String)
    (h0 : t ≠ "dcc:respPerson")
    (h1 : t ≠ "dcc:person") (h2 : t ≠ "dcc:name") (h3 : t ≠ "dcc:content")
    (h4 : t ≠ "dcc:description") (h5 : t ≠ "dcc:role") (h6 : t ≠ "dcc:mainSigner") :
    (ps.map respPersonXml).flatMap (fun x => topMatch t x ++ Xml.byTag t x) = [] := by
  rw [List.flatMap_eq_nil_iff]
  intro x hx
  obtain ⟨p, hp, rfl⟩ := List.mem_map.mp hx
  rw [respPersonXml_topMatch, if_neg (Ne.symm h0),
    respPersonXml_inner_empty p t h1 h2 h3 h4 h5 h6]
  rfl

/-- Searching a forest of encoded persons for their own tag returns exactly
those elements. -/
theorem flatMap_personXml_self (ps : List ResponsiblePerson) :
    (ps.map respPersonXml).flatMap
        (fun x => topMatch "dcc:respPerson" x ++ Xml.byTag "dcc:respPerson" x)
      = ps.map respPersonXml := by
  induction ps with
  | nil => rfl
  | cons p rest ih =>
      have hempty : Xml.byTag "dcc:respPerson" (respPersonXml p) = [] :=
        respPersonXml_inner_empty p _ (by decide) (by decide) (by decide) (by decide)
          (by decide) (by decide)
      simp [ih, hempty, respPersonXml_topMatch]

/-- Below the validity element only the validity vocabulary occurs. -/
theorem validityEl_inner_empty (a : AdministrativeData) (t : String)
    (h1 : t ≠ "drmd:untilRevoked") (h2 : t ≠ "drmd:specificTime")
    (h3 : t ≠ "drmd:timeAfterDispatch") (h4 : t ≠ "drmd:dispatchDate")
    (h5 : t ≠ "drmd:period") :
    Xml.byTag t (el "drmd:validity" (validityXml a)) = [] := by
  unfold validityXml
  by_cases hur : a.validityType = "Until Revoked"
  · simp [hur, Ne.symm h1]
  · by_cases hst : a.validityType = "Specific Time"
    · simp [hur, hst, Ne.symm h2]
    · by_cases htad : a.validityType = "Time After Dispatch"
      · simp [hur, hst, htad, Ne.symm h3, Ne.symm h4, Ne.symm h5]
      · simp [hur, hst, htad]

/-- `topMatch` sees only the core-data element's own tag. -/
theorem coreXml_topMatch (t : String) (a : AdministrativeData) :
    topMatch t (coreXml a) = if "drmd:coreData" = t then [coreXml a] else [] := by
  rw [coreXml]
  rfl

/-- Below the core-data element only the core vocabulary occurs. -/
theorem coreXml_inner_empty (a : AdministrativeData) (t : String)
    (h1 : t ≠ "drmd:titleOfTheDocument") (h2 : t ≠ "drmd:uniqueIdentifier")
    (h3 : t ≠ "drmd:validity")
    (h4 : t ≠ "drmd:untilRevoked") (h5 : t ≠ "drmd:specificTime")
    (h6 : t ≠ "drmd:timeAfterDispatch") (h7 : t ≠ "drmd:dispatchDate")
    (h8 : t ≠ "drmd:period") :
    Xml.byTag t (coreXml a) = [] := by
  unfold coreXml
  have hv := validityEl_inner_empty a t h4 h5 h6 h7 h8
  simp [hv, Ne.symm h1, Ne.symm h2, Ne.symm h3]

/-- The single core-data element below an encoded administrative block. -/
theorem adminXml_byTag_core (a : AdministrativeData) :
    Xml.byTag "drmd:coreData" (adminXml a) = [coreXml a] := by
  unfold adminXml
  have hp := flatMap_producerXml_empty a.producers "drmd:coreData" (by decide) (by decide)
    (by decide) (by decide) (by decide) (by decide) (by decide) (by decide) (by decide)
    (by decide) (by decide) (by decide) (by decide) (by decide)
  have hr := flatMap_personXml_empty a.responsiblePersons "drmd:coreData" (by decide)
    (by decide) (by decide) (by decide) (by decide) (by decide) (by decide)
  have hc := coreXml_inner_empty a "drmd:coreData" (by decide) (by decide) (by decide)
    (by decide) (by decide) (by decide) (by decide) (by decide)
  by_cases hlen : a.responsiblePersons.length > 0 <;>
    simp [hlen, hp, hr, hc, coreXml_topMatch]

/-- The producer elements below an encoded administrative block. -/
theorem adminXml_byTag_producers (a : AdministrativeData) :
    Xml.byTag "drmd:referenceMaterialProducer" (adminXml a)
      = a.producers.map producerXml := by
  unfold adminXml
  have hs := flatMap_producerXml_self a.producers
  have hr := flatMap_personXml_empty a.responsiblePersons "drmd:referenceMaterialProducer"
    (by decide) (by decide) (by decide) (by decide) (by decide) (by decide) (by decide)
  have hc := coreXml_inner_empty a "drmd:referenceMaterialProducer" (by decide) (by decide)
    (by decide) (by decide) (by decide) (by decide) (by decide) (by decide)
  by_cases hlen : a.responsiblePersons.length > 0 <;>
    simp [hlen, hs, hr, hc, coreXml_topMatch]

/-- The person elements below an encoded administrative block (none when the
person list is empty, since the wrapper is omitted). -/
theorem adminXml_byTag_persons (a : AdministrativeData) :
    Xml.byTag "dcc:respPerson" (adminXml a)
      = a.responsiblePersons.map respPersonXml := by
  unfold adminXml
  have hs := flatMap_personXml_self a.responsiblePersons
  have hp := flatMap_producerXml_empty a.producers "dcc:respPerson" (by decide) (by decide)
    (by decide) (by decide) (by decide) (by decide) (by decide) (by decide) (by decide)
    (by decide) (by decide) (by decide) (by decide) (by decide)
  have hc := coreXml_inner_empty a "dcc:respPerson" (by decide) (by decide) (by decide)
    (by decide) (by decide) (by decide) (by decide) (by decide)
  by_cases hlen : a.responsiblePersons.length > 0
  · simp [hlen, hs, hp, hc, coreXml_topMatch]
  · have hnil : a.responsiblePersons = [] := by
      simpa using List.eq_nil_of_length_eq_zero (by omega)
    simp [hlen, hnil, hp, hc, coreXml_topMatch]

/-- The field view the decoder restores for an encoded producer. -/
def expectedProducer (u : String) (p : Producer) : Producer :=
  { INITIAL_PRODUCER with
      uuid := u, name := p.name, email := p.email, phone := p.phone
      fax := p.fax, address := p.address }

/-- The field view the decoder restores for an encoded person. -/
def expectedPerson (u : String) (p : ResponsiblePerson) : ResponsiblePerson :=
  { INITIAL_PERSON with
      uuid := u, name := p.name, role := p.role
      description := p.description, mainSigner := p.mainSigner }

/-- The administrative data the decoder restores from an encoded block over
the initial data `a0`: core fields and the recognised validity branches
survive; producer and person lists survive up to the per-entry views, with
empty lists leaving the initial entries untouched. -/
def expectedAdmin (u : String) (a0 a : AdministrativeData) : AdministrativeData :=
  let base := { a0 with title := a.title, uniqueIdentifier := a.uniqueIdentifier }
  let v :=
    if a.validityType = "Until Revoked" then { base with validityType := "Until Revoked" }
    else if a.validityType = "Specific Time" then
      { base with validityType := "Specific Time", specificTime := a.specificTime }
    else if a.validityType = "Time After Dispatch" then
      { base with
          validityType := "Time After Dispatch"
          dateOfIssue := a.dateOfIssue
          durationY := a.durationY
          durationM := a.durationM }
    else base
  let v2 :=
    if a.producers = [] then v
    else { v with producers := a.producers.map (expectedProducer u) }
  if a.responsiblePersons = [] then v2
  else { v2 with responsiblePersons := a.responsiblePersons.map (expectedPerson u) }

/-- Decoding a document whose only administrative block is the encoder's
yields exactly the expected administrative view. -/
theorem parseAdmin_of (u : String) (a0 a : AdministrativeData) (doc : Xml)
    (hdoc : doc.docByTag "drmd:administrativeData" = [adminXml a]) :
    parseAdmin u a0 doc = expectedAdmin u a0 a := by
  have hcore := adminXml_byTag_core a
  have hprods := adminXml_byTag_producers a
  have hpers := adminXml_byTag_persons a
  have hpmap : List.map (parseProducer u) (a.producers.map producerXml)
      = a.producers.map (expectedProducer u) := by
    rw [List.map_map]
    apply List.map_congr_left
    intro p hp
    exact parseProducer_roundtrip u p
  have hrmap : List.map (parsePerson u) (a.responsiblePersons.map respPersonXml)
      = a.responsiblePersons.map (expectedPerson u) := by
    rw [List.map_map]
    apply List.map_congr_left
    intro p hp
    exact parsePerson_roundtrip u p
  have htitle : getNestedContent (coreXml a) ["drmd:titleOfTheDocument"] = a.title := by
    unfold coreXml
    have hv := validityEl_inner_empty a "drmd:titleOfTheDocument" (by decide) (by decide)
      (by decide) (by decide) (by decide)
    simp [getNestedContent, hv]
  have huid : getNestedContent (coreXml a) ["drmd:uniqueIdentifier"] = a.uniqueIdentifier := by
    unfold coreXml
    have hv := validityEl_inner_empty a "drmd:uniqueIdentifier" (by decide) (by decide)
      (by decide) (by decide) (by decide)
    simp [getNestedContent, hv]
  have hval : Xml.byTag "drmd:validity" (coreXml a) = [el "drmd:validity" (validityXml a)] := by
    unfold coreXml
    have hv := validityEl_inner_empty a "drmd:validity" (by decide) (by decide)
      (by decide) (by decide) (by decide)
    simp [hv]
  have hY := (isoPeriod_parse a.durationY a.durationM).1
  have hM := (isoPeriod_parse a.durationY a.durationM).2
  unfold parseAdmin expectedAdmin
  rw [hdoc]
  simp only [List.head?_cons, hcore, hprods, hpers, htitle, huid, hval]
  by_cases hur : a.validityType = "Until Revoked"
  · by_cases hp : a.producers = [] <;> by_cases hr : a.responsiblePersons = [] <;>
      simp [hur, hp, hr, validityXml, getNestedContent, hpmap, hrmap, List.length_pos]
  · by_cases hst : a.validityType = "Specific Time"
    · by_cases hp : a.producers = [] <;> by_cases hr : a.responsiblePersons = [] <;>
        simp [hur, hst, hp, hr, validityXml, getNestedContent, hpmap, hrmap, List.length_pos]
    · by_cases htad : a.validityType = "Time After Dispatch"
      · by_cases hp : a.producers = [] <;> by_cases hr : a.responsiblePersons = [] <;>
          simp [hur, hst, htad, hp, hr, validityXml, getNestedContent, hpmap, hrmap,
            List.length_pos, hY, hM]
      · by_cases hp : a.producers = [] <;> by_cases hr : a.responsiblePersons = [] <;>
          simp [hur, hst, htad, hp, hr, validityXml, getNestedContent, hpmap, hrmap,
            List.length_pos]

/-- A statement block contributes nothing for a foreign tag. -/
theorem statementXml_flat_empty (tag nm ct t : String) (h1 : t ≠ "drmd:" ++ tag)
    (h2 : t ≠ "dcc:name") (h3 : t ≠ "dcc:content") :
    (statementXml tag nm ct).flatMap (fun x => topMatch t x ++ Xml.byTag t x) = [] := by
  unfold statementXml
  by_cases hc : ct = "" <;> simp [hc, Ne.symm h1, Ne.symm h2, Ne.symm h3]

/-- Below the statements block only the statement vocabulary occurs. -/
theorem statementsXml_inner_empty (st : OfficialStatements) (t : String)
    (hn : t ≠ "dcc:name") (hc : t ≠ "dcc:content")
    (k1 : t ≠ "drmd:intendedUse")
    (k2 : t ≠ "drmd:storageInformation")
    (k3 : t ≠ "drmd:instructionsForHandlingAndUse")
    (k4 : t ≠ "drmd:metrologicalTraceability")
    (k5 : t ≠ "drmd:subcontractors")
    (k6 : t ≠ "drmd:referenceToCertificationReport")
    (k7 : t ≠ "drmd:healthAndSafetyInformation")
    (k8 : t ≠ "drmd:legalNotice") :
    Xml.byTag t (statementsXml st) = [] := by
  unfold statementsXml
  have e1 := statementXml_flat_empty "intendedUse" "Intended Use" st.intendedUse t
    (fun he => k1 (he.trans (by decide))) hn hc
  have e2 := statementXml_flat_empty "storageInformation" "Storage Information" st.storageInformation t
    (fun he => k2 (he.trans (by decide))) hn hc
  have e3 := statementXml_flat_empty "instructionsForHandlingAndUse" "Handling Instructions" st.handlingInstructions t
    (fun he => k3 (he.trans (by decide))) hn hc
  have e4 := statementXml_flat_empty "metrologicalTraceability" "Metrological Traceability" st.metrologicalTraceability t
    (fun he => k4 (he.trans (by decide))) hn hc
  have e5 := statementXml_flat_empty "subcontractors" "Subcontractors" st.subcontractors t
    (fun he => k5 (he.trans (by decide))) hn hc
  have e6 := statementXml_flat_empty "referenceToCertificationReport" "Reference to Certification Report" st.referenceToCertificationReport t
    (fun he => k6 (he.trans (by decide))) hn hc
  have e7 := statementXml_flat_empty "healthAndSafetyInformation" "Health And Safety Information" st.healthAndSafety t
    (fun he => k7 (he.trans (by decide))) hn hc
  have e8 := statementXml_flat_empty "legalNotice" "Legal Notice" st.legalNotice t
    (fun he => k8 (he.trans (by decide))) hn hc
  simp [e1, e2, e3, e4, e5, e6, e7, e8]

/-- `getSt` recovers the `intendedUse` statement content. -/
theorem getSt_stmt_intendedUse (st : OfficialStatements) :
    getSt (statementsXml st) "intendedUse" = st.intendedUse := by
  unfold getSt statementsXml
  have e2 := statementXml_flat_empty "storageInformation" "Storage Information" st.storageInformation "drmd:intendedUse"
    (by decide) (by decide) (by decide)
  have e3 := statementXml_flat_empty "instructionsForHandlingAndUse" "Handling Instructions" st.handlingInstructions "drmd:intendedUse"
    (by decide) (by decide) (by decide)
  have e4 := statementXml_flat_empty "metrologicalTraceability" "Metrological Traceability" st.metrologicalTraceability "drmd:intendedUse"
    (by decide) (by decide) (by decide)
  have e5 := statementXml_flat_empty "subcontractors" "Subcontractors" st.subcontractors "drmd:intendedUse"
    (by decide) (by decide) (by decide)
  have e6 := statementXml_flat_empty "referenceToCertificationReport" "Reference to Certification Report" st.referenceToCertificationReport "drmd:intendedUse"
    (by decide) (by decide) (by decide)
  have e7 := statementXml_flat_empty "healthAndSafetyInformation" "Health And Safety Information" st.healthAndSafety "drmd:intendedUse"
    (by decide) (by decide) (by decide)
  have e8 := statementXml_flat_empty "legalNotice" "Legal Notice" st.legalNotice "drmd:intendedUse"
    (by decide) (by decide) (by decide)
  by_cases hc : st.intendedUse = ""
  · have e0 : (statementXml "intendedUse" "Intended Use" "").flatMap
        (fun x => topMatch "drmd:intendedUse" x ++ Xml.byTag "drmd:intendedUse" x) = [] := by
      unfold statementXml
      simp
    simp [e0, hc, e2, e3, e4, e5, e6, e7, e8]
  · have e0 : statementXml "intendedUse" "Intended Use" st.intendedUse
        = [el "drmd:intendedUse" [el "dcc:name" [contentEl "Intended Use"], contentEl st.intendedUse]] := by
      unfold statementXml
      simp [hc]
    simp [e0, hc, e2, e3, e4, e5, e6, e7, e8]
    simp [el, contentEl, firstDirectContent, Xml.textContent, Forest.textContent, txt]

/-- `getSt` recovers the `storageInformation` statement content. -/
theorem getSt_stmt_storageInformation (st : OfficialStatements) :
    getSt (statementsXml st) "storageInformation" = st.storageInformation := by
  unfold getSt statementsXml
  have e1 := statementXml_flat_empty "intendedUse" "Intended Use" st.intendedUse "drmd:storageInformation"
    (by decide) (by decide) (by decide)
  have e3 := statementXml_flat_empty "instructionsForHandlingAndUse" "Handling Instructions" st.handlingInstructions "drmd:storageInformation"
    (by decide) (by decide) (by decide)
  have e4 := statementXml_flat_empty "metrologicalTraceability" "Metrological Traceability" st.metrologicalTraceability "drmd:storageInformation"
    (by decide) (by decide) (by decide)
  have e5 := statementXml_flat_empty "subcontractors" "Subcontractors" st.subcontractors "drmd:storageInformation"
    (by decide) (by decide) (by decide)
  have e6 := statementXml_flat_empty "referenceToCertificationReport" "Reference to Certification Report" st.referenceToCertificationReport "drmd:storageInformation"
    (by decide) (by decide) (by decide)
  have e7 := statementXml_flat_empty "healthAndSafetyInformation" "Health And Safety Information" st.healthAndSafety "drmd:storageInformation"
    (by decide) (by decide) (by decide)
  have e8 := statementXml_flat_empty "legalNotice" "Legal Notice" st.legalNotice "drmd:storageInformation"
    (by decide) (by decide) (by decide)
  by_cases hc : st.storageInformation = ""
  · have e0 : (statementXml "storageInformation" "Storage Information" "").flatMap
        (fun x => topMatch "drmd:storageInformation" x ++ Xml.byTag "drmd:storageInformation" x) = [] := by
      unfold statementXml
      simp
    simp [e0, hc, e1, e3, e4, e5, e6, e7, e8]
  · have e0 : statementXml "storageInformation" "Storage Information" st.storageInformation
        = [el "drmd:storageInformation" [el "dcc:name" [contentEl "Storage Information"], contentEl st.storageInformation]] := by
      unfold statementXml
      simp [hc]
    simp [e0, hc, e1, e3, e4, e5, e6, e7, e8]
    simp [el, contentEl, firstDirectContent, Xml.textContent, Forest.textContent, txt]

/-- `getSt` recovers the `instructionsForHandlingAndUse` statement content. -/
theorem getSt_stmt_instructionsForHandlingAndUse (st : OfficialStatements) :
    getSt (statementsXml st) "instructionsForHandlingAndUse" = st.handlingInstructions := by
  unfold getSt statementsXml
  have e1 := statementXml_flat_empty "intendedUse" "Intended Use" st.intendedUse "drmd:instructionsForHandlingAndUse"
    (by decide) (by decide) (by decide)
  have e2 := statementXml_flat_empty "storageInformation" "Storage Information" st.storageInformation "drmd:instructionsForHandlingAndUse"
    (by decide) (by decide) (by decide)
  have e4 := statementXml_flat_empty "metrologicalTraceability" "Metrological Traceability" st.metrologicalTraceability "drmd:instructionsForHandlingAndUse"
    (by decide) (by decide) (by decide)
  have e5 := statementXml_flat_empty "subcontractors" "Subcontractors" st.subcontractors "drmd:instructionsForHandlingAndUse"
    (by decide) (by decide) (by decide)
  have e6 := statementXml_flat_empty "referenceToCertificationReport" "Reference to Certification Report" st.referenceToCertificationReport "drmd:instructionsForHandlingAndUse"
    (by decide) (by decide) (by decide)
  have e7 := statementXml_flat_empty "healthAndSafetyInformation" "Health And Safety Information" st.healthAndSafety "drmd:instructionsForHandlingAndUse"
    (by decide) (by decide) (by decide)
  have e8 := statementXml_flat_empty "legalNotice" "Legal Notice" st.legalNotice "drmd:instructionsForHandlingAndUse"
    (by decide) (by decide) (by decide)
  by_cases hc : st.handlingInstructions = ""
  · have e0 : (statementXml "instructionsForHandlingAndUse" "Handling Instructions" "").flatMap
        (fun x => topMatch "drmd:instructionsForHandlingAndUse" x ++ Xml.byTag "drmd:instructionsForHandlingAndUse" x) = [] := by
      unfold statementXml
      simp
    simp [e0, hc, e1, e2, e4, e5, e6, e7, e8]
  · have e0 : statementXml "instructionsForHandlingAndUse" "Handling Instructions" st.handlingInstructions
        = [el "drmd:instructionsForHandlingAndUse" [el "dcc:name" [contentEl "Handling Instructions"], contentEl st.handlingInstructions]] := by
      unfold statementXml
      simp [hc]
    simp [e0, hc, e1, e2, e4, e5, e6, e7, e8]
    simp [el, contentEl, firstDirectContent, Xml.textContent, Forest.textContent, txt]

/-- `getSt` recovers the `metrologicalTraceability` statement content. -/
theorem getSt_stmt_metrologicalTraceability (st : OfficialStatements) :
    getSt (statementsXml st) "metrologicalTraceability" = st.metrologicalTraceability := by
  unfold getSt statementsXml
  have e1 := statementXml_flat_empty "intendedUse" "Intended Use" st.intendedUse "drmd:metrologicalTraceability"
    (by decide) (by decide) (by decide)
  have e2 := statementXml_flat_empty "storageInformation" "Storage Information" st.storageInformation "drmd:metrologicalTraceability"
    (by decide) (by decide) (by decide)
  have e3 := statementXml_flat_empty "instructionsForHandlingAndUse" "Handling Instructions" st.handlingInstructions "drmd:metrologicalTraceability"
    (by decide) (by decide) (by decide)
  have e5 := statementXml_flat_empty "subcontractors" "Subcontractors" st.subcontractors "drmd:metrologicalTraceability"
    (by decide) (by decide) (by decide)
  have e6 := statementXml_flat_empty "referenceToCertificationReport" "Reference to Certification Report" st.referenceToCertificationReport "drmd:metrologicalTraceability"
    (by decide) (by decide) (by decide)
  have e7 := statementXml_flat_empty "healthAndSafetyInformation" "Health And Safety Information" st.healthAndSafety "drmd:metrologicalTraceability"
    (by decide) (by decide) (by decide)
  have e8 := statementXml_flat_empty "legalNotice" "Legal Notice" st.legalNotice "drmd:metrologicalTraceability"
    (by decide) (by decide) (by decide)
  by_cases hc : st.metrologicalTraceability = ""
  · have e0 : (statementXml "metrologicalTraceability" "Metrological Traceability" "").flatMap
        (fun x => topMatch "drmd:metrologicalTraceability" x ++ Xml.byTag "drmd:metrologicalTraceability" x) = [] := by
      unfold statementXml
      simp
    simp [e0, hc, e1, e2, e3, e5, e6, e7, e8]
  · have e0 : statementXml "metrologicalTraceability" "Metrological Traceability" st.metrologicalTraceability
        = [el "drmd:metrologicalTraceability" [el "dcc:name" [contentEl "Metrological Traceability"], contentEl st.metrologicalTraceability]] := by
      unfold statementXml
      simp [hc]
    simp [e0, hc, e1, e2, e3, e5, e6, e7, e8]
    simp [el, contentEl, firstDirectContent, Xml.textContent, Forest.textContent, txt]

/-- `getSt` recovers the `subcontractors` statement content. -/
theorem getSt_stmt_subcontractors (st : OfficialStatements) :
    getSt (statementsXml st) "subcontractors" = st.subcontractors := by
  unfold getSt statementsXml
  have e1 := statementXml_flat_empty "intendedUse" "Intended Use" st.intendedUse "drmd:subcontractors"
    (by decide) (by decide) (by decide)
  have e2 := statementXml_flat_empty "storageInformation" "Storage Information" st.storageInformation "drmd:subcontractors"
    (by decide) (by decide) (by decide)
  have e3 := statementXml_flat_empty "instructionsForHandlingAndUse" "Handling Instructions" st.handlingInstructions "drmd:subcontractors"
    (by decide) (by decide) (by decide)
  have e4 := statementXml_flat_empty "metrologicalTraceability" "Metrological Traceability" st.metrologicalTraceability "drmd:subcontractors"
    (by decide) (by decide) (by decide)
  have e6 := statementXml_flat_empty "referenceToCertificationReport" "Reference to Certification Report" st.referenceToCertificationReport "drmd:subcontractors"
    (by decide) (by decide) (by decide)
  have e7 := statementXml_flat_empty "healthAndSafetyInformation" "Health And Safety Information" st.healthAndSafety "drmd:subcontractors"
    (by decide) (by decide) (by decide)
  have e8 := statementXml_flat_empty "legalNotice" "Legal Notice" st.legalNotice "drmd:subcontractors"
    (by decide) (by decide) (by decide)
  by_cases hc : st.subcontractors = ""
  · have e0 : (statementXml "subcontractors" "Subcontractors" "").flatMap
        (fun x => topMatch "drmd:subcontractors" x ++ Xml.byTag "drmd:subcontractors" x) = [] := by
      unfold statementXml
      simp
    simp [e0, hc, e1, e2, e3, e4, e6, e7, e8]
  · have e0 : statementXml "subcontractors" "Subcontractors" st.subcontractors
        = [el "drmd:subcontractors" [el "dcc:name" [contentEl "Subcontractors"], contentEl st.subcontractors]] := by
      unfold statementXml
      simp [hc]
    simp [e0, hc, e1, e2, e3, e4, e6, e7, e8]
    simp [el, contentEl, firstDirectContent, Xml.textContent, Forest.textContent, txt]

/-- `getSt` recovers the `referenceToCertificationReport` statement content. -/
theorem getSt_stmt_referenceToCertificationReport (st : OfficialStatements) :
    getSt (statementsXml st) "referenceToCertificationReport" = st.referenceToCertificationReport := by
  unfold getSt statementsXml
  have e1 := statementXml_flat_empty "intendedUse" "Intended Use" st.intendedUse "drmd:referenceToCertificationReport"
    (by decide) (by decide) (by decide)
  have e2 := statementXml_flat_empty "storageInformation" "Storage Information" st.storageInformation "drmd:referenceToCertificationReport"
    (by decide) (by decide) (by decide)
  have e3 := statementXml_flat_empty "instructionsForHandlingAndUse" "Handling Instructions" st.handlingInstructions "drmd:referenceToCertificationReport"
    (by decide) (by decide) (by decide)
  have e4 := statementXml_flat_empty "metrologicalTraceability" "Metrological Traceability" st.metrologicalTraceability "drmd:referenceToCertificationReport"
    (by decide) (by decide) (by decide)
  have e5 := statementXml_flat_empty "subcontractors" "Subcontractors" st.subcontractors "drmd:referenceToCertificationReport"
    (by decide) (by decide) (by decide)
  have e7 := statementXml_flat_empty "healthAndSafetyInformation" "Health And Safety Information" st.healthAndSafety "drmd:referenceToCertificationReport"
    (by decide) (by decide) (by decide)
  have e8 := statementXml_flat_empty "legalNotice" "Legal Notice" st.legalNotice "drmd:referenceToCertificationReport"
    (by decide) (by decide) (by decide)
  by_cases hc : st.referenceToCertificationReport = ""
  · have e0 : (statementXml "referenceToCertificationReport" "Reference to Certification Report" "").flatMap
        (fun x => topMatch "drmd:referenceToCertificationReport" x ++ Xml.byTag "drmd:referenceToCertificationReport" x) = [] := by
      unfold statementXml
      simp
    simp [e0, hc, e1, e2, e3, e4, e5, e7, e8]
  · have e0 : statementXml "referenceToCertificationReport" "Reference to Certification Report" st.referenceToCertificationReport
        = [el "drmd:referenceToCertificationReport" [el "dcc:name" [contentEl "Reference to Certification Report"], contentEl st.referenceToCertificationReport]] := by
      unfold statementXml
      simp [hc]
    simp [e0, hc, e1, e2, e3, e4, e5, e7, e8]
    simp [el, contentEl, firstDirectContent, Xml.textContent, Forest.textContent, txt]

/-- `getSt` recovers the `healthAndSafetyInformation` statement content. -/
theorem getSt_stmt_healthAndSafetyInformation (st : OfficialStatements) :
    getSt (statementsXml st) "healthAndSafetyInformation" = st.healthAndSafety := by
  unfold getSt statementsXml
  have e1 := statementXml_flat_empty "intendedUse" "Intended Use" st.intendedUse "drmd:healthAndSafetyInformation"
    (by decide) (by decide) (by decide)
  have e2 := statementXml_flat_empty "storageInformation" "Storage Information" st.storageInformation "drmd:healthAndSafetyInformation"
    (by decide) (by decide) (by decide)
  have e3 := statementXml_flat_empty "instructionsForHandlingAndUse" "Handling Instructions" st.handlingInstructions "drmd:healthAndSafetyInformation"
    (by decide) (by decide) (by decide)
  have e4 := statementXml_flat_empty "metrologicalTraceability" "Metrological Traceability" st.metrologicalTraceability "drmd:healthAndSafetyInformation"
    (by decide) (by decide) (by decide)
  have e5 := statementXml_flat_empty "subcontractors" "Subcontractors" st.subcontractors "drmd:healthAndSafetyInformation"
    (by decide) (by decide) (by decide)
  have e6 := statementXml_flat_empty "referenceToCertificationReport" "Reference to Certification Report" st.referenceToCertificationReport "drmd:healthAndSafetyInformation"
    (by decide) (by decide) (by decide)
  have e8 := statementXml_flat_empty "legalNotice" "Legal Notice" st.legalNotice "drmd:healthAndSafetyInformation"
    (by decide) (by decide) (by decide)
  by_cases hc : st.healthAndSafety = ""
  · have e0 : (statementXml "healthAndSafetyInformation" "Health And Safety Information" "").flatMap
        (fun x => topMatch "drmd:healthAndSafetyInformation" x ++ Xml.byTag "drmd:healthAndSafetyInformation" x) = [] := by
      unfold statementXml
      simp
    simp [e0, hc, e1, e2, e3, e4, e5, e6, e8]
  · have e0 : statementXml "healthAndSafetyInformation" "Health And Safety Information" st.healthAndSafety
        = [el "drmd:healthAndSafetyInformation" [el "dcc:name" [contentEl "Health And Safety Information"], contentEl st.healthAndSafety]] := by
      unfold statementXml
      simp [hc]
    simp [e0, hc, e1, e2, e3, e4, e5, e6, e8]
    simp [el, contentEl, firstDirectContent, Xml.textContent, Forest.textContent, txt]

/-- `getSt` recovers the `legalNotice` statement content. -/
theorem getSt_stmt_legalNotice (st : OfficialStatements) :
    getSt (statementsXml st) "legalNotice" = st.legalNotice := by
  unfold getSt statementsXml
  have e1 := statementXml_flat_empty "intendedUse" "Intended Use" st.intendedUse "drmd:legalNotice"
    (by decide) (by decide) (by decide)
  have e2 := statementXml_flat_empty "storageInformation" "Storage Information" st.storageInformation "drmd:legalNotice"
    (by decide) (by decide) (by decide)
  have e3 := statementXml_flat_empty "instructionsForHandlingAndUse" "Handling Instructions" st.handlingInstructions "drmd:legalNotice"
    (by decide) (by decide) (by decide)
  have e4 := statementXml_flat_empty "metrologicalTraceability" "Metrological Traceability" st.metrologicalTraceability "drmd:legalNotice"
    (by decide) (by decide) (by decide)
  have e5 := statementXml_flat_empty "subcontractors" "Subcontractors" st.subcontractors "drmd:legalNotice"
    (by decide) (by decide) (by decide)
  have e6 := statementXml_flat_empty "referenceToCertificationReport" "Reference to Certification Report" st.referenceToCertificationReport "drmd:legalNotice"
    (by decide) (by decide) (by decide)
  have e7 := statementXml_flat_empty "healthAndSafetyInformation" "Health And Safety Information" st.healthAndSafety "drmd:legalNotice"
    (by decide) (by decide) (by decide)
  by_cases hc : st.legalNotice = ""
  · have e0 : (statementXml "legalNotice" "Legal Notice" "").flatMap
        (fun x => topMatch "drmd:legalNotice" x ++ Xml.byTag "drmd:legalNotice" x) = [] := by
      unfold statementXml
      simp
    simp [e0, hc, e1, e2, e3, e4, e5, e6, e7]
  · have e0 : statementXml "legalNotice" "Legal Notice" st.legalNotice
        = [el "drmd:legalNotice" [el "dcc:name" [contentEl "Legal Notice"], contentEl st.legalNotice]] := by
      unfold statementXml
      simp [hc]
    simp [e0, hc, e1, e2, e3, e4, e5, e6, e7]
    simp [el, contentEl, firstDirectContent, Xml.textContent, Forest.textContent, txt]

/-- `topMatch` sees only the material element's own tag. -/
theorem materialXml_topMatch (t : String) (m : Material) :
    topMatch t (materialXml m) = if "drmd:material" = t then [materialXml m] else [] := by
  rw [materialXml]
  rfl

/-- No element outside the material vocabulary occurs below an encoded
material element. -/
theorem materialXml_inner_empty (m : Material) (t : String)
    (m1 : t ≠ "drmd:name")
    (m2 : t ≠ "dcc:content")
    (m3 : t ≠ "drmd:description")
    (m4 : t ≠ "drmd:minimumSampleSize")
    (m5 : t ≠ "dcc:itemQuantity")
    (m6 : t ≠ "drmd:itemQuantities")
    (m7 : t ≠ "drmd:real")
    (m8 : t ≠ "si:value")
    (m9 : t ≠ "si:unit")
    (m10 : t ≠ "drmd:noQuantity") :
    Xml.byTag t (materialXml m) = [] := by
  unfold materialXml materialKids
  have q1 := primQty_topMatch_empty m.minimumSampleSize t m7 m10
  have q2 := primQty_inner_empty m.minimumSampleSize t m8 m9 m2
  have q3 := primQty_topMatch_empty m.itemQuantities t m7 m10
  have q4 := primQty_inner_empty m.itemQuantities t m8 m9 m2
  by_cases hq : m.itemQuantities = "" <;>
    simp [hq, q1, q2, q3, q4, Ne.symm m1, Ne.symm m2, Ne.symm m3, Ne.symm m4,
      Ne.symm m5, Ne.symm m6]

/-- A forest of encoded materials contributes nothing for a foreign tag. -/
theorem flatMap_materialXml_empty (ms : List Material) (t : String)
    (m0 : t ≠ "drmd:material")
    (m1 : t ≠ "drmd:name")
    (m2 : t ≠ "dcc:content")
    (m3 : t ≠ "drmd:description")
    (m4 : t ≠ "drmd:minimumSampleSize")
    (m5 : t ≠ "dcc:itemQuantity")
    (m6 : t ≠ "drmd:itemQuantities")
    (m7 : t ≠ "drmd:real")
    (m8 : t ≠ "si:value")
    (m9 : t ≠ "si:unit")
    (m10 : t ≠ "drmd:noQuantity") :
    (ms.map materialXml).flatMap (fun x => topMatch t x ++ Xml.byTag t x) = [] := by
  rw [List.flatMap_eq_nil_iff]
  intro x hx
  obtain ⟨m, hm, rfl⟩ := List.mem_map.mp hx
  rw [materialXml_topMatch, if_neg (Ne.symm m0),
    materialXml_inner_empty m t m1 m2 m3 m4 m5 m6 m7 m8 m9 m10]
  rfl

/-- Searching a forest of encoded materials for their own tag returns exactly
those elements. -/
theorem flatMap_materialXml_self (ms : List Material) :
    (ms.map materialXml).flatMap
        (fun x => topMatch "drmd:material" x ++ Xml.byTag "drmd:material" x)
      = ms.map materialXml := by
  induction ms with
  | nil => rfl
  | cons m rest ih =>
      have hempty : Xml.byTag "drmd:material" (materialXml m) = [] :=
        materialXml_inner_empty m _ (by decide) (by decide) (by decide) (by decide) (by decide) (by decide) (by decide) (by decide) (by decide) (by decide)
      simp [ih, hempty, materialXml_topMatch]

/-- `topMatch` sees only the property element's own tag. -/
theorem propertyXml_topMatch (t : String) (p : MaterialProperty) :
    topMatch t (propertyXml p) = if "drmd:materialProperties" = t then [propertyXml p] else [] := by
  rw [propertyXml]
  rfl

/-- No element outside the property vocabulary occurs below an encoded
property element. -/
theorem propertyXml_inner_empty (p : MaterialProperty) (t : String)
    (p1 : t ≠ "drmd:name")
    (p2 : t ≠ "dcc:content")
    (p3 : t ≠ "drmd:description")
    (p4 : t ≠ "drmd:procedures")
    (p5 : t ≠ "dcc:usedMethod")
    (p6 : t ≠ "dcc:name")
    (p7 : t ≠ "dcc:description")
    (p8 : t ≠ "drmd:results")
    (p9 : t ≠ "drmd:result")
    (p10 : t ≠ "drmd:data")
    (p11 : t ≠ "drmd:list")
    (p12 : t ≠ "drmd:quantity")
    (p13 : t ≠ "si:real")
    (p14 : t ≠ "si:value")
    (p15 : t ≠ "si:unit")
    (p16 : t ≠ "si:measurementUncertaintyUnivariate")
    (p17 : t ≠ "si:expandedMU")
    (p18 : t ≠ "si:valueExpandedMU")
    (p19 : t ≠ "si:coverageFactor")
    (p20 : t ≠ "si:coverageProbability")
    (p21 : t ≠ "drmd:propertyIdentifiers")
    (p22 : t ≠ "drmd:propertyIdentifier")
    (p23 : t ≠ "drmd:scheme")
    (p24 : t ≠ "drmd:value")
    (p25 : t ≠ "drmd:link") :
    Xml.byTag t (propertyXml p) = [] := by
  unfold propertyXml propertyKids
  have hres := flatMap_resultXml_empty p.results t p9 p1 p3 p10 p11 p12 p6 p2 p13 p14 p15 p16 p17 p18 p19 p20 p21 p22 p23 p24 p25
  by_cases hd : p.description = "" <;> by_cases hp2 : p.procedures = "" <;>
    simp [hd, hp2, hres, Ne.symm p1, Ne.symm p2, Ne.symm p3, Ne.symm p4, Ne.symm p5,
      Ne.symm p6, Ne.symm p7, Ne.symm p8]

/-- A forest of encoded properties contributes nothing for a foreign tag. -/
theorem flatMap_propertyXml_empty (ps : List MaterialProperty) (t : String)
    (p0 : t ≠ "drmd:materialProperties")
    (p1 : t ≠ "drmd:name")
    (p2 : t ≠ "dcc:content")
    (p3 : t ≠ "drmd:description")
    (p4 : t ≠ "drmd:procedures")
    (p5 : t ≠ "dcc:usedMethod")
    (p6 : t ≠ "dcc:name")
    (p7 : t ≠ "dcc:description")
    (p8 : t ≠ "drmd:results")
    (p9 : t ≠ "drmd:result")
    (p10 : t ≠ "drmd:data")
    (p11 : t ≠ "drmd:list")
    (p12 : t ≠ "drmd:quantity")
    (p13 : t ≠ "si:real")
    (p14 : t ≠ "si:value")
    (p15 : t ≠ "si:unit")
    (p16 : t ≠ "si:measurementUncertaintyUnivariate")
    (p17 : t ≠ "si:expandedMU")
    (p18 : t ≠ "si:valueExpandedMU")
    (p19 : t ≠ "si:coverageFactor")
    (p20 : t ≠ "si:coverageProbability")
    (p21 : t ≠ "drmd:propertyIdentifiers")
    (p22 : t ≠ "drmd:propertyIdentifier")
    (p23 : t ≠ "drmd:scheme")
    (p24 : t ≠ "drmd:value")
    (p25 : t ≠ "drmd:link") :
    (ps.map propertyXml).flatMap (fun x => topMatch t x ++ Xml.byTag t x) = [] := by
  rw [List.flatMap_eq_nil_iff]
  intro x hx
  obtain ⟨p, hp, rfl⟩ := List.mem_map.mp hx
  rw [propertyXml_topMatch, if_neg (Ne.symm p0),
    propertyXml_inner_empty p t p1 p2 p3 p4 p5 p6 p7 p8 p9 p10 p11 p12 p13 p14 p15 p16
      p17 p18 p19 p20 p21 p22 p23 p24 p25]
  rfl

/-- Searching a forest of encoded properties for their own tag returns
exactly those elements. -/
theorem flatMap_propertyXml_self (ps : List MaterialProperty) :
    (ps.map propertyXml).flatMap
        (fun x => topMatch "drmd:materialProperties" x ++ Xml.byTag "drmd:materialProperties" x)
      = ps.map propertyXml := by
  induction ps with
  | nil => rfl
  | cons p rest ih =>
      have hempty : Xml.byTag "drmd:materialProperties" (propertyXml p) = [] :=
        propertyXml_inner_empty p _ (by decide) (by decide) (by decide) (by decide) (by decide) (by decide) (by decide) (by decide) (by decide) (by decide) (by decide) (by decide) (by decide) (by decide) (by decide) (by decide) (by decide) (by decide) (by decide) (by decide) (by decide) (by decide) (by decide) (by decide) (by decide)
      simp [ih, hempty, propertyXml_topMatch]

/-- `topMatch` sees only the administrative element's own tag. -/
theorem adminXml_topMatch (t : String) (a : AdministrativeData) :
    topMatch t (adminXml a) = if "drmd:administrativeData" = t then [adminXml a] else [] := by
  rw [adminXml]
  rfl

/-- `topMatch` sees only the statements element's own tag. -/
theorem statementsXml_topMatch (t : String) (st : OfficialStatements) :
    topMatch t (statementsXml st) = if "drmd:statements" = t then [statementsXml st] else [] := by
  rw [statementsXml]
  rfl

/-- No element outside the administrative vocabulary occurs below an encoded
administrative block. -/
theorem adminXml_inner_empty (a : AdministrativeData) (t : String)
    (a1 : t ≠ "drmd:coreData")
    (a2 : t ≠ "drmd:titleOfTheDocument")
    (a3 : t ≠ "drmd:uniqueIdentifier")
    (a4 : t ≠ "drmd:validity")
    (a5 : t ≠ "drmd:untilRevoked")
    (a6 : t ≠ "drmd:specificTime")
    (a7 : t ≠ "drmd:timeAfterDispatch")
    (a8 : t ≠ "drmd:dispatchDate")
    (a9 : t ≠ "drmd:period")
    (a10 : t ≠ "drmd:referenceMaterialProducer")
    (a11 : t ≠ "drmd:name")
    (a12 : t ≠ "dcc:content")
    (a13 : t ≠ "drmd:contact")
    (a14 : t ≠ "dcc:name")
    (a15 : t ≠ "dcc:eMail")
    (a16 : t ≠ "dcc:phone")
    (a17 : t ≠ "dcc:fax")
    (a18 : t ≠ "dcc:location")
    (a19 : t ≠ "dcc:street")
    (a20 : t ≠ "dcc:streetNo")
    (a21 : t ≠ "dcc:postCode")
    (a22 : t ≠ "dcc:city")
    (a23 : t ≠ "dcc:countryCode")
    (a24 : t ≠ "drmd:respPersons")
    (a25 : t ≠ "dcc:respPerson")
    (a26 : t ≠ "dcc:person")
    (a27 : t ≠ "dcc:description")
    (a28 : t ≠ "dcc:role")
    (a29 : t ≠ "dcc:mainSigner") :
    Xml.byTag t (adminXml a) = [] := by
  unfold adminXml
  have hcore := coreXml_inner_empty a t a2 a3 a4 a5 a6 a7 a8 a9
  have hprod := flatMap_producerXml_empty a.producers t a10 a11 a12 a13 a14 a15 a16 a17
    a18 a19 a20 a21 a22 a23
  have hpers := flatMap_personXml_empty a.responsiblePersons t a25 a26 a14 a12 a27 a28 a29
  by_cases hlen : a.responsiblePersons.length > 0 <;>
    simp [hlen, hcore, hprod, hpers, coreXml_topMatch, Ne.symm a1, Ne.symm a24]

/-- The `drmd:administrativeData` elements of the encoded document. -/
theorem gen_doc_admin (d : DRMD) :
    (generateDrmdXml d).docByTag "drmd:administrativeData" = [adminXml d.administrativeData] := by
  unfold generateDrmdXml Xml.docByTag
  have hadm := adminXml_inner_empty d.administrativeData "drmd:administrativeData" (by decide) (by decide) (by decide) (by decide) (by decide) (by decide) (by decide) (by decide) (by decide) (by decide) (by decide) (by decide) (by decide) (by decide) (by decide) (by decide) (by decide) (by decide) (by decide) (by decide) (by decide) (by decide) (by decide) (by decide) (by decide) (by decide) (by decide) (by decide) (by decide)
  have hmat := flatMap_materialXml_empty d.materials "drmd:administrativeData" (by decide) (by decide) (by decide) (by decide) (by decide) (by decide) (by decide) (by decide) (by decide) (by decide) (by decide)
  have hprop := flatMap_propertyXml_empty d.properties "drmd:administrativeData" (by decide) (by decide) (by decide) (by decide) (by decide) (by decide) (by decide) (by decide) (by decide) (by decide) (by decide) (by decide) (by decide) (by decide) (by decide) (by decide) (by decide) (by decide) (by decide) (by decide) (by decide) (by decide) (by decide) (by decide) (by decide) (by decide)
  have hst := statementsXml_inner_empty d.statements.official "drmd:administrativeData" (by decide) (by decide) (by decide) (by decide) (by decide) (by decide) (by decide) (by decide) (by decide) (by decide)
  by_cases hgc : d.generalComment = "" <;>
    cases hbd : d.binaryDocument with
    | none =>
        simp [hgc, hadm, hmat, hprop, hst, adminXml_topMatch, statementsXml_topMatch]
    | some b =>
        by_cases hdata : b.data = "" <;>
          simp [hgc, hdata, hadm, hmat, hprop, hst, adminXml_topMatch, statementsXml_topMatch]

/-- The `drmd:material` elements of the encoded document. -/
theorem gen_doc_material (d : DRMD) :
    (generateDrmdXml d).docByTag "drmd:material" = d.materials.map materialXml := by
  unfold generateDrmdXml Xml.docByTag
  have hadm := adminXml_inner_empty d.administrativeData "drmd:material" (by decide) (by decide) (by decide) (by decide) (by decide) (by decide) (by decide) (by decide) (by decide) (by decide) (by decide) (by decide) (by decide) (by decide) (by decide) (by decide) (by decide) (by decide) (by decide) (by decide) (by decide) (by decide) (by decide) (by decide) (by decide) (by decide) (by decide) (by decide) (by decide)
  have hprop := flatMap_propertyXml_empty d.properties "drmd:material" (by decide) (by decide) (by decide) (by decide) (by decide) (by decide) (by decide) (by decide) (by decide) (by decide) (by decide) (by decide) (by decide) (by decide) (by decide) (by decide) (by decide) (by decide) (by decide) (by decide) (by decide) (by decide) (by decide) (by decide) (by decide) (by decide)
  have hst := statementsXml_inner_empty d.statements.official "drmd:material" (by decide) (by decide) (by decide) (by decide) (by decide) (by decide) (by decide) (by decide) (by decide) (by decide)
  have hms := flatMap_materialXml_self d.materials
  by_cases hgc : d.generalComment = "" <;>
    cases hbd : d.binaryDocument with
    | none =>
        simp [hgc, hadm, hprop, hst, adminXml_topMatch, statementsXml_topMatch, hms]
    | some b =>
        by_cases hdata : b.data = "" <;>
          simp [hgc, hdata, hadm, hprop, hst, adminXml_topMatch, statementsXml_topMatch, hms]

/-- The `drmd:materialProperties` elements of the encoded document. -/
theorem gen_doc_props (d : DRMD) :
    (generateDrmdXml d).docByTag "drmd:materialProperties" = d.properties.map propertyXml := by
  unfold generateDrmdXml Xml.docByTag
  have hadm := adminXml_inner_empty d.administrativeData "drmd:materialProperties" (by decide) (by decide) (by decide) (by decide) (by decide) (by decide) (by decide) (by decide) (by decide) (by decide) (by decide) (by decide) (by decide) (by decide) (by decide) (by decide) (by decide) (by decide) (by decide) (by decide) (by decide) (by decide) (by decide) (by decide) (by decide) (by decide) (by decide) (by decide) (by decide)
  have hmat := flatMap_materialXml_empty d.materials "drmd:materialProperties" (by decide) (by decide) (by decide) (by decide) (by decide) (by decide) (by decide) (by decide) (by decide) (by decide) (by decide)
  have hst := statementsXml_inner_empty d.statements.official "drmd:materialProperties" (by decide) (by decide) (by decide) (by decide) (by decide) (by decide) (by decide) (by decide) (by decide) (by decide)
  have hps := flatMap_propertyXml_self d.properties
  by_cases hgc : d.generalComment = "" <;>
    cases hbd : d.binaryDocument with
    | none =>
        simp [hgc, hadm, hmat, hst, adminXml_topMatch, statementsXml_topMatch, hps]
    | some b =>
        by_cases hdata : b.data = "" <;>
          simp [hgc, hdata, hadm, hmat, hst, adminXml_topMatch, statementsXml_topMatch, hps]

/-- The `drmd:statements` elements of the encoded document. -/
theorem gen_doc_statements (d : DRMD) :
    (generateDrmdXml d).docByTag "drmd:statements" = [statementsXml d.statements.official] := by
  unfold generateDrmdXml Xml.docByTag
  have hadm := adminXml_inner_empty d.administrativeData "drmd:statements" (by decide) (by decide) (by decide) (by decide) (by decide) (by decide) (by decide) (by decide) (by decide) (by decide) (by decide) (by decide) (by decide) (by decide) (by decide) (by decide) (by decide) (by decide) (by decide) (by decide) (by decide) (by decide) (by decide) (by decide) (by decide) (by decide) (by decide) (by decide) (by decide)
  have hmat := flatMap_materialXml_empty d.materials "drmd:statements" (by decide) (by decide) (by decide) (by decide) (by decide) (by decide) (by decide) (by decide) (by decide) (by decide) (by decide)
  have hprop := flatMap_propertyXml_empty d.properties "drmd:statements" (by decide) (by decide) (by decide) (by decide) (by decide) (by decide) (by decide) (by decide) (by decide) (by decide) (by decide) (by decide) (by decide) (by decide) (by decide) (by decide) (by decide) (by decide) (by decide) (by decide) (by decide) (by decide) (by decide) (by decide) (by decide) (by decide)
  have hst := statementsXml_inner_empty d.statements.official "drmd:statements" (by decide) (by decide) (by decide) (by decide) (by decide) (by decide) (by decide) (by decide) (by decide) (by decide)
  by_cases hgc : d.generalComment = "" <;>
    cases hbd : d.binaryDocument with
    | none =>
        simp [hgc, hadm, hmat, hprop, hst, adminXml_topMatch, statementsXml_topMatch]
    | some b =>
        by_cases hdata : b.data = "" <;>
          simp [hgc, hdata, hadm, hmat, hprop, hst, adminXml_topMatch, statementsXml_topMatch]

/-- The `drmd:comment` elements of the encoded document. -/
theorem gen_doc_comment (d : DRMD) :
    (generateDrmdXml d).docByTag "drmd:comment" = if d.generalComment = "" then [] else [el "drmd:comment" [txt d.generalComment]] := by
  unfold generateDrmdXml Xml.docByTag
  have hadm := adminXml_inner_empty d.administrativeData "drmd:comment" (by decide) (by decide) (by decide) (by decide) (by decide) (by decide) (by decide) (by decide) (by decide) (by decide) (by decide) (by decide) (by decide) (by decide) (by decide) (by decide) (by decide) (by decide) (by decide) (by decide) (by decide) (by decide) (by decide) (by decide) (by decide) (by decide) (by decide) (by decide) (by decide)
  have hmat := flatMap_materialXml_empty d.materials "drmd:comment" (by decide) (by decide) (by decide) (by decide) (by decide) (by decide) (by decide) (by decide) (by decide) (by decide) (by decide)
  have hprop := flatMap_propertyXml_empty d.properties "drmd:comment" (by decide) (by decide) (by decide) (by decide) (by decide) (by decide) (by decide) (by decide) (by decide) (by decide) (by decide) (by decide) (by decide) (by decide) (by decide) (by decide) (by decide) (by decide) (by decide) (by decide) (by decide) (by decide) (by decide) (by decide) (by decide) (by decide)
  have hst := statementsXml_inner_empty d.statements.official "drmd:comment" (by decide) (by decide) (by decide) (by decide) (by decide) (by decide) (by decide) (by decide) (by decide) (by decide)
  by_cases hgc : d.generalComment = "" <;>
    cases hbd : d.binaryDocument with
    | none =>
        simp [hgc, hadm, hmat, hprop, hst, adminXml_topMatch, statementsXml_topMatch]
    | some b =>
        by_cases hdata : b.data = "" <;>
          simp [hgc, hdata, hadm, hmat, hprop, hst, adminXml_topMatch, statementsXml_topMatch]

/-- The `drmd:document` elements of the encoded document. -/
theorem gen_doc_document (d : DRMD) :
    (generateDrmdXml d).docByTag "drmd:document" = match d.binaryDocument with
      | some b => if b.data = "" then [] else [el "drmd:document" [txt b.data]]
      | none => [] := by
  unfold generateDrmdXml Xml.docByTag
  have hadm := adminXml_inner_empty d.administrativeData "drmd:document" (by decide) (by decide) (by decide) (by decide) (by decide) (by decide) (by decide) (by decide) (by decide) (by decide) (by decide) (by decide) (by decide) (by decide) (by decide) (by decide) (by decide) (by decide) (by decide) (by decide) (by decide) (by decide) (by decide) (by decide) (by decide) (by decide) (by decide) (by decide) (by decide)
  have hmat := flatMap_materialXml_empty d.materials "drmd:document" (by decide) (by decide) (by decide) (by decide) (by decide) (by decide) (by decide) (by decide) (by decide) (by decide) (by decide)
  have hprop := flatMap_propertyXml_empty d.properties "drmd:document" (by decide) (by decide) (by decide) (by decide) (by decide) (by decide) (by decide) (by decide) (by decide) (by decide) (by decide) (by decide) (by decide) (by decide) (by decide) (by decide) (by decide) (by decide) (by decide) (by decide) (by decide) (by decide) (by decide) (by decide) (by decide) (by decide)
  have hst := statementsXml_inner_empty d.statements.official "drmd:document" (by decide) (by decide) (by decide) (by decide) (by decide) (by decide) (by decide) (by decide) (by decide) (by decide)
  by_cases hgc : d.generalComment = "" <;>
    cases hbd : d.binaryDocument with
    | none =>
        simp [hgc, hadm, hmat, hprop, hst, adminXml_topMatch, statementsXml_topMatch]
    | some b =>
        by_cases hdata : b.data = "" <;>
          simp [hgc, hdata, hadm, hmat, hprop, hst, adminXml_topMatch, statementsXml_topMatch]

/-- Decoding a document whose only statements block is the encoder's
restores every official statement except commutability (never encoded). -/
theorem parseStatements_of (s0 : Statements) (doc : Xml) (st : OfficialStatements)
    (hdoc : doc.docByTag "drmd:statements" = [statementsXml st]) :
    parseStatements s0 doc
      = { s0 with official := { s0.official with
            intendedUse := st.intendedUse
            storageInformation := st.storageInformation
            handlingInstructions := st.handlingInstructions
            metrologicalTraceability := st.metrologicalTraceability
            subcontractors := st.subcontractors
            referenceToCertificationReport := st.referenceToCertificationReport
            healthAndSafety := st.healthAndSafety
            legalNotice := st.legalNotice } } := by
  unfold parseStatements
  rw [hdoc]
  simp only [List.head?_cons, getSt_stmt_intendedUse, getSt_stmt_storageInformation,
    getSt_stmt_instructionsForHandlingAndUse, getSt_stmt_metrologicalTraceability,
    getSt_stmt_subcontractors, getSt_stmt_referenceToCertificationReport,
    getSt_stmt_healthAndSafetyInformation, getSt_stmt_legalNotice]

/-- The official-statement view surviving the round trip (commutability is
not persisted and resets to the initial empty string). -/
def expectedOfficial (st : OfficialStatements) : OfficialStatements :=
  { INITIAL_OFFICIAL with
      intendedUse := st.intendedUse
      storageInformation := st.storageInformation
      handlingInstructions := st.handlingInstructions
      metrologicalTraceability := st.metrologicalTraceability
      subcontractors := st.subcontractors
      referenceToCertificationReport := st.referenceToCertificationReport
      healthAndSafety := st.healthAndSafety
      legalNotice := st.legalNotice }

/-- The document the decoder restores from the encoder's output: the precise
per-section views (this is the corrected round-trip contract). -/
def expectedDRMD (today u : String) (d : DRMD) : DRMD :=
  { administrativeData :=
      expectedAdmin u (INITIAL_DRMD today).administrativeData d.administrativeData
    materials := d.materials.map (expectedMaterial u)
    properties := d.properties.map (expectedProperty u)
    statements := { official := expectedOfficial d.statements.official, custom := [] }
    comments := []
    documents := []
    generalComment := d.generalComment
    binaryDocument :=
      match d.binaryDocument with
      | some b =>
          if b.data = "" then none
          else some { fileName := "imported_document.pdf", mimeType := "application/pdf"
                      data := String.mk (trimChars b.data.data) }
      | none => none }

/-- C1: corrected round-trip contract.  Decoding the encoder's output does
not reproduce every scalar field; it reproduces exactly the `expectedDRMD`
view: names, values, descriptions, statements, comment and attachment
survive (the latter trimmed), while crypt flags, commutability, material
class and certification flags, unit display fields and unrecognised
validity data fall back to the initial-document defaults. -/
theorem C1_roundtrip (today u : String) (d : DRMD) :
    parseDrmdXml today u (generateDrmdXml d) = expectedDRMD today u d := by
  have hmm : List.map (parseMaterial u) (d.materials.map materialXml)
      = d.materials.map (expectedMaterial u) := by
    rw [List.map_map]
    apply List.map_congr_left
    intro m hm
    exact parseMaterial_full u m
  have hpp : List.map (parseProperty u) (d.properties.map propertyXml)
      = d.properties.map (expectedProperty u) := by
    rw [List.map_map]
    apply List.map_congr_left
    intro p hp
    exact parseProperty_roundtrip u p
  simp only [parseDrmdXml]
  unfold getTagContentDoc
  rw [gen_doc_material, gen_doc_props, gen_doc_comment, gen_doc_document,
    parseAdmin_of u ((INITIAL_DRMD today).administrativeData) d.administrativeData
      (generateDrmdXml d) (gen_doc_admin d),
    parseStatements_of _ _ d.statements.official (gen_doc_statements d)]
  unfold expectedDRMD
  by_cases hm : d.materials = [] <;> by_cases hp : d.properties = [] <;>
    by_cases hgc : d.generalComment = "" <;>
      cases hbd : d.binaryDocument with
      | none =>
          simp [hm, hp, hgc, hmm, hpp, expectedOfficial, List.length_pos,
            INITIAL_DRMD, INITIAL_OFFICIAL]
      | some b =>
          by_cases hdata : b.data = "" <;>
            simp [hm, hp, hgc, hdata, hmm, hpp, expectedOfficial, List.length_pos,
              INITIAL_DRMD, INITIAL_OFFICIAL]

/-- A document exercising a scalar field the round trip loses. -/
def c1doc : DRMD :=
  { INITIAL_DRMD "2024-01-01" with
      administrativeData :=
        { (INITIAL_DRMD "2024-01-01").administrativeData with
            responsiblePersons :=
              [{ INITIAL_PERSON with name := "A", cryptElectronicSeal := true }] } }

/-- C1: the literal claim fails — the person's electronic-seal flag is a
scalar field that does not survive the round trip. -/
theorem C1_counterexample :
    ((parseDrmdXml "2024-01-01" "u" (generateDrmdXml c1doc)).administrativeData.responsiblePersons.map
        (fun p => p.cryptElectronicSeal))
      ≠ c1doc.administrativeData.responsiblePersons.map (fun p => p.cryptElectronicSeal) := by
  decide
